import Mathlib

/-!
# LoRaWAN network server: per-device protocol state machine

A shallow embedding of `src/lorawan/model/lorawan-gateway-application.cc`
(class `LoRaWANNetworkServer`): uplink classification (`HandleUSPacket`), the two
receive-window handlers (`RW1TimerExpired`, `RW2TimerExpired`), the downlink
composer (`SendDSPacket`) and the downstream traffic generator (`DSTimerExpired`).

Modelling conventions.

* Simulation time (`ns3::Time`) is an integer number of nanoseconds; the handlers
  receive `Simulator::Now ()` as the argument `now`.
* `Ptr<LoRaWANGatewayApplication>` is a gateway identifier (`Nat`); a packet is
  its payload bytes together with the header and tags attached to it.
* The device table `m_endDevices` is a finite map, embedded as a function
  `Nat → Option LoRaWANEndDeviceInfoNS`.
* Calls to `Simulator::Schedule` and to `LoRaWANGatewayApplication::SendDSPacket`
  are recorded, in call order, in the fields `scheduled` and `transmitted`.
* The record and queue-element types are declared in
  `lorawan-gateway-application.h`, the constants in `lorawan.h`; neither header
  is among the sources.  Fields carry the names used by the `.cc` file, the
  constants are the fields of `LoRaWANConstants`, and integer fields are natural
  numbers: the statistics and frame counters are not reduced modulo a width, so
  the development speaks about runs in which no counter wraps around.  The one
  decrement of the program, of `m_downstreamTransmissionsRemaining`, does wrap
  around at 0 (`decrement`), to the largest value of the field's type.
* A handler that ends in `NS_FATAL_ERROR`, in a failing `NS_ASSERT`, or that
  dereferences `m_endDevices.end ()` returns `none`.
-/

namespace LoRaWAN

/-- MAC message types carried by `LoRaWANMsgTypeTag` (enumeration of `lorawan.h`). -/
inductive LoRaWANMsgType where
  | LORAWAN_JOIN_REQUEST
  | LORAWAN_JOIN_ACCEPT
  | LORAWAN_UNCONFIRMED_DATA_UP
  | LORAWAN_UNCONFIRMED_DATA_DOWN
  | LORAWAN_CONFIRMED_DATA_UP
  | LORAWAN_CONFIRMED_DATA_DOWN
  | LORAWAN_RFU
  | LORAWAN_PROPRIETARY
  deriving DecidableEq, Repr

open LoRaWANMsgType

/-- Contents of a `LoRaWANPhyParamsTag`. -/
structure LoRaWANPhyParamsTag where
  channelIndex : Nat
  dataRateIndex : Nat
  codeRate : Nat
  deriving DecidableEq, Repr

/-- Fields of `LoRaWANFrameHeader` read or written by the network server.
`framePort` is `none` when `setFramePort` was not called. -/
structure LoRaWANFrameHeader where
  devAddr : Nat
  ack : Bool
  framePending : Bool
  frameCounter : Nat
  framePort : Option Nat
  deriving DecidableEq, Repr

/-- An upstream packet as handed to `HandleUSPacket`: frame header plus the two
packet tags, each of which may be absent (`RemovePacketTag` returns false). -/
structure USPacket where
  frmHdr : LoRaWANFrameHeader
  phyParamsTag : Option LoRaWANPhyParamsTag
  msgTypeTag : Option LoRaWANMsgType
  deriving DecidableEq, Repr

/-- A downstream packet as handed to a gateway: payload, header and tags. -/
structure DSPacket where
  payload : List Nat
  fhdr : LoRaWANFrameHeader
  phyParamsTag : LoRaWANPhyParamsTag
  msgTypeTag : LoRaWANMsgType
  deriving DecidableEq, Repr

/-- Element of a device's downstream queue. -/
structure LoRaWANNSDSQueueElement where
  m_downstreamPacket : List Nat
  m_downstreamMsgType : LoRaWANMsgType
  m_downstreamFramePort : Nat
  m_downstreamTransmissionsRemaining : Nat
  m_isRetransmission : Bool
  deriving DecidableEq, Repr

/-- Per-device record kept by the network server.  A timer field holds the time
stamp of the event it was last assigned by `Simulator::Schedule`. -/
structure LoRaWANEndDeviceInfoNS where
  m_deviceAddress : Nat
  m_rx1DROffset : Nat
  m_lastGWs : List Nat
  m_lastDSGW : Option Nat
  m_lastChannelIndex : Nat
  m_lastDataRateIndex : Nat
  m_lastCodeRate : Nat
  m_lastSeen : Int
  m_fCntUp : Nat
  m_fCntDown : Nat
  m_setAck : Bool
  m_framePending : Bool
  m_nUSPackets : Nat
  m_nUniqueUSPackets : Nat
  m_nUSDuplicates : Nat
  m_nUSRetransmission : Nat
  m_nUSAcks : Nat
  m_nDSPacketsGenerated : Nat
  m_nDSPacketsSent : Nat
  m_nDSPacketsSentRW1 : Nat
  m_nDSPacketsSentRW2 : Nat
  m_nDSRetransmission : Nat
  m_nDSAcks : Nat
  m_downstreamQueue : List LoRaWANNSDSQueueElement
  m_downstreamTimer : Option Int
  m_rw1Timer : Option Int
  m_rw2Timer : Option Int
  deriving DecidableEq, Repr

/-- The member function a scheduled event will call. -/
inductive TimerHandler where
  | RW1TimerExpired
  | RW2TimerExpired
  | DSTimerExpired
  deriving DecidableEq, Repr

/-- One call of `Simulator::Schedule`: absolute firing time, handler, device key. -/
structure ScheduledEvent where
  ts : Int
  handler : TimerHandler
  key : Nat
  deriving DecidableEq, Repr

/-- Constants and helpers of `lorawan.h` used by the network server, and the one
type bound of `lorawan-gateway-application.h` the server's arithmetic depends on:
`maxTransmissionsRemaining` is the largest value of the unsigned integer type of
`m_downstreamTransmissionsRemaining` (255 if that type is `uint8_t`). -/
structure LoRaWANConstants where
  RECEIVE_DELAY1 : Nat
  RECEIVE_DELAY2 : Nat
  DEFAULT_NUMBER_DS_TRANSMISSIONS : Nat
  m_RW2ChannelIndex : Nat
  m_RW2DataRateIndex : Nat
  GetRX1DataRateIndex : Nat → Nat → Nat
  maxTransmissionsRemaining : Nat

/-- State of the `LoRaWANNetworkServer` object together with the record of its
calls into the simulator (`scheduled`) and into the gateways (`transmitted`). -/
structure LoRaWANNetworkServer where
  m_endDevices : Nat → Option LoRaWANEndDeviceInfoNS
  m_pktSize : Nat
  m_generateDataDown : Bool
  m_confirmedData : Bool
  scheduled : List ScheduledEvent
  transmitted : List (Nat × DSPacket)

/-- Answer of `LoRaWANGatewayApplication::CanSendImmediatelyOnChannel`: it is
decided by the gateway's net device, so it may depend on what has been handed to
the gateways so far; arguments are that record, the gateway and the channel. -/
abbrev CanSend := List (Nat × DSPacket) → Nat → Nat → Bool

/-- The time `Seconds (x)`, in nanoseconds. -/
def Seconds (x : Int) : Int := x * 1000000000

/-- The time `MicroSeconds (x)`, in nanoseconds. -/
def MicroSeconds (x : Int) : Int := x * 1000

/-- Assignment `m_endDevices[key] = info`. -/
def setDevice (s : LoRaWANNetworkServer) (key : Nat) (info : LoRaWANEndDeviceInfoNS) :
    LoRaWANNetworkServer :=
  { s with m_endDevices := fun k => if k = key then some info else s.m_endDevices k }

/-- Modelled from the spec: the default-constructed `LoRaWANEndDeviceInfoNS` (its
constructor is in the absent header `lorawan-gateway-application.h`): a record
with zero counters, empty relay set and queue, flags cleared, no timer, and
last-seen time zero. -/
def defaultEndDeviceInfo : LoRaWANEndDeviceInfoNS :=
  { m_deviceAddress := 0, m_rx1DROffset := 0, m_lastGWs := [], m_lastDSGW := none,
    m_lastChannelIndex := 0, m_lastDataRateIndex := 0, m_lastCodeRate := 0,
    m_lastSeen := 0, m_fCntUp := 0, m_fCntDown := 0, m_setAck := false,
    m_framePending := false, m_nUSPackets := 0, m_nUniqueUSPackets := 0,
    m_nUSDuplicates := 0, m_nUSRetransmission := 0, m_nUSAcks := 0,
    m_nDSPacketsGenerated := 0, m_nDSPacketsSent := 0, m_nDSPacketsSentRW1 := 0,
    m_nDSPacketsSentRW2 := 0, m_nDSRetransmission := 0, m_nDSAcks := 0,
    m_downstreamQueue := [], m_downstreamTimer := none, m_rw1Timer := none,
    m_rw2Timer := none }

/-- Embedding of `LoRaWANNetworkServer::InitEndDeviceInfo` (lines 124-141).  `t` is the interval drawn from
`m_downstreamIATRandomVariable` (used only when `m_generateDataDown`). -/
def InitEndDeviceInfo (s : LoRaWANNetworkServer) (now : Int) (ipv4DevAddr : Nat) (t : Int) :
    LoRaWANEndDeviceInfoNS × LoRaWANNetworkServer :=
  let key := ipv4DevAddr
  let info := { defaultEndDeviceInfo with m_deviceAddress := ipv4DevAddr, m_rx1DROffset := 0 }
  if s.m_generateDataDown then
    ({ info with m_downstreamTimer := some (now + t) },
     { s with scheduled := s.scheduled ++ [⟨now + t, TimerHandler.DSTimerExpired, key⟩] })
  else
    (info, s)

/-- Embedding of `LoRaWANNetworkServer::HandleUSPacket` (lines 154-264), after the
frame header has been decoded.  `lastGW` is the receiving gateway,
`t` the interval drawn if the device record has to be allocated. -/
def HandleUSPacket (K : LoRaWANConstants) (s : LoRaWANNetworkServer) (now : Int)
    (lastGW : Nat) (packet : USPacket) (t : Int) : LoRaWANNetworkServer :=
  let frmHdr := packet.frmHdr
  let key := frmHdr.devAddr
  -- find end device meta data, allocating it when not found
  let found : LoRaWANEndDeviceInfoNS × LoRaWANNetworkServer :=
    match s.m_endDevices key with
    | some d => (d, s)
    | none => InitEndDeviceInfo s now key t
  let s0 := found.2
  let d0 := found.1
  -- always update number of received upstream packets
  let d1 := { d0 with m_nUSPackets := d0.m_nUSPackets + 1 }
  -- always update last seen GWs
  let d2 := { d1 with m_lastGWs := if now - d1.m_lastSeen > Seconds 1 then [] else d1.m_lastGWs }
  let d3 := { d2 with m_lastGWs := d2.m_lastGWs ++ [lastGW] }
  let firstRX : Bool := decide (frmHdr.frameCounter = 0)
  -- classification; the flag marks the early return of the duplicate branch
  let classified : LoRaWANEndDeviceInfoNS × Bool :=
    if frmHdr.frameCounter ≤ d3.m_fCntUp ∧ firstRX = false then
      if now - d3.m_lastSeen ≤ Seconds 1 then
        ({ d3 with m_nUSDuplicates := d3.m_nUSDuplicates + 1 }, true)
      else
        ({ d3 with m_nUSRetransmission := d3.m_nUSRetransmission + 1 }, false)
    else
      ({ d3 with m_nUniqueUSPackets := d3.m_nUniqueUSPackets + 1,
                 m_fCntUp := frmHdr.frameCounter }, false)
  if classified.2 then
    setDevice s0 key classified.1
  else
    let d4 := classified.1
    let d5 := { d4 with m_lastSeen := now }
    -- PhyRx packet tag
    let d6 := match packet.phyParamsTag with
      | some tag => { d5 with m_lastChannelIndex := tag.channelIndex,
                              m_lastDataRateIndex := tag.dataRateIndex,
                              m_lastCodeRate := tag.codeRate }
      | none => d5
    -- MAC message type packet tag
    let d7 := { d6 with m_setAck :=
      match packet.msgTypeTag with
      | some msgType => if msgType = LORAWAN_CONFIRMED_DATA_UP then true else d6.m_setAck
      | none => d6.m_setAck }
    -- Ack flag
    let d8 :=
      if frmHdr.ack then
        let d := { d7 with m_nUSAcks := d7.m_nUSAcks + 1 }
        match d.m_downstreamQueue with
        | front :: rest =>
            if front.m_downstreamMsgType = LORAWAN_CONFIRMED_DATA_DOWN then
              { d with m_downstreamQueue := rest }
            else d
        | [] => d
      else d7
    -- schedule RW1 (an already running timer is only logged)
    let receiveDelay := MicroSeconds K.RECEIVE_DELAY1
    let d9 := { d8 with m_rw1Timer := some (now + receiveDelay) }
    { setDevice s0 key d9 with
      scheduled := s0.scheduled ++ [⟨now + receiveDelay, TimerHandler.RW1TimerExpired, key⟩] }

/-- The statement `element->m_downstreamTransmissionsRemaining--` (line 363) on an
unsigned machine integer: the predecessor, and from 0 the wrap-around to the largest
value of the type. -/
def decrement (K : LoRaWANConstants) (n : Nat) : Nat :=
  if n = 0 then K.maxTransmissionsRemaining else n - 1

/-- Embedding of `LoRaWANNetworkServer::SendDSPacket` (lines 321-447).  A confirmed
head is deleted after the send only when its count is 1 before the decrement; with
count 0 the decrement wraps around and the element stays queued. -/
def SendDSPacket (K : LoRaWANConstants) (s : LoRaWANNetworkServer) (deviceAddr : Nat)
    (gatewayPtr : Nat) (RW1 RW2 : Bool) : Option LoRaWANNetworkServer :=
  match s.m_endDevices deviceAddr with
  | none => some s
  | some d =>
    -- figure out which DS packet to send: (packet, msg type, frame port),
    -- deleteQueueElement, and the record after the bookkeeping on the head
    let chosen : Option ((List Nat × LoRaWANMsgType × Nat) × Bool × LoRaWANEndDeviceInfoNS) :=
      match d.m_downstreamQueue with
      | element :: rest =>
          let elementToSend := (element.m_downstreamPacket, element.m_downstreamMsgType,
                                element.m_downstreamFramePort)
          let deleteQueueElement : Bool :=
            if element.m_downstreamMsgType ≠ LORAWAN_CONFIRMED_DATA_DOWN then true
            else if element.m_downstreamTransmissionsRemaining = 1 then true
            else false
          let d1 :=
            if element.m_downstreamMsgType = LORAWAN_CONFIRMED_DATA_DOWN then
              { d with
                m_nDSRetransmission :=
                  if element.m_isRetransmission then d.m_nDSRetransmission + 1
                  else d.m_nDSRetransmission,
                m_downstreamQueue :=
                  { element with
                    m_downstreamTransmissionsRemaining :=
                      decrement K element.m_downstreamTransmissionsRemaining,
                    m_isRetransmission := true } :: rest }
            else d
          some (elementToSend, deleteQueueElement, d1)
      | [] =>
          if d.m_setAck = false then none
          else some (([], LORAWAN_UNCONFIRMED_DATA_DOWN, 0), false, d)
    match chosen with
    | none => some s
    | some (elementToSend, deleteQueueElement, d1) =>
      let p := elementToSend.1
      -- frame header
      let fhdr : LoRaWANFrameHeader :=
        { devAddr := deviceAddr, ack := d1.m_setAck, framePending := d1.m_framePending,
          frameCounter := d1.m_fCntDown,
          framePort := if elementToSend.2.2 > 0 then some elementToSend.2.2 else none }
      let d2 := { d1 with m_fCntDown := d1.m_fCntDown + 1 }
      -- phy packet tag
      let phy : Option (Nat × Nat) :=
        if RW1 then
          some (d2.m_lastChannelIndex,
                K.GetRX1DataRateIndex d2.m_lastDataRateIndex d2.m_rx1DROffset)
        else if RW2 then some (K.m_RW2ChannelIndex, K.m_RW2DataRateIndex)
        else none
      match phy with
      | none => none
      | some (dsChannelIndex, dsDataRateIndex) =>
        let phyParamsTag : LoRaWANPhyParamsTag :=
          { channelIndex := dsChannelIndex, dataRateIndex := dsDataRateIndex,
            codeRate := d2.m_lastCodeRate }
        let frame : DSPacket :=
          { payload := p, fhdr := fhdr, phyParamsTag := phyParamsTag,
            msgTypeTag := elementToSend.2.1 }
        -- DS packet counters
        let d3 := { d2 with m_nDSPacketsSent := d2.m_nDSPacketsSent + 1 }
        let d4 :=
          if RW1 then { d3 with m_nDSPacketsSentRW1 := d3.m_nDSPacketsSentRW1 + 1 }
          else if RW2 then { d3 with m_nDSPacketsSentRW2 := d3.m_nDSPacketsSentRW2 + 1 }
          else d3
        let d5 := { d4 with m_nDSAcks := if d4.m_setAck then d4.m_nDSAcks + 1 else d4.m_nDSAcks }
        let d6 := { d5 with m_lastDSGW := some gatewayPtr }
        -- reset data structures
        let d7 := { d6 with m_setAck := false }
        let d8 := { d7 with m_downstreamQueue :=
          if deleteQueueElement then d7.m_downstreamQueue.tail else d7.m_downstreamQueue }
        some { setDevice s deviceAddr d8 with
               transmitted := s.transmitted ++ [(gatewayPtr, frame)] }

/-- The loop shared by `RW1TimerExpired` and `RW2TimerExpired`: for every gateway
of `m_lastGWs` that can send immediately on the channel, set `foundGW` and call
`SendDSPacket`.  The state is the server together with `foundGW`. -/
def windowLoop (K : LoRaWANConstants) (can : CanSend) (deviceAddr dsChannelIndex : Nat)
    (RW1 RW2 : Bool) :
    List Nat → LoRaWANNetworkServer × Bool → Option (LoRaWANNetworkServer × Bool)
  | [], acc => some acc
  | gw :: gws, (s, foundGW) =>
      if can s.transmitted gw dsChannelIndex then
        match SendDSPacket K s deviceAddr gw RW1 RW2 with
        | some s1 => windowLoop K can deviceAddr dsChannelIndex RW1 RW2 gws (s1, true)
        | none => none
      else
        windowLoop K can deviceAddr dsChannelIndex RW1 RW2 gws (s, foundGW)

/-- Embedding of `LoRaWANNetworkServer::RW1TimerExpired` (lines 266-295).  The
result is `none` when the device is unknown (the iterator is dereferenced without a
check) and when `NS_ASSERT (receiveDelay > 0)` fails. -/
def RW1TimerExpired (K : LoRaWANConstants) (can : CanSend) (s : LoRaWANNetworkServer)
    (now : Int) (deviceAddr : Nat) : Option LoRaWANNetworkServer :=
  let key := deviceAddr
  match s.m_endDevices key with
  | none => none
  | some d =>
    let dsChannelIndex := d.m_lastChannelIndex
    match windowLoop K can deviceAddr dsChannelIndex true false d.m_lastGWs (s, false) with
    | none => none
    | some (s1, foundGW) =>
      if foundGW = false then
        match s1.m_endDevices key with
        | none => none
        | some d1 =>
          let receiveDelay := (d1.m_lastSeen + MicroSeconds K.RECEIVE_DELAY2) - now
          if receiveDelay > 0 then
            some { setDevice s1 key { d1 with m_rw2Timer := some (now + receiveDelay) } with
                   scheduled := s1.scheduled ++
                     [⟨now + receiveDelay, TimerHandler.RW2TimerExpired, key⟩] }
          else none
      else some s1

/-- Embedding of `LoRaWANNetworkServer::RW2TimerExpired` (lines 297-319). -/
def RW2TimerExpired (K : LoRaWANConstants) (can : CanSend) (s : LoRaWANNetworkServer)
    (deviceAddr : Nat) : Option LoRaWANNetworkServer :=
  let key := deviceAddr
  match s.m_endDevices key with
  | none => none
  | some d =>
    let dsChannelIndex := K.m_RW2ChannelIndex
    match windowLoop K can deviceAddr dsChannelIndex false true d.m_lastGWs (s, false) with
    | none => none
    | some (s1, _) => some s1

/-- Embedding of `LoRaWANNetworkServer::DSTimerExpired` (lines 449-483).  `t` is the interval drawn from
`m_downstreamIATRandomVariable` for the next tick. -/
def DSTimerExpired (K : LoRaWANConstants) (s : LoRaWANNetworkServer) (now : Int)
    (deviceAddr : Nat) (t : Int) : LoRaWANNetworkServer :=
  match s.m_endDevices deviceAddr with
  | none => s
  | some d =>
    let pkt : List Nat := List.replicate s.m_pktSize 0
    let element : LoRaWANNSDSQueueElement :=
      if s.m_confirmedData then
        { m_downstreamPacket := pkt, m_downstreamFramePort := 1,
          m_downstreamMsgType := LORAWAN_CONFIRMED_DATA_DOWN,
          m_downstreamTransmissionsRemaining := K.DEFAULT_NUMBER_DS_TRANSMISSIONS,
          m_isRetransmission := false }
      else
        { m_downstreamPacket := pkt, m_downstreamFramePort := 1,
          m_downstreamMsgType := LORAWAN_UNCONFIRMED_DATA_DOWN,
          m_downstreamTransmissionsRemaining := 1,
          m_isRetransmission := false }
    let d1 := { d with m_downstreamQueue := d.m_downstreamQueue ++ [element],
                       m_nDSPacketsGenerated := d.m_nDSPacketsGenerated + 1 }
    let d2 := { d1 with m_downstreamTimer := some (now + t) }
    { setDevice s deviceAddr d2 with
      scheduled := s.scheduled ++ [⟨now + t, TimerHandler.DSTimerExpired, deviceAddr⟩] }

/-! ## Sequences of calls -/

/-- One call of `HandleUSPacket`: arrival time, receiving gateway, packet, and the
interval drawn should the device record have to be allocated. -/
structure UplinkArrival where
  now : Int
  lastGW : Nat
  packet : USPacket
  t : Int
  deriving DecidableEq, Repr

/-- A sequence of uplinks handled by `HandleUSPacket` in arrival order. -/
def handleUplinks (K : LoRaWANConstants) :
    LoRaWANNetworkServer → List UplinkArrival → LoRaWANNetworkServer
  | s, [] => s
  | s, u :: us => handleUplinks K (HandleUSPacket K s u.now u.lastGW u.packet u.t) us

/-- One call into the network server, with the values it reads from its
environment (current time, drawn interval, gateway capability). -/
inductive Call where
  | HandleUSPacket (now : Int) (lastGW : Nat) (packet : USPacket) (t : Int)
  | RW1TimerExpired (can : CanSend) (now : Int) (deviceAddr : Nat)
  | RW2TimerExpired (can : CanSend) (deviceAddr : Nat)
  | SendDSPacket (deviceAddr gatewayPtr : Nat) (RW1 RW2 : Bool)
  | DSTimerExpired (now : Int) (deviceAddr : Nat) (t : Int)

/-- Effect of one call on the server; `none` when the call ends the program. -/
def call (K : LoRaWANConstants) (s : LoRaWANNetworkServer) : Call → Option LoRaWANNetworkServer
  | Call.HandleUSPacket now lastGW packet t => some (HandleUSPacket K s now lastGW packet t)
  | Call.RW1TimerExpired can now deviceAddr => RW1TimerExpired K can s now deviceAddr
  | Call.RW2TimerExpired can deviceAddr => RW2TimerExpired K can s deviceAddr
  | Call.SendDSPacket deviceAddr gatewayPtr RW1 RW2 =>
      SendDSPacket K s deviceAddr gatewayPtr RW1 RW2
  | Call.DSTimerExpired now deviceAddr t => some (DSTimerExpired K s now deviceAddr t)

/-- A sequence of calls executed in order. -/
def run (K : LoRaWANConstants) :
    LoRaWANNetworkServer → List Call → Option LoRaWANNetworkServer
  | s, [] => some s
  | s, c :: cs =>
      match call K s c with
      | some s1 => run K s1 cs
      | none => none

/-- Calls that may occur while a confirmed downlink of device `key` is retried and
never acknowledged: sends to `key` for a receive window, uplinks (those of `key`
with the ack bit clear), and generator ticks. -/
def unackedRetryCall (key : Nat) : Call → Prop
  | Call.SendDSPacket deviceAddr _ RW1 RW2 => deviceAddr = key ∧ (RW1 = true ∨ RW2 = true)
  | Call.HandleUSPacket _ _ packet _ => packet.frmHdr.devAddr = key → packet.frmHdr.ack = false
  | Call.DSTimerExpired _ _ _ => True
  | Call.RW1TimerExpired _ _ _ => False
  | Call.RW2TimerExpired _ _ => False

/-- Whether a call satisfies `unackedRetryCall` can be computed. -/
instance unackedRetryCallDecidable (key : Nat) : DecidablePred (unackedRetryCall key)
  | Call.SendDSPacket deviceAddr _ RW1 RW2 =>
      inferInstanceAs (Decidable (deviceAddr = key ∧ (RW1 = true ∨ RW2 = true)))
  | Call.HandleUSPacket _ _ packet _ =>
      inferInstanceAs (Decidable (packet.frmHdr.devAddr = key → packet.frmHdr.ack = false))
  | Call.DSTimerExpired _ _ _ => inferInstanceAs (Decidable True)
  | Call.RW1TimerExpired _ _ _ => inferInstanceAs (Decidable False)
  | Call.RW2TimerExpired _ _ => inferInstanceAs (Decidable False)

/-- Number of `SendDSPacket` calls in a sequence of calls. -/
def countSends : List Call → Nat
  | [] => 0
  | Call.SendDSPacket _ _ _ _ :: cs => countSends cs + 1
  | Call.HandleUSPacket _ _ _ _ :: cs => countSends cs
  | Call.RW1TimerExpired _ _ _ :: cs => countSends cs
  | Call.RW2TimerExpired _ _ :: cs => countSends cs
  | Call.DSTimerExpired _ _ _ :: cs => countSends cs

/-! ## Closed forms of a transmitting send -/

/-- What `SendDSPacket` picks to send for a record: payload, message type and frame
port of the queue head, or the empty unconfirmed packet with port 0 when the queue
is empty (lines 340-377). -/
def elementToSend (d : LoRaWANEndDeviceInfoNS) : List Nat × LoRaWANMsgType × Nat :=
  match d.m_downstreamQueue with
  | element :: _ =>
      (element.m_downstreamPacket, element.m_downstreamMsgType, element.m_downstreamFramePort)
  | [] => ([], LORAWAN_UNCONFIRMED_DATA_DOWN, 0)

/-- The packet a transmitting `SendDSPacket` call hands to the gateway, as a
function of the record before the call (lines 379-420); see
`SendDSPacket_transmitting`. -/
def composedPacket (K : LoRaWANConstants) (d : LoRaWANEndDeviceInfoNS) (deviceAddr : Nat)
    (RW1 : Bool) : DSPacket :=
  { payload := (elementToSend d).1,
    fhdr :=
      { devAddr := deviceAddr, ack := d.m_setAck, framePending := d.m_framePending,
        frameCounter := d.m_fCntDown,
        framePort := if (elementToSend d).2.2 > 0 then some (elementToSend d).2.2 else none },
    phyParamsTag :=
      { channelIndex := if RW1 then d.m_lastChannelIndex else K.m_RW2ChannelIndex,
        dataRateIndex :=
          if RW1 then K.GetRX1DataRateIndex d.m_lastDataRateIndex d.m_rx1DROffset
          else K.m_RW2DataRateIndex,
        codeRate := d.m_lastCodeRate },
    msgTypeTag := (elementToSend d).2.1 }

/-- The record a transmitting `SendDSPacket` call leaves behind, as a function of
the record before the call; see `SendDSPacket_transmitting`. -/
def recordAfterSend (K : LoRaWANConstants) (d : LoRaWANEndDeviceInfoNS) (gatewayPtr : Nat)
    (RW1 : Bool) : LoRaWANEndDeviceInfoNS :=
  { d with
    m_nDSRetransmission :=
      match d.m_downstreamQueue with
      | element :: _ =>
          if element.m_downstreamMsgType = LORAWAN_CONFIRMED_DATA_DOWN ∧
              element.m_isRetransmission = true
          then d.m_nDSRetransmission + 1 else d.m_nDSRetransmission
      | [] => d.m_nDSRetransmission,
    m_fCntDown := d.m_fCntDown + 1,
    m_nDSPacketsSent := d.m_nDSPacketsSent + 1,
    m_nDSPacketsSentRW1 := if RW1 then d.m_nDSPacketsSentRW1 + 1 else d.m_nDSPacketsSentRW1,
    m_nDSPacketsSentRW2 := if RW1 then d.m_nDSPacketsSentRW2 else d.m_nDSPacketsSentRW2 + 1,
    m_nDSAcks := if d.m_setAck then d.m_nDSAcks + 1 else d.m_nDSAcks,
    m_lastDSGW := some gatewayPtr,
    m_setAck := false,
    m_downstreamQueue :=
      match d.m_downstreamQueue with
      | element :: rest =>
          if element.m_downstreamMsgType = LORAWAN_CONFIRMED_DATA_DOWN ∧
              element.m_downstreamTransmissionsRemaining ≠ 1 then
            { element with
              m_downstreamTransmissionsRemaining :=
                decrement K element.m_downstreamTransmissionsRemaining,
              m_isRetransmission := true } :: rest
          else rest
      | [] => [] }

/-- The server after a transmitting `SendDSPacket` call for the known record `d`. -/
def serverAfterSend (K : LoRaWANConstants) (s : LoRaWANNetworkServer)
    (d : LoRaWANEndDeviceInfoNS) (deviceAddr gatewayPtr : Nat) (RW1 : Bool) :
    LoRaWANNetworkServer :=
  { setDevice s deviceAddr (recordAfterSend K d gatewayPtr RW1) with
    transmitted := s.transmitted ++ [(gatewayPtr, composedPacket K d deviceAddr RW1)] }

/-- The server after the last two statements of `RW1TimerExpired`: the RW2 timer of
the known record `d` is scheduled for time `ts`. -/
def serverAfterRW2Schedule (s : LoRaWANNetworkServer) (d : LoRaWANEndDeviceInfoNS)
    (key : Nat) (ts : Int) : LoRaWANNetworkServer :=
  { setDevice s key { d with m_rw2Timer := some ts } with
    scheduled := s.scheduled ++ [⟨ts, TimerHandler.RW2TimerExpired, key⟩] }

/-- Whether `HandleUSPacket` drops an uplink with frame counter `fCnt`, arriving at
`now`, as a duplicate for the record `d` (lines 193-196). -/
def isDuplicate (d : LoRaWANEndDeviceInfoNS) (now : Int) (fCnt : Nat) : Prop :=
  0 < fCnt ∧ fCnt ≤ d.m_fCntUp ∧ now - d.m_lastSeen ≤ Seconds 1

/-- The classification of an uplink can be computed. -/
instance isDuplicateDecidable (d : LoRaWANEndDeviceInfoNS) (now : Int) (fCnt : Nat) :
    Decidable (isDuplicate d now fCnt) :=
  inferInstanceAs (Decidable (0 < fCnt ∧ fCnt ≤ d.m_fCntUp ∧ now - d.m_lastSeen ≤ Seconds 1))

/-- The record `HandleUSPacket` leaves behind for a duplicate; see
`HandleUSPacket_duplicate`. -/
def recordAfterDuplicate (d : LoRaWANEndDeviceInfoNS) (lastGW : Nat) : LoRaWANEndDeviceInfoNS :=
  { d with m_nUSPackets := d.m_nUSPackets + 1,
           m_nUSDuplicates := d.m_nUSDuplicates + 1,
           m_lastGWs := d.m_lastGWs ++ [lastGW] }

/-- The record `HandleUSPacket` leaves behind for an uplink that is not a duplicate,
as a function of the record before the call; see `HandleUSPacket_not_duplicate`. -/
def recordAfterUplink (K : LoRaWANConstants) (d : LoRaWANEndDeviceInfoNS) (now : Int)
    (lastGW : Nat) (packet : USPacket) : LoRaWANEndDeviceInfoNS :=
  { d with
    m_nUSPackets := d.m_nUSPackets + 1,
    m_lastGWs := (if now - d.m_lastSeen > Seconds 1 then [] else d.m_lastGWs) ++ [lastGW],
    m_nUSRetransmission :=
      if packet.frmHdr.frameCounter ≤ d.m_fCntUp ∧ packet.frmHdr.frameCounter ≠ 0
      then d.m_nUSRetransmission + 1 else d.m_nUSRetransmission,
    m_nUniqueUSPackets :=
      if packet.frmHdr.frameCounter ≤ d.m_fCntUp ∧ packet.frmHdr.frameCounter ≠ 0
      then d.m_nUniqueUSPackets else d.m_nUniqueUSPackets + 1,
    m_fCntUp :=
      if packet.frmHdr.frameCounter ≤ d.m_fCntUp ∧ packet.frmHdr.frameCounter ≠ 0
      then d.m_fCntUp else packet.frmHdr.frameCounter,
    m_lastSeen := now,
    m_lastChannelIndex :=
      match packet.phyParamsTag with
      | some tag => tag.channelIndex
      | none => d.m_lastChannelIndex,
    m_lastDataRateIndex :=
      match packet.phyParamsTag with
      | some tag => tag.dataRateIndex
      | none => d.m_lastDataRateIndex,
    m_lastCodeRate :=
      match packet.phyParamsTag with
      | some tag => tag.codeRate
      | none => d.m_lastCodeRate,
    m_setAck :=
      match packet.msgTypeTag with
      | some msgType => if msgType = LORAWAN_CONFIRMED_DATA_UP then true else d.m_setAck
      | none => d.m_setAck,
    m_nUSAcks := if packet.frmHdr.ack then d.m_nUSAcks + 1 else d.m_nUSAcks,
    m_downstreamQueue :=
      if packet.frmHdr.ack then
        match d.m_downstreamQueue with
        | front :: rest =>
            if front.m_downstreamMsgType = LORAWAN_CONFIRMED_DATA_DOWN then rest
            else front :: rest
        | [] => []
      else d.m_downstreamQueue,
    m_rw1Timer := some (now + MicroSeconds K.RECEIVE_DELAY1) }

/-- The record `DSTimerExpired` leaves behind; see `DSTimerExpired_known`. -/
def recordAfterTick (K : LoRaWANConstants) (s : LoRaWANNetworkServer)
    (d : LoRaWANEndDeviceInfoNS) (now t : Int) : LoRaWANEndDeviceInfoNS :=
  { d with
    m_downstreamQueue := d.m_downstreamQueue ++
      [{ m_downstreamPacket := List.replicate s.m_pktSize 0,
         m_downstreamMsgType :=
           if s.m_confirmedData then LORAWAN_CONFIRMED_DATA_DOWN
           else LORAWAN_UNCONFIRMED_DATA_DOWN,
         m_downstreamFramePort := 1,
         m_downstreamTransmissionsRemaining :=
           if s.m_confirmedData then K.DEFAULT_NUMBER_DS_TRANSMISSIONS else 1,
         m_isRetransmission := false }],
    m_nDSPacketsGenerated := d.m_nDSPacketsGenerated + 1,
    m_downstreamTimer := some (now + t) }

/-- The frames of a transmit record that are addressed to device `key`, in order. -/
def downlinksOf (key : Nat) (log : List (Nat × DSPacket)) : List DSPacket :=
  (log.filter (fun x => decide (x.2.fhdr.devAddr = key))).map Prod.snd

/-- The `SendDSPacket` calls, one per gateway of the list and in its order, for
device `deviceAddr` and the given window flags. -/
def sendCalls (deviceAddr : Nat) (RW1 RW2 : Bool) (gws : List Nat) : List Call :=
  gws.map (fun gw => Call.SendDSPacket deviceAddr gw RW1 RW2)

/-- The entries of a gateway list that answer `CanSendImmediatelyOnChannel` with
true when the loop of `RW1TimerExpired` or `RW2TimerExpired` reaches them, that is,
after the sends through the capable entries before them. -/
def capableGateways (K : LoRaWANConstants) (can : CanSend) (deviceAddr dsChannelIndex : Nat)
    (RW1 RW2 : Bool) : List Nat → LoRaWANNetworkServer → List Nat
  | [], _ => []
  | gw :: gws, s =>
      if can s.transmitted gw dsChannelIndex then
        match SendDSPacket K s deviceAddr gw RW1 RW2 with
        | some s1 => gw :: capableGateways K can deviceAddr dsChannelIndex RW1 RW2 gws s1
        | none => [gw]
      else capableGateways K can deviceAddr dsChannelIndex RW1 RW2 gws s

/-! ## Dispatch in timestamp order -/

/-- What timestamp-ordered dispatch demands of a call made when the simulator clock
shows `clock` and the server is `s`: a handler that reads `Simulator::Now ()` is
given a time not before `clock`, and an RW1 expiry is the firing of an RW1 event that
was scheduled for that device and that time. -/
def admissible (clock : Int) (s : LoRaWANNetworkServer) : Call → Prop
  | Call.HandleUSPacket now _ _ _ => clock ≤ now
  | Call.RW1TimerExpired _ now deviceAddr =>
      clock ≤ now ∧ (⟨now, TimerHandler.RW1TimerExpired, deviceAddr⟩ : ScheduledEvent) ∈ s.scheduled
  | Call.RW2TimerExpired _ _ => True
  | Call.SendDSPacket _ _ _ _ => True
  | Call.DSTimerExpired now _ _ => clock ≤ now

/-- Whether a call is admissible can be computed. -/
instance admissibleDecidable (clock : Int) (s : LoRaWANNetworkServer) :
    DecidablePred (admissible clock s)
  | Call.HandleUSPacket now _ _ _ => inferInstanceAs (Decidable (clock ≤ now))
  | Call.RW1TimerExpired _ now deviceAddr =>
      inferInstanceAs (Decidable (clock ≤ now ∧
        (⟨now, TimerHandler.RW1TimerExpired, deviceAddr⟩ : ScheduledEvent) ∈ s.scheduled))
  | Call.RW2TimerExpired _ _ => inferInstanceAs (Decidable True)
  | Call.SendDSPacket _ _ _ _ => inferInstanceAs (Decidable True)
  | Call.DSTimerExpired now _ _ => inferInstanceAs (Decidable (clock ≤ now))

/-- The simulator clock after a call. -/
def clockAfter (clock : Int) : Call → Int
  | Call.HandleUSPacket now _ _ _ => now
  | Call.RW1TimerExpired _ now _ => now
  | Call.RW2TimerExpired _ _ => clock
  | Call.SendDSPacket _ _ _ _ => clock
  | Call.DSTimerExpired now _ _ => now

/-- A sequence of calls dispatched in timestamp order, starting with the clock at
`clock` and the server `s`: every call is admissible when it is made. -/
def dispatchedInOrder (K : LoRaWANConstants) :
    Int → LoRaWANNetworkServer → List Call → Prop
  | _, _, [] => True
  | clock, s, c :: cs =>
      admissible clock s c ∧
      match call K s c with
      | some s1 => dispatchedInOrder K (clockAfter clock c) s1 cs
      | none => True

/-- Whether a sequence of calls is dispatched in timestamp order can be computed. -/
instance dispatchedInOrderDecidable (K : LoRaWANConstants) :
    (clock : Int) → (s : LoRaWANNetworkServer) → (cs : List Call) →
      Decidable (dispatchedInOrder K clock s cs)
  | _, _, [] => isTrue trivial
  | clock, s, c :: cs =>
      match h : call K s c with
      | some s1 =>
          have := dispatchedInOrderDecidable K (clockAfter clock c) s1 cs
          decidable_of_iff
            (admissible clock s c ∧ dispatchedInOrder K (clockAfter clock c) s1 cs)
            (by simp [dispatchedInOrder, h])
      | none => decidable_of_iff (admissible clock s c) (by simp [dispatchedInOrder, h])

/-- The invariant behind the RW2 delay: the clock is not negative, no record was
last seen after the clock, and every scheduled RW1 event of a device is due at most
`RECEIVE_DELAY1` after the last-seen time of that device. -/
def timerInvariant (K : LoRaWANConstants) (clock : Int) (s : LoRaWANNetworkServer) : Prop :=
  0 ≤ clock ∧
  (∀ key d, s.m_endDevices key = some d → d.m_lastSeen ≤ clock) ∧
  (∀ ev ∈ s.scheduled, ev.handler = TimerHandler.RW1TimerExpired →
    ∃ d, s.m_endDevices ev.key = some d ∧ ev.ts ≤ d.m_lastSeen + MicroSeconds K.RECEIVE_DELAY1)

/-! ## Counting acknowledgments -/

/-- Number of confirmed uplinks of device `key` that a call makes `HandleUSPacket`
process as a non-duplicate in server `s`: 1 for an uplink of `key` tagged
`LORAWAN_CONFIRMED_DATA_UP` that the duplicate test lets through (for a device
without a record the test is made on the record just allocated), 0 otherwise. -/
def confirmedUplinkOf (key : Nat) (s : LoRaWANNetworkServer) : Call → Nat
  | Call.HandleUSPacket now _ packet t =>
      if packet.frmHdr.devAddr = key ∧ packet.msgTypeTag = some LORAWAN_CONFIRMED_DATA_UP ∧
          ¬ isDuplicate
            (match s.m_endDevices key with
             | some d => d
             | none => (InitEndDeviceInfo s now key t).1)
            now packet.frmHdr.frameCounter
      then 1 else 0
  | _ => 0

/-- Number of non-duplicate confirmed uplinks of device `key` processed along a
sequence of calls that starts in server `s`. -/
def confirmedUplinksProcessed (K : LoRaWANConstants) (key : Nat) :
    LoRaWANNetworkServer → List Call → Nat
  | _, [] => 0
  | s, c :: cs =>
      confirmedUplinkOf key s c +
      match call K s c with
      | some s1 => confirmedUplinksProcessed K key s1 cs
      | none => 0

/-- Acknowledgments of a record that were sent or are pending: `m_nDSAcks`, plus one
when `m_setAck` is set. -/
def acksSentOrPending (d : LoRaWANEndDeviceInfoNS) : Nat :=
  d.m_nDSAcks + (if d.m_setAck then 1 else 0)

/-- The frames of a transmit record addressed to device `key` that carry the ack
bit. -/
def ackFramesOf (key : Nat) (log : List (Nat × DSPacket)) : List DSPacket :=
  (downlinksOf key log).filter (fun f => f.fhdr.ack)

/-! ## The downstream queue as a FIFO -/

/-- The queue `q` becomes `q1` by sending frame `f` from its head: with `q` empty,
`f` has no payload and `q1` is empty; otherwise `f` carries the payload and message
type of the head, and `q1` is `q` without the head, or `q` with the head's remaining
count decremented and its retransmission flag set, nothing else being changed. -/
def headSent (K : LoRaWANConstants) (q : List LoRaWANNSDSQueueElement) (f : DSPacket)
    (q1 : List LoRaWANNSDSQueueElement) : Prop :=
  match q with
  | [] => f.payload = [] ∧ q1 = []
  | e :: rest =>
      f.payload = e.m_downstreamPacket ∧ f.msgTypeTag = e.m_downstreamMsgType ∧
      (q1 = rest ∨
       q1 = { e with
              m_downstreamTransmissionsRemaining :=
                decrement K e.m_downstreamTransmissionsRemaining,
              m_isRetransmission := true } :: rest)

/-- The queue `q` becomes `q1` while the frames `sent` are sent, one after the other,
each from the head of the queue as it is at that moment; nothing else is done to the
queue. -/
def headsSent (K : LoRaWANConstants) :
    List LoRaWANNSDSQueueElement → List DSPacket → List LoRaWANNSDSQueueElement → Prop
  | q, [], q1 => q1 = q
  | q, f :: fs, q1 => ∃ q2, headSent K q f q2 ∧ headsSent K q2 fs q1

/-- What the FIFO discipline allows one call to do to the queue `q` of device `key`,
`sent` being the frames handed to gateways for `key` during the call and `q1` the
queue afterwards.  An uplink sends nothing and leaves the queue, or, being an uplink
of `key` with the ack bit, removes a confirmed head.  A generator tick sends nothing
and leaves the queue, or, being a tick for `key`, appends one element at the back.
A send leaves the queue and sends nothing, or, being a send for `key`, sends one
frame from the head.  A window expiry sends frames from the head, one after the
other, and none when it is the expiry of another device. -/
def fifoEffect (K : LoRaWANConstants) (key : Nat) (q : List LoRaWANNSDSQueueElement)
    (sent : List DSPacket) (q1 : List LoRaWANNSDSQueueElement) : Call → Prop
  | Call.HandleUSPacket _ _ packet _ =>
      sent = [] ∧
      (q1 = q ∨
       (packet.frmHdr.devAddr = key ∧ packet.frmHdr.ack = true ∧
         ∃ e, e.m_downstreamMsgType = LORAWAN_CONFIRMED_DATA_DOWN ∧ q = e :: q1))
  | Call.DSTimerExpired _ deviceAddr _ =>
      sent = [] ∧ (q1 = q ∨ (deviceAddr = key ∧ ∃ e, q1 = q ++ [e]))
  | Call.SendDSPacket deviceAddr _ _ _ =>
      (sent = [] ∧ q1 = q) ∨ (deviceAddr = key ∧ ∃ f, sent = [f] ∧ headSent K q f q1)
  | Call.RW1TimerExpired _ _ deviceAddr =>
      headsSent K q sent q1 ∧ (deviceAddr ≠ key → sent = [])
  | Call.RW2TimerExpired _ deviceAddr =>
      headsSent K q sent q1 ∧ (deviceAddr ≠ key → sent = [])

/-! ## Sample data used by the worked examples -/

/-- Sample constants: receive delays of 1 s and 2 s (in microseconds), three
transmissions of a confirmed downlink, RW2 on channel 7 at data rate 0. -/
def sampleConstants : LoRaWANConstants :=
  { RECEIVE_DELAY1 := 1000000, RECEIVE_DELAY2 := 2000000,
    DEFAULT_NUMBER_DS_TRANSMISSIONS := 3, m_RW2ChannelIndex := 7, m_RW2DataRateIndex := 0,
    GetRX1DataRateIndex := fun dr off => dr - off, maxTransmissionsRemaining := 255 }

/-- Record of device 1: last accepted uplink counter 5, last seen at time 0. -/
def sampleDevice : LoRaWANEndDeviceInfoNS :=
  { defaultEndDeviceInfo with m_deviceAddress := 1, m_fCntUp := 5, m_lastGWs := [2] }

/-- A server that knows device 1 only; generator off. -/
def sampleServer : LoRaWANNetworkServer :=
  { m_endDevices := fun k => if k = 1 then some sampleDevice else none,
    m_pktSize := 21, m_generateDataDown := false, m_confirmedData := false,
    scheduled := [], transmitted := [] }

/-- A server without any device, with the two attributes as given. -/
def emptyServer (generateDataDown confirmedData : Bool) : LoRaWANNetworkServer :=
  { m_endDevices := fun _ => none, m_pktSize := 21, m_generateDataDown := generateDataDown,
    m_confirmedData := confirmedData, scheduled := [], transmitted := [] }

/-- The server after `DoInitialize` on a node list holding the single end device 1:
its record is the one returned by `InitEndDeviceInfo`, the first generator tick
(if the generator is on) being drawn 10 s ahead. -/
def freshServer (generateDataDown confirmedData : Bool) : LoRaWANNetworkServer :=
  setDevice (InitEndDeviceInfo (emptyServer generateDataDown confirmedData) 0 1 10000000000).2 1
    (InitEndDeviceInfo (emptyServer generateDataDown confirmedData) 0 1 10000000000).1

/-- An uplink of device 1 with the given frame counter, ack bit and message type. -/
def sampleUplink (fCnt : Nat) (ack : Bool) (msgType : LoRaWANMsgType) : USPacket :=
  { frmHdr := { devAddr := 1, ack := ack, framePending := false, frameCounter := fCnt,
                framePort := some 1 },
    phyParamsTag := some { channelIndex := 3, dataRateIndex := 5, codeRate := 1 },
    msgTypeTag := some msgType }

/-- A confirmed downlink element with `n` transmissions remaining, never sent. -/
def sampleConfirmed (n : Nat) : LoRaWANNSDSQueueElement :=
  { m_downstreamPacket := [10, 20, 30], m_downstreamMsgType := LORAWAN_CONFIRMED_DATA_DOWN,
    m_downstreamFramePort := 1, m_downstreamTransmissionsRemaining := n,
    m_isRetransmission := false }

/-- An unconfirmed downlink element. -/
def sampleUnconfirmed : LoRaWANNSDSQueueElement :=
  { m_downstreamPacket := [40, 50], m_downstreamMsgType := LORAWAN_UNCONFIRMED_DATA_DOWN,
    m_downstreamFramePort := 1, m_downstreamTransmissionsRemaining := 1,
    m_isRetransmission := false }

/-- The sample server with the downstream queue of device 1 replaced by `q`. -/
def sampleServerWithQueue (q : List LoRaWANNSDSQueueElement) : LoRaWANNetworkServer :=
  setDevice sampleServer 1 { sampleDevice with m_downstreamQueue := q }

/-- Three sends to device 1 with an uplink (counter 6, ack bit clear) and a
generator tick in between. -/
def sampleRetryCalls : List Call :=
  [Call.SendDSPacket 1 2 true false,
   Call.HandleUSPacket 5000000000 2 (sampleUplink 6 false LORAWAN_UNCONFIRMED_DATA_UP) 0,
   Call.SendDSPacket 1 3 false true,
   Call.DSTimerExpired 7000000000 1 10000000000,
   Call.SendDSPacket 1 2 true false]

/-- Gateway capability in the examples: only gateway `G` can send, on any channel
and whatever has been transmitted before. -/
def onlyGateway (G : Nat) : CanSend := fun _ g _ => decide (g = G)

/-- A manually enqueued element with an empty payload and application port 5. -/
def sampleEmptyPayloadWithPort : LoRaWANNSDSQueueElement :=
  { m_downstreamPacket := [], m_downstreamMsgType := LORAWAN_UNCONFIRMED_DATA_DOWN,
    m_downstreamFramePort := 5, m_downstreamTransmissionsRemaining := 1,
    m_isRetransmission := false }

/-- Two uplinks of device 1 (frame counters 0 and 1) heard by gateway 2 at time 0 and
at 0.5 s; the RW1 timer of the first is due at 1 s. -/
def sampleUplinksBeforeExpiry : List Call :=
  [Call.HandleUSPacket 0 2 (sampleUplink 0 false LORAWAN_UNCONFIRMED_DATA_UP) 0,
   Call.HandleUSPacket 500000000 2 (sampleUplink 1 false LORAWAN_UNCONFIRMED_DATA_UP) 0]

/-- A confirmed uplink of device 1 (frame counter 1) heard by gateway 2 at time 0 and
by gateway 3 at 20 ms, followed at 1 s by the RW1 expiry with every gateway able to
send. -/
def sampleConfirmedUplinkTwoRelays : List Call :=
  [Call.HandleUSPacket 0 2 (sampleUplink 1 false LORAWAN_CONFIRMED_DATA_UP) 0,
   Call.HandleUSPacket 20000000 3 (sampleUplink 1 false LORAWAN_CONFIRMED_DATA_UP) 0,
   Call.RW1TimerExpired (fun _ _ _ => true) 1000000000 1]

/-- A run on the server with confirmed generated data: a confirmed uplink of device 1
(frame counter 1) heard by gateway 2 at time 0 and by gateway 3 at 20 ms, a generator
tick at 0.5 s, the RW1 expiry at 1 s with every gateway able to send, the same uplink
retransmitted at 3 s, and the RW1 expiry at 4 s. -/
def sampleMixedCalls : List Call :=
  [Call.HandleUSPacket 0 2 (sampleUplink 1 false LORAWAN_CONFIRMED_DATA_UP) 0,
   Call.HandleUSPacket 20000000 3 (sampleUplink 1 false LORAWAN_CONFIRMED_DATA_UP) 0,
   Call.DSTimerExpired 500000000 1 10000000000,
   Call.RW1TimerExpired (fun _ _ _ => true) 1000000000 1,
   Call.HandleUSPacket 3000000000 2 (sampleUplink 1 false LORAWAN_CONFIRMED_DATA_UP) 0,
   Call.RW1TimerExpired (fun _ _ _ => true) 4000000000 1]

/-- The sample server with device 1 heard by gateways 2 and 3 and holding a confirmed
element whose count is 0, followed by an unconfirmed element. -/
def sampleServerCountZero : LoRaWANNetworkServer :=
  setDevice sampleServer 1
    { sampleDevice with m_lastGWs := [2, 3],
                        m_downstreamQueue := [sampleConfirmed 0, sampleUnconfirmed] }

/-! ## Lemmas on `HandleUSPacket` -/

/-- A new frame counter value (0, or above the stored counter) is counted as a
unique uplink and becomes the stored counter. -/
theorem HandleUSPacket_new_counter (K : LoRaWANConstants) (s : LoRaWANNetworkServer)
    (now : Int) (lastGW : Nat) (packet : USPacket) (t : Int) (d : LoRaWANEndDeviceInfoNS)
    (hd : s.m_endDevices packet.frmHdr.devAddr = some d)
    (hnew : packet.frmHdr.frameCounter = 0 ∨ d.m_fCntUp < packet.frmHdr.frameCounter) :
    ∃ d', (HandleUSPacket K s now lastGW packet t).m_endDevices packet.frmHdr.devAddr = some d' ∧
      d'.m_nUniqueUSPackets = d.m_nUniqueUSPackets + 1 ∧
      d'.m_nUSDuplicates = d.m_nUSDuplicates ∧
      d'.m_nUSRetransmission = d.m_nUSRetransmission ∧
      d'.m_fCntUp = packet.frmHdr.frameCounter := by
  have hc : ¬ (packet.frmHdr.frameCounter ≤ d.m_fCntUp ∧ packet.frmHdr.frameCounter ≠ 0) := by
    rintro ⟨h1, h2⟩
    rcases hnew with h | h
    · exact h2 h
    · exact absurd h1 (not_le.mpr h)
  rcases hphy : packet.phyParamsTag with _ | tag <;>
  rcases hack : packet.frmHdr.ack with _ | _ <;>
  rcases hq : d.m_downstreamQueue with _ | ⟨e, rest⟩ <;>
  simp [HandleUSPacket, hd, hc, hphy, hack, hq, setDevice] <;>
  split <;> simp

/-- Closed form of `HandleUSPacket` on an uplink of a known device that is not
dropped as a duplicate. -/
theorem HandleUSPacket_not_duplicate (K : LoRaWANConstants) (s : LoRaWANNetworkServer)
    (now : Int) (lastGW : Nat) (packet : USPacket) (t : Int) (d : LoRaWANEndDeviceInfoNS)
    (hd : s.m_endDevices packet.frmHdr.devAddr = some d)
    (hnd : ¬ (0 < packet.frmHdr.frameCounter ∧ packet.frmHdr.frameCounter ≤ d.m_fCntUp ∧
              now - d.m_lastSeen ≤ Seconds 1)) :
    HandleUSPacket K s now lastGW packet t =
      { setDevice s packet.frmHdr.devAddr
          { d with
            m_nUSPackets := d.m_nUSPackets + 1,
            m_lastGWs := (if now - d.m_lastSeen > Seconds 1 then [] else d.m_lastGWs) ++ [lastGW],
            m_nUSRetransmission :=
              if packet.frmHdr.frameCounter ≤ d.m_fCntUp ∧ packet.frmHdr.frameCounter ≠ 0
              then d.m_nUSRetransmission + 1 else d.m_nUSRetransmission,
            m_nUniqueUSPackets :=
              if packet.frmHdr.frameCounter ≤ d.m_fCntUp ∧ packet.frmHdr.frameCounter ≠ 0
              then d.m_nUniqueUSPackets else d.m_nUniqueUSPackets + 1,
            m_fCntUp :=
              if packet.frmHdr.frameCounter ≤ d.m_fCntUp ∧ packet.frmHdr.frameCounter ≠ 0
              then d.m_fCntUp else packet.frmHdr.frameCounter,
            m_lastSeen := now,
            m_lastChannelIndex :=
              match packet.phyParamsTag with
              | some tag => tag.channelIndex
              | none => d.m_lastChannelIndex,
            m_lastDataRateIndex :=
              match packet.phyParamsTag with
              | some tag => tag.dataRateIndex
              | none => d.m_lastDataRateIndex,
            m_lastCodeRate :=
              match packet.phyParamsTag with
              | some tag => tag.codeRate
              | none => d.m_lastCodeRate,
            m_setAck :=
              match packet.msgTypeTag with
              | some msgType => if msgType = LORAWAN_CONFIRMED_DATA_UP then true else d.m_setAck
              | none => d.m_setAck,
            m_nUSAcks := if packet.frmHdr.ack then d.m_nUSAcks + 1 else d.m_nUSAcks,
            m_downstreamQueue :=
              if packet.frmHdr.ack then
                match d.m_downstreamQueue with
                | front :: rest =>
                    if front.m_downstreamMsgType = LORAWAN_CONFIRMED_DATA_DOWN then rest
                    else front :: rest
                | [] => []
              else d.m_downstreamQueue,
            m_rw1Timer := some (now + MicroSeconds K.RECEIVE_DELAY1) } with
        scheduled := s.scheduled ++
          [⟨now + MicroSeconds K.RECEIVE_DELAY1, TimerHandler.RW1TimerExpired,
            packet.frmHdr.devAddr⟩] } := by
  by_cases h1 : packet.frmHdr.frameCounter ≤ d.m_fCntUp ∧ packet.frmHdr.frameCounter ≠ 0
  · have h2 : ¬ (now - d.m_lastSeen ≤ Seconds 1) :=
      fun h => hnd ⟨Nat.pos_of_ne_zero h1.2, h1.1, h⟩
    rcases hphy : packet.phyParamsTag with _ | tag <;>
    rcases hack : packet.frmHdr.ack with _ | _ <;>
    rcases hq : d.m_downstreamQueue with _ | ⟨e, rest⟩ <;>
    simp [HandleUSPacket, hd, h1, h2, hphy, hack, hq, setDevice] <;>
    split <;> simp
  · rcases hphy : packet.phyParamsTag with _ | tag <;>
    rcases hack : packet.frmHdr.ack with _ | _ <;>
    rcases hq : d.m_downstreamQueue with _ | ⟨e, rest⟩ <;>
    simp [HandleUSPacket, hd, h1, hphy, hack, hq, setDevice] <;>
    split <;> simp

/-- Closed form of `HandleUSPacket` on an uplink that is dropped as a duplicate. -/
theorem HandleUSPacket_duplicate (K : LoRaWANConstants) (s : LoRaWANNetworkServer) (now : Int)
    (lastGW : Nat) (packet : USPacket) (t : Int) (d : LoRaWANEndDeviceInfoNS)
    (hd : s.m_endDevices packet.frmHdr.devAddr = some d)
    (hdup : 0 < packet.frmHdr.frameCounter ∧ packet.frmHdr.frameCounter ≤ d.m_fCntUp ∧
              now - d.m_lastSeen ≤ Seconds 1) :
    HandleUSPacket K s now lastGW packet t =
      setDevice s packet.frmHdr.devAddr
        { d with m_nUSPackets := d.m_nUSPackets + 1,
                 m_nUSDuplicates := d.m_nUSDuplicates + 1,
                 m_lastGWs := d.m_lastGWs ++ [lastGW] } := by
  have hne : packet.frmHdr.frameCounter ≠ 0 := Nat.pos_iff_ne_zero.mp hdup.1
  have hnot : ¬ (now - d.m_lastSeen > Seconds 1) := not_lt.mpr hdup.2.2
  simp [HandleUSPacket, hd, hne, hnot, hdup.2.1, hdup.2.2]

/-- Storing a record twice under one key keeps the second record. -/
theorem setDevice_setDevice (s : LoRaWANNetworkServer) (key : Nat)
    (a b : LoRaWANEndDeviceInfoNS) :
    setDevice (setDevice s key a) key b = setDevice s key b := by
  unfold setDevice
  congr 1
  funext k
  by_cases hk : k = key <;> simp [hk]

/-- An uplink of an unknown device is handled as if the record returned by
`InitEndDeviceInfo` had been stored beforehand. -/
theorem HandleUSPacket_unknown (K : LoRaWANConstants) (s : LoRaWANNetworkServer)
    (now : Int) (lastGW : Nat) (packet : USPacket) (t : Int)
    (hd : s.m_endDevices packet.frmHdr.devAddr = none) :
    HandleUSPacket K s now lastGW packet t =
      HandleUSPacket K
        (setDevice (InitEndDeviceInfo s now packet.frmHdr.devAddr t).2 packet.frmHdr.devAddr
          (InitEndDeviceInfo s now packet.frmHdr.devAddr t).1) now lastGW packet t := by
  have hk : (setDevice (InitEndDeviceInfo s now packet.frmHdr.devAddr t).2 packet.frmHdr.devAddr
      (InitEndDeviceInfo s now packet.frmHdr.devAddr t).1).m_endDevices packet.frmHdr.devAddr =
      some (InitEndDeviceInfo s now packet.frmHdr.devAddr t).1 := by
    simp [setDevice]
  have hS : (InitEndDeviceInfo s now packet.frmHdr.devAddr t).1.m_fCntUp = 0 := by
    unfold InitEndDeviceInfo; split <;> rfl
  rw [HandleUSPacket_not_duplicate K _ now lastGW packet t _ hk (by rw [hS]; omega)]
  rw [setDevice_setDevice]
  rcases hg : s.m_generateDataDown with _ | _ <;>
  rcases hphy : packet.phyParamsTag with _ | tag <;>
  rcases hack : packet.frmHdr.ack with _ | _ <;>
  simp [HandleUSPacket, hd, hg, hphy, hack, setDevice, InitEndDeviceInfo, defaultEndDeviceInfo]

/-- What `HandleUSPacket` leaves alone, known device: the transmitted frames, the
server attributes and the records of all other devices. -/
theorem HandleUSPacket_frame_known (K : LoRaWANConstants) (s : LoRaWANNetworkServer)
    (now : Int) (lastGW : Nat) (packet : USPacket) (t : Int) (d : LoRaWANEndDeviceInfoNS)
    (hd : s.m_endDevices packet.frmHdr.devAddr = some d) :
    (HandleUSPacket K s now lastGW packet t).transmitted = s.transmitted ∧
    (HandleUSPacket K s now lastGW packet t).m_pktSize = s.m_pktSize ∧
    (HandleUSPacket K s now lastGW packet t).m_generateDataDown = s.m_generateDataDown ∧
    (HandleUSPacket K s now lastGW packet t).m_confirmedData = s.m_confirmedData ∧
    ∀ k, k ≠ packet.frmHdr.devAddr →
      (HandleUSPacket K s now lastGW packet t).m_endDevices k = s.m_endDevices k := by
  by_cases hdup : 0 < packet.frmHdr.frameCounter ∧ packet.frmHdr.frameCounter ≤ d.m_fCntUp ∧
              now - d.m_lastSeen ≤ Seconds 1
  · rw [HandleUSPacket_duplicate K s now lastGW packet t d hd hdup]
    simp +contextual [setDevice]
  · rw [HandleUSPacket_not_duplicate K s now lastGW packet t d hd hdup]
    simp +contextual [setDevice]

/-- What `HandleUSPacket` leaves alone: the transmitted frames, the server
attributes and the records of all other devices. -/
theorem HandleUSPacket_frame (K : LoRaWANConstants) (s : LoRaWANNetworkServer)
    (now : Int) (lastGW : Nat) (packet : USPacket) (t : Int) :
    (HandleUSPacket K s now lastGW packet t).transmitted = s.transmitted ∧
    (HandleUSPacket K s now lastGW packet t).m_pktSize = s.m_pktSize ∧
    (HandleUSPacket K s now lastGW packet t).m_generateDataDown = s.m_generateDataDown ∧
    (HandleUSPacket K s now lastGW packet t).m_confirmedData = s.m_confirmedData ∧
    ∀ k, k ≠ packet.frmHdr.devAddr →
      (HandleUSPacket K s now lastGW packet t).m_endDevices k = s.m_endDevices k := by
  rcases hd : s.m_endDevices packet.frmHdr.devAddr with _ | d
  · rw [HandleUSPacket_unknown K s now lastGW packet t hd]
    have h := HandleUSPacket_frame_known K
      (setDevice (InitEndDeviceInfo s now packet.frmHdr.devAddr t).2 packet.frmHdr.devAddr
        (InitEndDeviceInfo s now packet.frmHdr.devAddr t).1) now lastGW packet t
      (InitEndDeviceInfo s now packet.frmHdr.devAddr t).1 (by simp [setDevice])
    rcases hg : s.m_generateDataDown with _ | _ <;>
    simpa +contextual [setDevice, InitEndDeviceInfo, hg] using h
  · exact HandleUSPacket_frame_known K s now lastGW packet t d hd

/-! ## Lemmas on `SendDSPacket` and `DSTimerExpired` -/

/-- On a count of at least 1 the machine decrement is the predecessor. -/
theorem decrement_pos (K : LoRaWANConstants) (n : Nat) (h : 1 ≤ n) :
    decrement K n = n - 1 := by
  have h0 : n ≠ 0 := by omega
  simp [decrement, h0]

/-- On the count 0 the machine decrement wraps around. -/
theorem decrement_zero (K : LoRaWANConstants) :
    decrement K 0 = K.maxTransmissionsRemaining := by
  simp [decrement]

/-- Closed form of `SendDSPacket` for a receive window when the queue is not empty. -/
theorem SendDSPacket_nonempty (K : LoRaWANConstants) (s : LoRaWANNetworkServer)
    (deviceAddr gatewayPtr : Nat) (RW1 RW2 : Bool) (d : LoRaWANEndDeviceInfoNS)
    (e : LoRaWANNSDSQueueElement) (rest : List LoRaWANNSDSQueueElement)
    (hd : s.m_endDevices deviceAddr = some d)
    (hq : d.m_downstreamQueue = e :: rest)
    (hrw : RW1 = true ∨ RW2 = true) :
    SendDSPacket K s deviceAddr gatewayPtr RW1 RW2 =
      some { setDevice s deviceAddr
          { d with
            m_nDSRetransmission :=
              if e.m_downstreamMsgType = LORAWAN_CONFIRMED_DATA_DOWN ∧ e.m_isRetransmission = true
              then d.m_nDSRetransmission + 1 else d.m_nDSRetransmission,
            m_fCntDown := d.m_fCntDown + 1,
            m_nDSPacketsSent := d.m_nDSPacketsSent + 1,
            m_nDSPacketsSentRW1 :=
              if RW1 then d.m_nDSPacketsSentRW1 + 1 else d.m_nDSPacketsSentRW1,
            m_nDSPacketsSentRW2 :=
              if RW1 then d.m_nDSPacketsSentRW2 else d.m_nDSPacketsSentRW2 + 1,
            m_nDSAcks := if d.m_setAck then d.m_nDSAcks + 1 else d.m_nDSAcks,
            m_lastDSGW := some gatewayPtr,
            m_setAck := false,
            m_downstreamQueue :=
              if e.m_downstreamMsgType = LORAWAN_CONFIRMED_DATA_DOWN ∧
                  e.m_downstreamTransmissionsRemaining ≠ 1 then
                { e with
                  m_downstreamTransmissionsRemaining :=
                    decrement K e.m_downstreamTransmissionsRemaining,
                  m_isRetransmission := true } :: rest
              else rest } with
        transmitted := s.transmitted ++
          [(gatewayPtr,
            { payload := e.m_downstreamPacket,
              fhdr :=
                { devAddr := deviceAddr, ack := d.m_setAck, framePending := d.m_framePending,
                  frameCounter := d.m_fCntDown,
                  framePort :=
                    if e.m_downstreamFramePort > 0 then some e.m_downstreamFramePort else none },
              phyParamsTag :=
                { channelIndex := if RW1 then d.m_lastChannelIndex else K.m_RW2ChannelIndex,
                  dataRateIndex :=
                    if RW1 then K.GetRX1DataRateIndex d.m_lastDataRateIndex d.m_rx1DROffset
                    else K.m_RW2DataRateIndex,
                  codeRate := d.m_lastCodeRate },
              msgTypeTag := e.m_downstreamMsgType })] } := by
  by_cases hc : e.m_downstreamMsgType = LORAWAN_CONFIRMED_DATA_DOWN <;>
  by_cases h1 : e.m_downstreamTransmissionsRemaining = 1 <;>
  rcases hr : e.m_isRetransmission with _ | _ <;>
  rcases RW1 with _ | _ <;> rcases RW2 with _ | _ <;>
  simp [SendDSPacket, setDevice, hd, hq, hc, h1, hr] at hrw ⊢

/-- Closed form of `SendDSPacket` for a receive window when the queue is empty and
an acknowledgment is pending: an empty unconfirmed frame without port is sent. -/
theorem SendDSPacket_ack_only (K : LoRaWANConstants) (s : LoRaWANNetworkServer)
    (deviceAddr gatewayPtr : Nat) (RW1 RW2 : Bool) (d : LoRaWANEndDeviceInfoNS)
    (hd : s.m_endDevices deviceAddr = some d)
    (hq : d.m_downstreamQueue = [])
    (ha : d.m_setAck = true)
    (hrw : RW1 = true ∨ RW2 = true) :
    SendDSPacket K s deviceAddr gatewayPtr RW1 RW2 =
      some { setDevice s deviceAddr
          { d with
            m_fCntDown := d.m_fCntDown + 1,
            m_nDSPacketsSent := d.m_nDSPacketsSent + 1,
            m_nDSPacketsSentRW1 :=
              if RW1 then d.m_nDSPacketsSentRW1 + 1 else d.m_nDSPacketsSentRW1,
            m_nDSPacketsSentRW2 :=
              if RW1 then d.m_nDSPacketsSentRW2 else d.m_nDSPacketsSentRW2 + 1,
            m_nDSAcks := d.m_nDSAcks + 1,
            m_lastDSGW := some gatewayPtr,
            m_setAck := false } with
        transmitted := s.transmitted ++
          [(gatewayPtr,
            { payload := [],
              fhdr :=
                { devAddr := deviceAddr, ack := true, framePending := d.m_framePending,
                  frameCounter := d.m_fCntDown, framePort := none },
              phyParamsTag :=
                { channelIndex := if RW1 then d.m_lastChannelIndex else K.m_RW2ChannelIndex,
                  dataRateIndex :=
                    if RW1 then K.GetRX1DataRateIndex d.m_lastDataRateIndex d.m_rx1DROffset
                    else K.m_RW2DataRateIndex,
                  codeRate := d.m_lastCodeRate },
              msgTypeTag := LORAWAN_UNCONFIRMED_DATA_DOWN })] } := by
  rcases RW1 with _ | _ <;> rcases RW2 with _ | _ <;>
  simp [SendDSPacket, setDevice, hd, hq, ha] at hrw ⊢

/-- With an empty queue and no acknowledgment pending `SendDSPacket` does nothing. -/
theorem SendDSPacket_nothing_to_send (K : LoRaWANConstants) (s : LoRaWANNetworkServer)
    (deviceAddr gatewayPtr : Nat) (RW1 RW2 : Bool) (d : LoRaWANEndDeviceInfoNS)
    (hd : s.m_endDevices deviceAddr = some d)
    (hq : d.m_downstreamQueue = [])
    (ha : d.m_setAck = false) :
    SendDSPacket K s deviceAddr gatewayPtr RW1 RW2 = some s := by
  simp [SendDSPacket, hd, hq, ha]

/-- One send while the queue head `e` is a confirmed downlink: a frame with the
payload and message type of `e` goes to `gatewayPtr`; `e` is popped when its
remaining count was 1 and otherwise stays at the head with the count decremented and
the retransmission flag set; `m_nDSRetransmission` grows exactly when `e` had been
sent before; other devices are untouched. -/
theorem SendDSPacket_confirmed_head (K : LoRaWANConstants) (s : LoRaWANNetworkServer)
    (deviceAddr gatewayPtr : Nat) (RW1 RW2 : Bool) (d : LoRaWANEndDeviceInfoNS)
    (e : LoRaWANNSDSQueueElement) (rest : List LoRaWANNSDSQueueElement)
    (hd : s.m_endDevices deviceAddr = some d)
    (hq : d.m_downstreamQueue = e :: rest)
    (hc : e.m_downstreamMsgType = LORAWAN_CONFIRMED_DATA_DOWN)
    (hrw : RW1 = true ∨ RW2 = true) :
    ∃ s' d' f, SendDSPacket K s deviceAddr gatewayPtr RW1 RW2 = some s' ∧
      s'.m_endDevices deviceAddr = some d' ∧
      s'.transmitted = s.transmitted ++ [(gatewayPtr, f)] ∧
      f.payload = e.m_downstreamPacket ∧
      f.msgTypeTag = LORAWAN_CONFIRMED_DATA_DOWN ∧
      d'.m_downstreamQueue =
        (if e.m_downstreamTransmissionsRemaining = 1 then rest
         else { e with m_downstreamTransmissionsRemaining :=
                         decrement K e.m_downstreamTransmissionsRemaining,
                       m_isRetransmission := true } :: rest) ∧
      d'.m_nDSRetransmission =
        d.m_nDSRetransmission + (if e.m_isRetransmission then 1 else 0) ∧
      (∀ k, k ≠ deviceAddr → s'.m_endDevices k = s.m_endDevices k) ∧
      s'.scheduled = s.scheduled ∧ s'.m_confirmedData = s.m_confirmedData ∧
      s'.m_pktSize = s.m_pktSize := by
  by_cases h1 : e.m_downstreamTransmissionsRemaining = 1 <;>
  rcases hr : e.m_isRetransmission with _ | _ <;>
  rcases RW1 with _ | _ <;> rcases RW2 with _ | _ <;>
  simp_all [SendDSPacket, setDevice]

/-- One send while the queue head `e` is not a confirmed downlink: a frame with the
payload of `e` goes to `gatewayPtr`, `e` is popped, the pending acknowledgment is
cleared and the downlink frame counter grows by one. -/
theorem SendDSPacket_unconfirmed_head (K : LoRaWANConstants) (s : LoRaWANNetworkServer)
    (deviceAddr gatewayPtr : Nat) (RW1 RW2 : Bool) (d : LoRaWANEndDeviceInfoNS)
    (e : LoRaWANNSDSQueueElement) (rest : List LoRaWANNSDSQueueElement)
    (hd : s.m_endDevices deviceAddr = some d)
    (hq : d.m_downstreamQueue = e :: rest)
    (he : e.m_downstreamMsgType ≠ LORAWAN_CONFIRMED_DATA_DOWN)
    (hrw : RW1 = true ∨ RW2 = true) :
    ∃ s' d' f, SendDSPacket K s deviceAddr gatewayPtr RW1 RW2 = some s' ∧
      s'.transmitted = s.transmitted ++ [(gatewayPtr, f)] ∧
      f.payload = e.m_downstreamPacket ∧
      s'.scheduled = s.scheduled ∧
      s'.m_endDevices deviceAddr = some d' ∧
      d'.m_downstreamQueue = rest ∧
      d'.m_setAck = false ∧
      d'.m_fCntDown = d.m_fCntDown + 1 ∧
      d'.m_nDSPacketsSent = d.m_nDSPacketsSent + 1 ∧
      d'.m_rw2Timer = d.m_rw2Timer := by
  rw [SendDSPacket_nonempty K s deviceAddr gatewayPtr RW1 RW2 d e rest hd hq hrw]
  exact ⟨_, _, _, rfl, rfl, rfl, rfl, if_pos rfl, by simp [he], rfl, rfl, rfl, rfl⟩

/-- Closed form of `DSTimerExpired` for a known device. -/
theorem DSTimerExpired_known (K : LoRaWANConstants) (s : LoRaWANNetworkServer) (now : Int)
    (deviceAddr : Nat) (t : Int) (d : LoRaWANEndDeviceInfoNS)
    (hd : s.m_endDevices deviceAddr = some d) :
    DSTimerExpired K s now deviceAddr t =
      { setDevice s deviceAddr
          { d with
            m_downstreamQueue := d.m_downstreamQueue ++
              [{ m_downstreamPacket := List.replicate s.m_pktSize 0,
                 m_downstreamMsgType :=
                   if s.m_confirmedData then LORAWAN_CONFIRMED_DATA_DOWN
                   else LORAWAN_UNCONFIRMED_DATA_DOWN,
                 m_downstreamFramePort := 1,
                 m_downstreamTransmissionsRemaining :=
                   if s.m_confirmedData then K.DEFAULT_NUMBER_DS_TRANSMISSIONS else 1,
                 m_isRetransmission := false }],
            m_nDSPacketsGenerated := d.m_nDSPacketsGenerated + 1,
            m_downstreamTimer := some (now + t) } with
        scheduled := s.scheduled ++ [⟨now + t, TimerHandler.DSTimerExpired, deviceAddr⟩] } := by
  rcases hc : s.m_confirmedData with _ | _ <;>
  simp [DSTimerExpired, hd, hc, setDevice]

/-- For an unknown device `DSTimerExpired` does nothing. -/
theorem DSTimerExpired_unknown (K : LoRaWANConstants) (s : LoRaWANNetworkServer) (now : Int)
    (deviceAddr : Nat) (t : Int) (hd : s.m_endDevices deviceAddr = none) :
    DSTimerExpired K s now deviceAddr t = s := by
  simp [DSTimerExpired, hd]


/-- Closed form of every transmitting `SendDSPacket` call: known device, queue not
empty or acknowledgment pending, `RW1` or `RW2` set. -/
theorem SendDSPacket_transmitting (K : LoRaWANConstants) (s : LoRaWANNetworkServer)
    (deviceAddr gatewayPtr : Nat) (RW1 RW2 : Bool) (d : LoRaWANEndDeviceInfoNS)
    (hd : s.m_endDevices deviceAddr = some d)
    (htx : d.m_downstreamQueue ≠ [] ∨ d.m_setAck = true)
    (hrw : RW1 = true ∨ RW2 = true) :
    SendDSPacket K s deviceAddr gatewayPtr RW1 RW2 =
      some (serverAfterSend K s d deviceAddr gatewayPtr RW1) := by
  rcases hq : d.m_downstreamQueue with _ | ⟨e, rest⟩
  · have ha : d.m_setAck = true := by
      rcases htx with h | h
      · exact absurd hq h
      · exact h
    rw [SendDSPacket_ack_only K s deviceAddr gatewayPtr RW1 RW2 d hd hq ha hrw]
    simp [serverAfterSend, recordAfterSend, composedPacket, elementToSend, hq, ha]
  · rw [SendDSPacket_nonempty K s deviceAddr gatewayPtr RW1 RW2 d e rest hd hq hrw]
    simp [serverAfterSend, recordAfterSend, composedPacket, elementToSend, hq]

/-- A transmitting call with neither `RW1` nor `RW2` set ends in `NS_FATAL_ERROR`. -/
theorem SendDSPacket_fatal (K : LoRaWANConstants) (s : LoRaWANNetworkServer)
    (deviceAddr gatewayPtr : Nat) (d : LoRaWANEndDeviceInfoNS)
    (hd : s.m_endDevices deviceAddr = some d)
    (htx : d.m_downstreamQueue ≠ [] ∨ d.m_setAck = true) :
    SendDSPacket K s deviceAddr gatewayPtr false false = none := by
  rcases hq : d.m_downstreamQueue with _ | ⟨e, rest⟩
  · have ha : d.m_setAck = true := by
      rcases htx with h | h
      · exact absurd hq h
      · exact h
    simp [SendDSPacket, hd, hq, ha]
  · by_cases hc : e.m_downstreamMsgType = LORAWAN_CONFIRMED_DATA_DOWN <;>
    simp [SendDSPacket, hd, hq, hc]

/-- For an unknown device `SendDSPacket` does nothing. -/
theorem SendDSPacket_unknown (K : LoRaWANConstants) (s : LoRaWANNetworkServer)
    (deviceAddr gatewayPtr : Nat) (RW1 RW2 : Bool)
    (hd : s.m_endDevices deviceAddr = none) :
    SendDSPacket K s deviceAddr gatewayPtr RW1 RW2 = some s := by
  simp [SendDSPacket, hd]

/-- Every returning `SendDSPacket` call either leaves the server as it was or is a
transmitting call in closed form. -/
theorem SendDSPacket_cases (K : LoRaWANConstants) (s s' : LoRaWANNetworkServer)
    (deviceAddr gatewayPtr : Nat) (RW1 RW2 : Bool)
    (h : SendDSPacket K s deviceAddr gatewayPtr RW1 RW2 = some s') :
    s' = s ∨
    ∃ d, s.m_endDevices deviceAddr = some d ∧
      (d.m_downstreamQueue ≠ [] ∨ d.m_setAck = true) ∧
      s' = serverAfterSend K s d deviceAddr gatewayPtr RW1 := by
  rcases hd : s.m_endDevices deviceAddr with _ | d
  · rw [SendDSPacket_unknown K s deviceAddr gatewayPtr RW1 RW2 hd] at h
    exact Or.inl (Option.some.inj h).symm
  · by_cases htx : d.m_downstreamQueue ≠ [] ∨ d.m_setAck = true
    · by_cases hrw : RW1 = true ∨ RW2 = true
      · rw [SendDSPacket_transmitting K s deviceAddr gatewayPtr RW1 RW2 d hd htx hrw] at h
        exact Or.inr ⟨d, rfl, htx, (Option.some.inj h).symm⟩
      · have h1 : RW1 = false := by
          rcases RW1 with _ | _
          · rfl
          · exact absurd (Or.inl rfl) hrw
        have h2 : RW2 = false := by
          rcases RW2 with _ | _
          · rfl
          · exact absurd (Or.inr rfl) hrw
        subst h1 h2
        rw [SendDSPacket_fatal K s deviceAddr gatewayPtr d hd htx] at h
        exact absurd h (by simp)
    · have hq : d.m_downstreamQueue = [] := by
        by_contra hne
        exact htx (Or.inl hne)
      have ha : d.m_setAck = false := by
        rcases hsa : d.m_setAck with _ | _
        · rfl
        · exact absurd (Or.inr hsa) htx
      rw [SendDSPacket_nothing_to_send K s deviceAddr gatewayPtr RW1 RW2 d hd hq ha] at h
      exact Or.inl (Option.some.inj h).symm

/-- A call of `SendDSPacket` for a receive window always returns. -/
theorem SendDSPacket_returns (K : LoRaWANConstants) (s : LoRaWANNetworkServer)
    (deviceAddr gatewayPtr : Nat) (RW1 RW2 : Bool) (hrw : RW1 = true ∨ RW2 = true) :
    ∃ s', SendDSPacket K s deviceAddr gatewayPtr RW1 RW2 = some s' := by
  rcases hd : s.m_endDevices deviceAddr with _ | d
  · exact ⟨s, SendDSPacket_unknown K s deviceAddr gatewayPtr RW1 RW2 hd⟩
  · by_cases htx : d.m_downstreamQueue ≠ [] ∨ d.m_setAck = true
    · exact ⟨_, SendDSPacket_transmitting K s deviceAddr gatewayPtr RW1 RW2 d hd htx hrw⟩
    · have hq : d.m_downstreamQueue = [] := by
        by_contra hne
        exact htx (Or.inl hne)
      have ha : d.m_setAck = false := by
        rcases hsa : d.m_setAck with _ | _
        · rfl
        · exact absurd (Or.inr hsa) htx
      exact ⟨s, SendDSPacket_nothing_to_send K s deviceAddr gatewayPtr RW1 RW2 d hd hq ha⟩

/-! ## Lemmas on sequences of uplinks -/

/-- Strictly increasing counters, stated from an arbitrary record: when the first
counter of the sequence is 0 or above the stored counter, every uplink is counted as
unique. -/
theorem handleUplinks_increasing (K : LoRaWANConstants) (key : Nat) (ups : List UplinkArrival) :
    ∀ (s : LoRaWANNetworkServer) (d : LoRaWANEndDeviceInfoNS),
      s.m_endDevices key = some d →
      (∀ u ∈ ups, u.packet.frmHdr.devAddr = key) →
      (∀ u, ups.head? = some u →
        u.packet.frmHdr.frameCounter = 0 ∨ d.m_fCntUp < u.packet.frmHdr.frameCounter) →
      ups.Pairwise (fun a b => a.packet.frmHdr.frameCounter < b.packet.frmHdr.frameCounter) →
      ∃ d', (handleUplinks K s ups).m_endDevices key = some d' ∧
        d'.m_nUniqueUSPackets = d.m_nUniqueUSPackets + ups.length ∧
        d'.m_nUSDuplicates = d.m_nUSDuplicates ∧
        d'.m_nUSRetransmission = d.m_nUSRetransmission ∧
        d'.m_fCntUp = ((ups.getLast?.map fun u => u.packet.frmHdr.frameCounter).getD d.m_fCntUp) := by
  induction ups with
  | nil =>
    intro s d hd _ _ _
    exact ⟨d, by simpa [handleUplinks] using hd, by simp, rfl, rfl, by simp⟩
  | cons u us ih =>
    intro s d hd hkey hhead hinc
    have hk : u.packet.frmHdr.devAddr = key := hkey u (List.mem_cons_self _ _)
    subst hk
    obtain ⟨d1, h1, hU, hD, hR, hS⟩ :=
      HandleUSPacket_new_counter K s u.now u.lastGW u.packet u.t d hd (hhead u rfl)
    rw [List.pairwise_cons] at hinc
    have hhead' : ∀ v, us.head? = some v →
        v.packet.frmHdr.frameCounter = 0 ∨ d1.m_fCntUp < v.packet.frmHdr.frameCounter := by
      intro v hv
      right
      rw [hS]
      exact hinc.1 v (List.mem_of_mem_head? hv)
    obtain ⟨d2, h2, hU2, hD2, hR2, hS2⟩ :=
      ih (HandleUSPacket K s u.now u.lastGW u.packet u.t) d1 h1
        (fun v hv => hkey v (List.mem_cons_of_mem _ hv)) hhead' hinc.2
    refine ⟨d2, by simpa [handleUplinks] using h2, ?_, by rw [hD2, hD], by rw [hR2, hR], ?_⟩
    · rw [hU2, hU, List.length_cons]; omega
    · rw [hS2, hS]
      cases us with
      | nil => simp
      | cons v vs =>
        rw [List.getLast?_cons_cons]
        rcases hl : (v :: vs).getLast? with _ | w
        · simp at hl
        · simp

/-! ## Lemmas on sequences of calls -/

/-- An uplink that is of another device, or has the ack bit clear, leaves the
downstream queue, the retransmission counter and the transmitted frames alone. -/
theorem HandleUSPacket_keeps_queue (K : LoRaWANConstants) (s : LoRaWANNetworkServer)
    (now : Int) (lastGW : Nat) (packet : USPacket) (t : Int) (key : Nat)
    (d : LoRaWANEndDeviceInfoNS)
    (hd : s.m_endDevices key = some d)
    (h : packet.frmHdr.devAddr = key → packet.frmHdr.ack = false) :
    ∃ d', (HandleUSPacket K s now lastGW packet t).m_endDevices key = some d' ∧
      d'.m_downstreamQueue = d.m_downstreamQueue ∧
      d'.m_nDSRetransmission = d.m_nDSRetransmission ∧
      (HandleUSPacket K s now lastGW packet t).transmitted = s.transmitted := by
  by_cases hk : packet.frmHdr.devAddr = key
  · subst hk
    by_cases hdup : 0 < packet.frmHdr.frameCounter ∧
        packet.frmHdr.frameCounter ≤ d.m_fCntUp ∧ now - d.m_lastSeen ≤ Seconds 1
    · rw [HandleUSPacket_duplicate K s now lastGW packet t d hd hdup]
      simp [setDevice]
    · rw [HandleUSPacket_not_duplicate K s now lastGW packet t d hd hdup]
      simp [setDevice, h rfl]
  · have hf := HandleUSPacket_frame K s now lastGW packet t
    exact ⟨d, by rw [hf.2.2.2.2 key (Ne.symm hk)]; exact hd, rfl, rfl, hf.1⟩

/-- A generator tick only appends to a downstream queue; the retransmission counter
and the transmitted frames stay as they were. -/
theorem DSTimerExpired_appends (K : LoRaWANConstants) (s : LoRaWANNetworkServer) (now : Int)
    (deviceAddr : Nat) (t : Int) (key : Nat) (d : LoRaWANEndDeviceInfoNS)
    (hd : s.m_endDevices key = some d) :
    ∃ d' gen, (DSTimerExpired K s now deviceAddr t).m_endDevices key = some d' ∧
      d'.m_downstreamQueue = d.m_downstreamQueue ++ gen ∧
      d'.m_nDSRetransmission = d.m_nDSRetransmission ∧
      (DSTimerExpired K s now deviceAddr t).transmitted = s.transmitted := by
  by_cases hk : deviceAddr = key
  · subst hk
    rw [DSTimerExpired_known K s now deviceAddr t d hd]
    exact ⟨_, [_], if_pos rfl, rfl, rfl, rfl⟩
  · rcases ha : s.m_endDevices deviceAddr with _ | da
    · rw [DSTimerExpired_unknown K s now deviceAddr t ha]
      exact ⟨d, [], hd, by simp, rfl, rfl⟩
    · rw [DSTimerExpired_known K s now deviceAddr t da ha]
      exact ⟨d, [], by simp [setDevice, Ne.symm hk, hd], by simp, rfl, rfl⟩

/-- Uplinks without a matching ack bit and generator ticks, with no send among
them, only append to the queue of `key`. -/
theorem run_without_sends (K : LoRaWANConstants) (key : Nat) (calls : List Call) :
    ∀ (s : LoRaWANNetworkServer) (d : LoRaWANEndDeviceInfoNS),
      s.m_endDevices key = some d →
      (∀ c ∈ calls, unackedRetryCall key c) →
      countSends calls = 0 →
      ∃ s' d' gen, run K s calls = some s' ∧ s'.m_endDevices key = some d' ∧
        d'.m_downstreamQueue = d.m_downstreamQueue ++ gen ∧
        d'.m_nDSRetransmission = d.m_nDSRetransmission ∧
        s'.transmitted = s.transmitted := by
  induction calls with
  | nil =>
    intro s d hd _ _
    exact ⟨s, d, [], rfl, hd, by simp, rfl, rfl⟩
  | cons c cs ih =>
    intro s d hd hall hcount
    have hc := hall c (List.mem_cons_self _ _)
    have hrest : ∀ c' ∈ cs, unackedRetryCall key c' :=
      fun c' h' => hall c' (List.mem_cons_of_mem _ h')
    cases c with
    | HandleUSPacket now lastGW packet t =>
      obtain ⟨d1, h1, hq1, hr1, ht1⟩ :=
        HandleUSPacket_keeps_queue K s now lastGW packet t key d hd hc
      obtain ⟨s', d', gen, hrun, hd', hq', hr', ht'⟩ :=
        ih _ d1 h1 hrest (by simpa [countSends] using hcount)
      exact ⟨s', d', gen, by simpa [run, call] using hrun, hd', by rw [hq', hq1],
        by rw [hr', hr1], by rw [ht', ht1]⟩
    | DSTimerExpired now deviceAddr t =>
      obtain ⟨d1, gen1, h1, hq1, hr1, ht1⟩ := DSTimerExpired_appends K s now deviceAddr t key d hd
      obtain ⟨s', d', gen, hrun, hd', hq', hr', ht'⟩ :=
        ih _ d1 h1 hrest (by simpa [countSends] using hcount)
      exact ⟨s', d', gen1 ++ gen, by simpa [run, call] using hrun, hd',
        by rw [hq', hq1, List.append_assoc], by rw [hr', hr1], by rw [ht', ht1]⟩
    | SendDSPacket deviceAddr gatewayPtr RW1 RW2 => simp [countSends] at hcount
    | RW1TimerExpired can now deviceAddr => exact absurd hc (by simp [unackedRetryCall])
    | RW2TimerExpired can deviceAddr => exact absurd hc (by simp [unackedRetryCall])

/-- Retrying a confirmed head `e` that is never acknowledged: after a sequence of
calls containing `k` sends, `k` not above the remaining count of `e`, exactly `k`
frames were transmitted, all with the payload of `e`; `e` is still the head, with
`k` subtracted from its count, while `k` is below the count, and is gone once `k`
reaches it. -/
theorem run_retries (K : LoRaWANConstants) (key : Nat) (calls : List Call) :
    ∀ (s : LoRaWANNetworkServer) (d : LoRaWANEndDeviceInfoNS) (e : LoRaWANNSDSQueueElement)
      (rest : List LoRaWANNSDSQueueElement),
      s.m_endDevices key = some d →
      d.m_downstreamQueue = e :: rest →
      e.m_downstreamMsgType = LORAWAN_CONFIRMED_DATA_DOWN →
      1 ≤ e.m_downstreamTransmissionsRemaining →
      (∀ c ∈ calls, unackedRetryCall key c) →
      countSends calls ≤ e.m_downstreamTransmissionsRemaining →
      ∃ s' d' frames gen, run K s calls = some s' ∧ s'.m_endDevices key = some d' ∧
        s'.transmitted = s.transmitted ++ frames ∧
        frames.length = countSends calls ∧
        (∀ f ∈ frames, f.2.payload = e.m_downstreamPacket) ∧
        d'.m_downstreamQueue =
          (if countSends calls = e.m_downstreamTransmissionsRemaining then rest ++ gen
           else { e with
                  m_downstreamTransmissionsRemaining :=
                    e.m_downstreamTransmissionsRemaining - countSends calls,
                  m_isRetransmission :=
                    e.m_isRetransmission || decide (0 < countSends calls) } :: (rest ++ gen)) ∧
        d'.m_nDSRetransmission =
          d.m_nDSRetransmission +
            (if e.m_isRetransmission then countSends calls else countSends calls - 1) := by
  induction calls with
  | nil =>
    intro s d e rest hd hq _ hn _ _
    have h0 : ¬ (0 = e.m_downstreamTransmissionsRemaining) := by omega
    exact ⟨s, d, [], [], rfl, hd, by simp, rfl, by simp, by simp [countSends, hq, h0],
      by simp [countSends]⟩
  | cons c cs ih =>
    intro s d e rest hd hq hc hn hall hcount
    have hcall := hall c (List.mem_cons_self _ _)
    have hrest : ∀ c' ∈ cs, unackedRetryCall key c' :=
      fun c' h' => hall c' (List.mem_cons_of_mem _ h')
    cases c with
    | HandleUSPacket now lastGW packet t =>
      obtain ⟨d1, h1, hq1, hr1, ht1⟩ :=
        HandleUSPacket_keeps_queue K s now lastGW packet t key d hd hcall
      obtain ⟨s', d', frames, gen, hrun, hd', ht', hlen, hpay, hq', hr'⟩ :=
        ih _ d1 e rest h1 (by rw [hq1, hq]) hc hn hrest (by simpa [countSends] using hcount)
      exact ⟨s', d', frames, gen, by simpa [run, call] using hrun, hd', by rw [ht', ht1],
        hlen, hpay, hq', by rw [hr', hr1]; rfl⟩
    | DSTimerExpired now deviceAddr t =>
      obtain ⟨d1, gen1, h1, hq1, hr1, ht1⟩ := DSTimerExpired_appends K s now deviceAddr t key d hd
      obtain ⟨s', d', frames, gen, hrun, hd', ht', hlen, hpay, hq', hr'⟩ :=
        ih _ d1 e (rest ++ gen1) h1 (by rw [hq1, hq]; rfl) hc hn hrest
          (by simpa [countSends] using hcount)
      exact ⟨s', d', frames, gen1 ++ gen, by simpa [run, call] using hrun, hd',
        by rw [ht', ht1], hlen, hpay, by simpa [countSends, List.append_assoc] using hq',
        by rw [hr', hr1]; rfl⟩
    | SendDSPacket deviceAddr gatewayPtr RW1 RW2 =>
      obtain ⟨rfl, hrw⟩ := hcall
      obtain ⟨s1, d1, f, hs1, hd1, ht1, hp1, _, hq1, hr1, _⟩ :=
        SendDSPacket_confirmed_head K s deviceAddr gatewayPtr RW1 RW2 d e rest hd hq hc hrw
      have hk : countSends cs + 1 ≤ e.m_downstreamTransmissionsRemaining := by
        simpa [countSends] using hcount
      by_cases h1 : e.m_downstreamTransmissionsRemaining = 1
      · have hz : countSends cs = 0 := by omega
        rw [if_pos h1] at hq1
        obtain ⟨s', d', gen, hrun, hd', hq', hr', ht'⟩ :=
          run_without_sends K deviceAddr cs s1 d1 hd1 hrest hz
        refine ⟨s', d', [(gatewayPtr, f)], gen, by simpa [run, call, hs1] using hrun, hd',
          by rw [ht', ht1], by simp [countSends, hz], by simp [hp1], ?_, ?_⟩
        · rw [hq', hq1]; simp [countSends, hz, h1]
        · rw [hr', hr1]
          rcases e.m_isRetransmission with _ | _ <;> simp [countSends, hz]
      · rw [if_neg h1, decrement_pos K _ hn] at hq1
        obtain ⟨s', d', frames, gen, hrun, hd', ht', hlen, hpay, hq', hr'⟩ :=
          ih s1 d1 _ rest hd1 hq1 hc (by simp only; omega) hrest (by simp only; omega)
        dsimp only at hpay hq' hr'
        refine ⟨s', d', (gatewayPtr, f) :: frames, gen, by simpa [run, call, hs1] using hrun,
          hd', by rw [ht', ht1]; simp, by simp [countSends, hlen], ?_, ?_, ?_⟩
        · intro x hx
          rcases List.mem_cons.mp hx with rfl | hx
          · exact hp1
          · exact hpay x hx
        · rw [hq']
          by_cases hkk : countSends cs = e.m_downstreamTransmissionsRemaining - 1
          · have hkk' : countSends cs + 1 = e.m_downstreamTransmissionsRemaining := by omega
            rw [if_pos hkk]
            exact (if_pos hkk').symm
          · have hkk' : ¬ (countSends cs + 1 = e.m_downstreamTransmissionsRemaining) := by omega
            rw [if_neg hkk]
            refine Eq.trans ?_ (if_neg hkk').symm
            simp only [countSends]
            simp
            omega
        · rw [hr', hr1]
          rcases e.m_isRetransmission with _ | _
          · simp [countSends]
          · simp [countSends]
            omega
    | RW1TimerExpired can now deviceAddr => exact absurd hcall (by simp [unackedRetryCall])
    | RW2TimerExpired can deviceAddr => exact absurd hcall (by simp [unackedRetryCall])

/-! ## Lemmas on the receive-window loop -/

/-- With an empty queue and no acknowledgment pending the loop changes nothing in
the server; `foundGW` can only go from false to true. -/
theorem windowLoop_nothing_to_send (K : LoRaWANConstants) (can : CanSend)
    (deviceAddr dsChannelIndex : Nat) (RW1 RW2 : Bool) (s : LoRaWANNetworkServer)
    (d : LoRaWANEndDeviceInfoNS)
    (hd : s.m_endDevices deviceAddr = some d)
    (hq : d.m_downstreamQueue = [])
    (ha : d.m_setAck = false) (gws : List Nat) :
    ∀ foundGW, ∃ foundGW',
      windowLoop K can deviceAddr dsChannelIndex RW1 RW2 gws (s, foundGW) = some (s, foundGW') ∧
      (foundGW = true → foundGW' = true) := by
  induction gws with
  | nil => intro foundGW; exact ⟨foundGW, rfl, id⟩
  | cons gw gws ih =>
    intro foundGW
    by_cases hcan : can s.transmitted gw dsChannelIndex = true
    · obtain ⟨f', h', hf'⟩ := ih true
      refine ⟨f', ?_, fun _ => hf' rfl⟩
      simp only [windowLoop, hcan, if_true,
        SendDSPacket_nothing_to_send K s deviceAddr gw RW1 RW2 d hd hq ha]
      exact h'
    · obtain ⟨f', h', hf'⟩ := ih foundGW
      refine ⟨f', ?_, hf'⟩
      simp only [windowLoop, hcan]
      exact h'

/-- The loop when the queue holds one element that is not a confirmed downlink, no
acknowledgment is pending, and `G1` is the only entry of the list able to send:
exactly one frame is handed over, to `G1`; the queue is empty afterwards and the
downlink frame counter is one larger. -/
theorem windowLoop_single_element (K : LoRaWANConstants) (can : CanSend)
    (deviceAddr dsChannelIndex : Nat) (RW1 RW2 : Bool) (G1 : Nat)
    (e : LoRaWANNSDSQueueElement)
    (he : e.m_downstreamMsgType ≠ LORAWAN_CONFIRMED_DATA_DOWN)
    (hrw : RW1 = true ∨ RW2 = true) (gws : List Nat) :
    ∀ (s : LoRaWANNetworkServer) (d : LoRaWANEndDeviceInfoNS) (foundGW : Bool),
      s.m_endDevices deviceAddr = some d →
      d.m_downstreamQueue = [e] →
      d.m_setAck = false →
      G1 ∈ gws →
      (∀ log, ∀ g ∈ gws, (can log g dsChannelIndex = true ↔ g = G1)) →
      ∃ s' d' f,
        windowLoop K can deviceAddr dsChannelIndex RW1 RW2 gws (s, foundGW) = some (s', true) ∧
        s'.transmitted = s.transmitted ++ [(G1, f)] ∧
        f.payload = e.m_downstreamPacket ∧
        s'.scheduled = s.scheduled ∧
        s'.m_endDevices deviceAddr = some d' ∧
        d'.m_downstreamQueue = [] ∧
        d'.m_fCntDown = d.m_fCntDown + 1 ∧
        d'.m_nDSPacketsSent = d.m_nDSPacketsSent + 1 ∧
        d'.m_rw2Timer = d.m_rw2Timer := by
  induction gws with
  | nil => intro s d foundGW _ _ _ hmem; simp at hmem
  | cons gw gws ih =>
    intro s d foundGW hd hq ha hmem hcan
    by_cases hg : gw = G1
    · subst hg
      have hc : can s.transmitted gw dsChannelIndex = true :=
        (hcan s.transmitted gw (List.mem_cons_self _ _)).mpr rfl
      obtain ⟨s1, d1, f, hsend, ht1, hp1, hs1, hd1, hq1, ha1, hc1, hn1, hr1⟩ :=
        SendDSPacket_unconfirmed_head K s deviceAddr gw RW1 RW2 d e [] hd hq he hrw
      obtain ⟨f', h', hf'⟩ := windowLoop_nothing_to_send K can deviceAddr dsChannelIndex RW1 RW2
        s1 d1 hd1 hq1 ha1 gws true
      have hf'' : f' = true := hf' rfl
      subst hf''
      refine ⟨s1, d1, f, ?_, ht1, hp1, hs1, hd1, hq1, hc1, hn1, hr1⟩
      simp only [windowLoop, hc, if_true, hsend]
      exact h'
    · have hc : ¬ (can s.transmitted gw dsChannelIndex = true) := fun h =>
        hg ((hcan s.transmitted gw (List.mem_cons_self _ _)).mp h)
      have hmem' : G1 ∈ gws := by
        rcases List.mem_cons.mp hmem with h | h
        · exact absurd h.symm hg
        · exact h
      obtain ⟨s', d', f, h1, h2⟩ := ih s d foundGW hd hq ha hmem'
        (fun log g hgm => hcan log g (List.mem_cons_of_mem _ hgm))
      refine ⟨s', d', f, ?_, h2⟩
      simp only [windowLoop, hc]
      exact h1

/-! ## The record of one device after each state change -/

/-- The record of a known device `key` after `HandleUSPacket`: untouched when the
uplink is of another device, else one of the two closed forms. -/
theorem HandleUSPacket_at (K : LoRaWANConstants) (s : LoRaWANNetworkServer)
    (now : Int) (lastGW : Nat) (packet : USPacket) (t : Int) (key : Nat)
    (d : LoRaWANEndDeviceInfoNS) (hd : s.m_endDevices key = some d) :
    (HandleUSPacket K s now lastGW packet t).m_endDevices key =
      some (if packet.frmHdr.devAddr = key then
              (if isDuplicate d now packet.frmHdr.frameCounter then
                recordAfterDuplicate d lastGW
               else recordAfterUplink K d now lastGW packet)
            else d) := by
  by_cases hk : packet.frmHdr.devAddr = key
  · subst hk
    by_cases hdup : isDuplicate d now packet.frmHdr.frameCounter
    · rw [HandleUSPacket_duplicate K s now lastGW packet t d hd hdup]
      simp [setDevice, hdup, recordAfterDuplicate]
    · rw [HandleUSPacket_not_duplicate K s now lastGW packet t d hd hdup]
      simp [setDevice, hdup, recordAfterUplink]
  · rw [(HandleUSPacket_frame K s now lastGW packet t).2.2.2.2 key (Ne.symm hk)]
    simp [hk, hd]

/-- The record of a known device `key` after `DSTimerExpired`. -/
theorem DSTimerExpired_at (K : LoRaWANConstants) (s : LoRaWANNetworkServer) (now : Int)
    (deviceAddr : Nat) (t : Int) (key : Nat) (d : LoRaWANEndDeviceInfoNS)
    (hd : s.m_endDevices key = some d) :
    (DSTimerExpired K s now deviceAddr t).m_endDevices key =
      some (if deviceAddr = key then recordAfterTick K s d now t else d) := by
  by_cases hk : deviceAddr = key
  · subst hk
    rw [DSTimerExpired_known K s now deviceAddr t d hd]
    simp [setDevice, recordAfterTick]
  · rcases ha : s.m_endDevices deviceAddr with _ | da
    · rw [DSTimerExpired_unknown K s now deviceAddr t ha]
      simp [hk, hd]
    · rw [DSTimerExpired_known K s now deviceAddr t da ha]
      simp [setDevice, hk, Ne.symm hk, hd]

/-- The generator tick leaves the transmitted frames and the server attributes alone. -/
theorem DSTimerExpired_frame (K : LoRaWANConstants) (s : LoRaWANNetworkServer) (now : Int)
    (deviceAddr : Nat) (t : Int) :
    (DSTimerExpired K s now deviceAddr t).transmitted = s.transmitted ∧
    (DSTimerExpired K s now deviceAddr t).m_pktSize = s.m_pktSize ∧
    (DSTimerExpired K s now deviceAddr t).m_generateDataDown = s.m_generateDataDown ∧
    (DSTimerExpired K s now deviceAddr t).m_confirmedData = s.m_confirmedData := by
  rcases ha : s.m_endDevices deviceAddr with _ | da
  · rw [DSTimerExpired_unknown K s now deviceAddr t ha]
    exact ⟨rfl, rfl, rfl, rfl⟩
  · rw [DSTimerExpired_known K s now deviceAddr t da ha]
    exact ⟨rfl, rfl, rfl, rfl⟩

/-- The record of device `key` after a transmitting send to `deviceAddr`. -/
theorem serverAfterSend_at (K : LoRaWANConstants) (s : LoRaWANNetworkServer)
    (d : LoRaWANEndDeviceInfoNS) (deviceAddr gatewayPtr : Nat) (RW1 : Bool) (key : Nat) :
    (serverAfterSend K s d deviceAddr gatewayPtr RW1).m_endDevices key =
      if key = deviceAddr then some (recordAfterSend K d gatewayPtr RW1)
      else s.m_endDevices key := by
  simp [serverAfterSend, setDevice]

/-- The record of device `key` after an RW2 timer was scheduled for device `key'`. -/
theorem serverAfterRW2Schedule_at (s : LoRaWANNetworkServer) (d : LoRaWANEndDeviceInfoNS)
    (key' : Nat) (ts : Int) (key : Nat) :
    (serverAfterRW2Schedule s d key' ts).m_endDevices key =
      if key = key' then some { d with m_rw2Timer := some ts } else s.m_endDevices key := by
  simp [serverAfterRW2Schedule, setDevice]

/-! ## The window handlers as sequences of sends -/

/-- The loop of a window handler is the run of the `SendDSPacket` calls for the
capable gateways, in order; `foundGW` becomes true when there is one. -/
theorem windowLoop_eq_run (K : LoRaWANConstants) (can : CanSend)
    (deviceAddr dsChannelIndex : Nat) (RW1 RW2 : Bool) (gws : List Nat) :
    ∀ (s : LoRaWANNetworkServer) (foundGW : Bool),
      windowLoop K can deviceAddr dsChannelIndex RW1 RW2 gws (s, foundGW) =
        (run K s (sendCalls deviceAddr RW1 RW2
            (capableGateways K can deviceAddr dsChannelIndex RW1 RW2 gws s))).map
          (fun s' => (s', foundGW ||
            !(capableGateways K can deviceAddr dsChannelIndex RW1 RW2 gws s).isEmpty)) := by
  induction gws with
  | nil => intro s foundGW; simp [windowLoop, capableGateways, sendCalls, run]
  | cons gw gws ih =>
    intro s foundGW
    by_cases hc : can s.transmitted gw dsChannelIndex = true
    · rcases hs : SendDSPacket K s deviceAddr gw RW1 RW2 with _ | s1
      · simp [windowLoop, capableGateways, sendCalls, run, call, hc, hs]
      · simp only [windowLoop, capableGateways, hc, if_true, hs]
        rw [ih s1 true]
        simp [sendCalls, run, call, hs]
    · simp only [windowLoop, capableGateways, hc]
      exact ih s foundGW

/-- The capable gateways are a sublist of the list the loop runs over. -/
theorem capableGateways_sublist (K : LoRaWANConstants) (can : CanSend)
    (deviceAddr dsChannelIndex : Nat) (RW1 RW2 : Bool) (gws : List Nat) :
    ∀ (s : LoRaWANNetworkServer),
      (capableGateways K can deviceAddr dsChannelIndex RW1 RW2 gws s).Sublist gws := by
  induction gws with
  | nil => intro s; simp [capableGateways]
  | cons gw gws ih =>
    intro s
    by_cases hc : can s.transmitted gw dsChannelIndex = true
    · rcases hs : SendDSPacket K s deviceAddr gw RW1 RW2 with _ | s1
      · simp [capableGateways, hc, hs]
      · simp only [capableGateways, hc, if_true, hs]
        exact (ih s1).cons₂ gw
    · simp only [capableGateways, hc]
      exact (ih s).cons gw

/-- When the capability answer does not depend on what was transmitted before, the
capable gateways are the entries of the list with a positive answer. -/
theorem capableGateways_eq_filter (K : LoRaWANConstants) (can : CanSend)
    (deviceAddr dsChannelIndex : Nat) (RW1 RW2 : Bool)
    (hrw : RW1 = true ∨ RW2 = true)
    (hcan : ∀ log gw, can log gw dsChannelIndex = can [] gw dsChannelIndex)
    (gws : List Nat) :
    ∀ (s : LoRaWANNetworkServer),
      capableGateways K can deviceAddr dsChannelIndex RW1 RW2 gws s =
        gws.filter (fun gw => can [] gw dsChannelIndex) := by
  induction gws with
  | nil => intro s; simp [capableGateways]
  | cons gw gws ih =>
    intro s
    by_cases hc : can [] gw dsChannelIndex = true
    · obtain ⟨s1, hs⟩ := SendDSPacket_returns K s deviceAddr gw RW1 RW2 hrw
      simp [capableGateways, hcan s.transmitted gw, hc, hs, ih s1]
    · simp [capableGateways, hcan s.transmitted gw, hc, ih s]

/-- Sends for a receive window through a list of gateways all return, and they
schedule nothing. -/
theorem run_sendCalls (K : LoRaWANConstants) (deviceAddr : Nat) (RW1 RW2 : Bool)
    (hrw : RW1 = true ∨ RW2 = true) (gws : List Nat) :
    ∀ (s : LoRaWANNetworkServer),
      ∃ s', run K s (sendCalls deviceAddr RW1 RW2 gws) = some s' ∧
        s'.scheduled = s.scheduled := by
  induction gws with
  | nil => intro s; exact ⟨s, rfl, rfl⟩
  | cons gw gws ih =>
    intro s
    obtain ⟨s1, hs⟩ := SendDSPacket_returns K s deviceAddr gw RW1 RW2 hrw
    obtain ⟨s', hrun, hsch⟩ := ih s1
    refine ⟨s', by simpa [sendCalls, run, call, hs] using hrun, ?_⟩
    rw [hsch]
    rcases SendDSPacket_cases K s s1 deviceAddr gw RW1 RW2 hs with h | ⟨d, _, _, h⟩
    · rw [h]
    · rw [h]; rfl

/-- Closed form of `RW1TimerExpired` for a known device: the sends through the
capable gateways when there is one, otherwise the RW2 timer scheduled at
`m_lastSeen + RECEIVE_DELAY2` provided that lies in the future, otherwise the failed
assertion. -/
theorem RW1TimerExpired_known (K : LoRaWANConstants) (can : CanSend)
    (s : LoRaWANNetworkServer) (now : Int) (deviceAddr : Nat) (d : LoRaWANEndDeviceInfoNS)
    (hd : s.m_endDevices deviceAddr = some d) :
    RW1TimerExpired K can s now deviceAddr =
      if capableGateways K can deviceAddr d.m_lastChannelIndex true false d.m_lastGWs s = []
      then
        if (d.m_lastSeen + MicroSeconds K.RECEIVE_DELAY2) - now > 0 then
          some (serverAfterRW2Schedule s d deviceAddr
            (d.m_lastSeen + MicroSeconds K.RECEIVE_DELAY2))
        else none
      else
        run K s (sendCalls deviceAddr true false
          (capableGateways K can deviceAddr d.m_lastChannelIndex true false d.m_lastGWs s)) := by
  unfold RW1TimerExpired
  simp only [hd]
  rw [windowLoop_eq_run]
  by_cases hcap :
      capableGateways K can deviceAddr d.m_lastChannelIndex true false d.m_lastGWs s = []
  · simp only [hcap, sendCalls, List.map_nil, run, Option.map_some', List.isEmpty_nil,
      Bool.not_true, Bool.or_false, if_true, hd]
    by_cases hdelay : (d.m_lastSeen + MicroSeconds K.RECEIVE_DELAY2) - now > 0
    · simp only [hdelay, if_true, serverAfterRW2Schedule]
      have : now + (d.m_lastSeen + MicroSeconds ↑K.RECEIVE_DELAY2 - now) =
          d.m_lastSeen + MicroSeconds ↑K.RECEIVE_DELAY2 := by ring
      rw [this]
    · simp only [hdelay, if_false]
  · simp only [hcap, if_false]
    obtain ⟨s', hrun, _⟩ := run_sendCalls K deviceAddr true false (Or.inl rfl)
      (capableGateways K can deviceAddr d.m_lastChannelIndex true false d.m_lastGWs s) s
    have hne : (capableGateways K can deviceAddr d.m_lastChannelIndex true false
        d.m_lastGWs s).isEmpty = false := by
      rcases hl : capableGateways K can deviceAddr d.m_lastChannelIndex true false
        d.m_lastGWs s with _ | ⟨x, xs⟩
      · exact absurd hl hcap
      · rfl
    simp [hrun, hne]

/-- Closed form of `RW2TimerExpired` for a known device: the sends through the
capable gateways. -/
theorem RW2TimerExpired_known (K : LoRaWANConstants) (can : CanSend)
    (s : LoRaWANNetworkServer) (deviceAddr : Nat) (d : LoRaWANEndDeviceInfoNS)
    (hd : s.m_endDevices deviceAddr = some d) :
    RW2TimerExpired K can s deviceAddr =
      run K s (sendCalls deviceAddr false true
        (capableGateways K can deviceAddr K.m_RW2ChannelIndex false true d.m_lastGWs s)) := by
  unfold RW2TimerExpired
  simp only [hd]
  rw [windowLoop_eq_run]
  obtain ⟨s', hrun, _⟩ := run_sendCalls K deviceAddr false true (Or.inr rfl)
    (capableGateways K can deviceAddr K.m_RW2ChannelIndex false true d.m_lastGWs s) s
  simp [hrun]

/-- When no entry of the list can send, there is no capable gateway. -/
theorem capableGateways_none (K : LoRaWANConstants) (can : CanSend)
    (deviceAddr dsChannelIndex : Nat) (RW1 RW2 : Bool) (s : LoRaWANNetworkServer)
    (gws : List Nat)
    (hno : ∀ log, ∀ gw ∈ gws, can log gw dsChannelIndex = false) :
    capableGateways K can deviceAddr dsChannelIndex RW1 RW2 gws s = [] := by
  induction gws with
  | nil => simp [capableGateways]
  | cons gw gws ih =>
    have h := hno s.transmitted gw (List.mem_cons_self _ _)
    simp only [capableGateways, h]
    exact ih (fun log g hg => hno log g (List.mem_cons_of_mem _ hg))

/-- The loop when the queue holds one element that is not a confirmed downlink and
`G1` is the only entry of the list able to send: the server afterwards is the one
left by the single send through `G1`. -/
theorem windowLoop_single_element_eq (K : LoRaWANConstants) (can : CanSend)
    (deviceAddr dsChannelIndex : Nat) (RW1 RW2 : Bool) (G1 : Nat)
    (e : LoRaWANNSDSQueueElement)
    (he : e.m_downstreamMsgType ≠ LORAWAN_CONFIRMED_DATA_DOWN)
    (hrw : RW1 = true ∨ RW2 = true) (s : LoRaWANNetworkServer) (d : LoRaWANEndDeviceInfoNS)
    (hd : s.m_endDevices deviceAddr = some d)
    (hq : d.m_downstreamQueue = [e]) (gws : List Nat) :
    ∀ (foundGW : Bool),
      G1 ∈ gws →
      (∀ log, ∀ g ∈ gws, (can log g dsChannelIndex = true ↔ g = G1)) →
      windowLoop K can deviceAddr dsChannelIndex RW1 RW2 gws (s, foundGW) =
        some (serverAfterSend K s d deviceAddr G1 RW1, true) := by
  induction gws with
  | nil => intro foundGW hmem; simp at hmem
  | cons gw gws ih =>
    intro foundGW hmem hcan
    by_cases hg : gw = G1
    · subst hg
      have hc : can s.transmitted gw dsChannelIndex = true :=
        (hcan s.transmitted gw (List.mem_cons_self _ _)).mpr rfl
      have hsend := SendDSPacket_transmitting K s deviceAddr gw RW1 RW2 d hd
        (Or.inl (by rw [hq]; simp)) hrw
      obtain ⟨f', h', hf'⟩ := windowLoop_nothing_to_send K can deviceAddr dsChannelIndex RW1 RW2
        (serverAfterSend K s d deviceAddr gw RW1) (recordAfterSend K d gw RW1)
        (by rw [serverAfterSend_at, if_pos rfl]) (by simp [recordAfterSend, hq, he])
        rfl gws true
      have hf'' : f' = true := hf' rfl
      subst hf''
      simp only [windowLoop, hc, if_true, hsend]
      exact h'
    · have hc : ¬ (can s.transmitted gw dsChannelIndex = true) := fun h =>
        hg ((hcan s.transmitted gw (List.mem_cons_self _ _)).mp h)
      have hmem' : G1 ∈ gws := by
        rcases List.mem_cons.mp hmem with h | h
        · exact absurd h.symm hg
        · exact h
      simp only [windowLoop, hc]
      exact ih foundGW hmem' (fun log g hgm => hcan log g (List.mem_cons_of_mem _ hgm))

/-! ## Invariants are checked on four state changes -/

/-- A property kept by every transmitting send is kept by every returning
`SendDSPacket` call. -/
theorem SendDSPacket_preserves (K : LoRaWANConstants) (P : LoRaWANNetworkServer → Prop)
    (hTx : ∀ s d deviceAddr gatewayPtr RW1, P s → s.m_endDevices deviceAddr = some d →
      (d.m_downstreamQueue ≠ [] ∨ d.m_setAck = true) →
      P (serverAfterSend K s d deviceAddr gatewayPtr RW1))
    (s s' : LoRaWANNetworkServer) (deviceAddr gatewayPtr : Nat) (RW1 RW2 : Bool)
    (hP : P s) (h : SendDSPacket K s deviceAddr gatewayPtr RW1 RW2 = some s') : P s' := by
  rcases SendDSPacket_cases K s s' deviceAddr gatewayPtr RW1 RW2 h with h1 | ⟨d, hd, htx, h1⟩
  · rw [h1]; exact hP
  · rw [h1]; exact hTx s d deviceAddr gatewayPtr RW1 hP hd htx

/-- A property kept by every transmitting send is kept by a run of sends. -/
theorem run_sendCalls_preserves (K : LoRaWANConstants) (P : LoRaWANNetworkServer → Prop)
    (hTx : ∀ s d deviceAddr gatewayPtr RW1, P s → s.m_endDevices deviceAddr = some d →
      (d.m_downstreamQueue ≠ [] ∨ d.m_setAck = true) →
      P (serverAfterSend K s d deviceAddr gatewayPtr RW1))
    (deviceAddr : Nat) (RW1 RW2 : Bool) (gws : List Nat) :
    ∀ (s s' : LoRaWANNetworkServer), P s →
      run K s (sendCalls deviceAddr RW1 RW2 gws) = some s' → P s' := by
  induction gws with
  | nil =>
    intro s s' hP h
    simp only [sendCalls, List.map_nil, run] at h
    rw [← Option.some.inj h]; exact hP
  | cons gw gws ih =>
    intro s s' hP h
    rcases hs : SendDSPacket K s deviceAddr gw RW1 RW2 with _ | s1
    · simp [sendCalls, run, call, hs] at h
    · have h' : run K s1 (sendCalls deviceAddr RW1 RW2 gws) = some s' := by
        simpa [sendCalls, run, call, hs] using h
      exact ih s1 s' (SendDSPacket_preserves K P hTx s s1 deviceAddr gw RW1 RW2 hP hs) h'

/-- A property kept by every transmitting send and by the scheduling of an RW2
timer is kept by `RW1TimerExpired`. -/
theorem RW1TimerExpired_preserves (K : LoRaWANConstants) (P : LoRaWANNetworkServer → Prop)
    (hTx : ∀ s d deviceAddr gatewayPtr RW1, P s → s.m_endDevices deviceAddr = some d →
      (d.m_downstreamQueue ≠ [] ∨ d.m_setAck = true) →
      P (serverAfterSend K s d deviceAddr gatewayPtr RW1))
    (hRW2 : ∀ s d key ts, P s → s.m_endDevices key = some d →
      P (serverAfterRW2Schedule s d key ts))
    (can : CanSend) (s s' : LoRaWANNetworkServer) (now : Int) (deviceAddr : Nat)
    (hP : P s) (h : RW1TimerExpired K can s now deviceAddr = some s') : P s' := by
  rcases hd : s.m_endDevices deviceAddr with _ | d
  · simp [RW1TimerExpired, hd] at h
  · rw [RW1TimerExpired_known K can s now deviceAddr d hd] at h
    split_ifs at h with h1 h2
    · rw [← Option.some.inj h]; exact hRW2 s d deviceAddr _ hP hd
    · exact run_sendCalls_preserves K P hTx deviceAddr true false _ s s' hP h

/-- A property kept by every transmitting send is kept by `RW2TimerExpired`. -/
theorem RW2TimerExpired_preserves (K : LoRaWANConstants) (P : LoRaWANNetworkServer → Prop)
    (hTx : ∀ s d deviceAddr gatewayPtr RW1, P s → s.m_endDevices deviceAddr = some d →
      (d.m_downstreamQueue ≠ [] ∨ d.m_setAck = true) →
      P (serverAfterSend K s d deviceAddr gatewayPtr RW1))
    (can : CanSend) (s s' : LoRaWANNetworkServer) (deviceAddr : Nat)
    (hP : P s) (h : RW2TimerExpired K can s deviceAddr = some s') : P s' := by
  rcases hd : s.m_endDevices deviceAddr with _ | d
  · simp [RW2TimerExpired, hd] at h
  · rw [RW2TimerExpired_known K can s deviceAddr d hd] at h
    exact run_sendCalls_preserves K P hTx deviceAddr false true _ s s' hP h

/-- For a known device `RW1TimerExpired` returns unless there is no capable gateway
and the RW2 delay is not positive. -/
theorem RW1TimerExpired_returns (K : LoRaWANConstants) (can : CanSend)
    (s : LoRaWANNetworkServer) (now : Int) (deviceAddr : Nat) (d : LoRaWANEndDeviceInfoNS)
    (hd : s.m_endDevices deviceAddr = some d)
    (hdelay : (d.m_lastSeen + MicroSeconds K.RECEIVE_DELAY2) - now > 0) :
    ∃ s', RW1TimerExpired K can s now deviceAddr = some s' := by
  rw [RW1TimerExpired_known K can s now deviceAddr d hd]
  split_ifs with h1
  · exact ⟨_, rfl⟩
  · obtain ⟨s', hrun, _⟩ := run_sendCalls K deviceAddr true false (Or.inl rfl)
      (capableGateways K can deviceAddr d.m_lastChannelIndex true false d.m_lastGWs s) s
    exact ⟨s', hrun⟩

/-- A property of the server that is kept by `HandleUSPacket`, by every
transmitting send, by `DSTimerExpired` and by the scheduling of an RW2 timer is kept
by every call that returns. -/
theorem call_preserves (K : LoRaWANConstants) (P : LoRaWANNetworkServer → Prop)
    (hUS : ∀ s now lastGW packet t, P s → P (HandleUSPacket K s now lastGW packet t))
    (hTx : ∀ s d deviceAddr gatewayPtr RW1, P s → s.m_endDevices deviceAddr = some d →
      (d.m_downstreamQueue ≠ [] ∨ d.m_setAck = true) →
      P (serverAfterSend K s d deviceAddr gatewayPtr RW1))
    (hDS : ∀ s now deviceAddr t, P s → P (DSTimerExpired K s now deviceAddr t))
    (hRW2 : ∀ s d key ts, P s → s.m_endDevices key = some d →
      P (serverAfterRW2Schedule s d key ts))
    (c : Call) (s s' : LoRaWANNetworkServer) (hP : P s) (h : call K s c = some s') :
    P s' := by
  cases c with
  | HandleUSPacket now lastGW packet t =>
    simp only [call] at h
    rw [← Option.some.inj h]; exact hUS s now lastGW packet t hP
  | DSTimerExpired now deviceAddr t =>
    simp only [call] at h
    rw [← Option.some.inj h]; exact hDS s now deviceAddr t hP
  | SendDSPacket deviceAddr gatewayPtr RW1 RW2 =>
    exact SendDSPacket_preserves K P hTx s s' deviceAddr gatewayPtr RW1 RW2 hP h
  | RW1TimerExpired can now deviceAddr =>
    simp only [call] at h
    rcases hd : s.m_endDevices deviceAddr with _ | d
    · simp [RW1TimerExpired, hd] at h
    · rw [RW1TimerExpired_known K can s now deviceAddr d hd] at h
      split_ifs at h with h1 h2
      · rw [← Option.some.inj h]; exact hRW2 s d deviceAddr _ hP hd
      · exact run_sendCalls_preserves K P hTx deviceAddr true false _ s s' hP h
  | RW2TimerExpired can deviceAddr =>
    simp only [call] at h
    rcases hd : s.m_endDevices deviceAddr with _ | d
    · simp [RW2TimerExpired, hd] at h
    · rw [RW2TimerExpired_known K can s deviceAddr d hd] at h
      exact run_sendCalls_preserves K P hTx deviceAddr false true _ s s' hP h

/-- A property kept by the four state changes of `call_preserves` is kept by every
run of calls. -/
theorem run_preserves (K : LoRaWANConstants) (P : LoRaWANNetworkServer → Prop)
    (hUS : ∀ s now lastGW packet t, P s → P (HandleUSPacket K s now lastGW packet t))
    (hTx : ∀ s d deviceAddr gatewayPtr RW1, P s → s.m_endDevices deviceAddr = some d →
      (d.m_downstreamQueue ≠ [] ∨ d.m_setAck = true) →
      P (serverAfterSend K s d deviceAddr gatewayPtr RW1))
    (hDS : ∀ s now deviceAddr t, P s → P (DSTimerExpired K s now deviceAddr t))
    (hRW2 : ∀ s d key ts, P s → s.m_endDevices key = some d →
      P (serverAfterRW2Schedule s d key ts))
    (calls : List Call) :
    ∀ (s s' : LoRaWANNetworkServer), P s → run K s calls = some s' → P s' := by
  induction calls with
  | nil =>
    intro s s' hP h
    simp only [run] at h
    rw [← Option.some.inj h]; exact hP
  | cons c cs ih =>
    intro s s' hP h
    rcases hc : call K s c with _ | s1
    · simp [run, hc] at h
    · have h' : run K s1 cs = some s' := by simpa [run, hc] using h
      exact ih s1 s' (call_preserves K P hUS hTx hDS hRW2 c s s1 hP hc) h'

/-! ## Downlink frame counters along a run -/

/-- Appending a frame addressed to `key` appends it to the frames of `key`. -/
theorem downlinksOf_append_same (key gw : Nat) (f : DSPacket)
    (log : List (Nat × DSPacket)) (hf : f.fhdr.devAddr = key) :
    downlinksOf key (log ++ [(gw, f)]) = downlinksOf key log ++ [f] := by
  simp [downlinksOf, List.filter_append, hf]

/-- Appending a frame addressed to another device changes nothing for `key`. -/
theorem downlinksOf_append_other (key gw : Nat) (f : DSPacket)
    (log : List (Nat × DSPacket)) (hf : f.fhdr.devAddr ≠ key) :
    downlinksOf key (log ++ [(gw, f)]) = downlinksOf key log := by
  simp [downlinksOf, List.filter_append, hf]

/-- Along every run, the frames transmitted to a known device carry consecutive
frame counters starting at the value of `m_fCntDown` before the run, and
`m_fCntDown` after the run is the counter the next frame will carry. -/
theorem run_frame_counters (K : LoRaWANConstants) (key : Nat) (s : LoRaWANNetworkServer)
    (d0 : LoRaWANEndDeviceInfoNS) (hd0 : s.m_endDevices key = some d0) (calls : List Call)
    (s1 : LoRaWANNetworkServer) (hrun : run K s calls = some s1) :
    ∃ new d1, s1.transmitted = s.transmitted ++ new ∧
      s1.m_endDevices key = some d1 ∧
      (downlinksOf key new).map (fun f => f.fhdr.frameCounter) =
        List.range' d0.m_fCntDown (downlinksOf key new).length ∧
      d1.m_fCntDown = d0.m_fCntDown + (downlinksOf key new).length := by
  refine run_preserves K
    (fun s1 => ∃ new d1, s1.transmitted = s.transmitted ++ new ∧
      s1.m_endDevices key = some d1 ∧
      (downlinksOf key new).map (fun f => f.fhdr.frameCounter) =
        List.range' d0.m_fCntDown (downlinksOf key new).length ∧
      d1.m_fCntDown = d0.m_fCntDown + (downlinksOf key new).length)
    ?_ ?_ ?_ ?_ calls s s1 ⟨[], d0, by simp, hd0, by simp [downlinksOf], by simp [downlinksOf]⟩
    hrun
  · rintro s1 now lastGW packet t ⟨new, d1, htr, hl, hcnt, hfc⟩
    refine ⟨new, _, by rw [(HandleUSPacket_frame K s1 now lastGW packet t).1, htr],
      HandleUSPacket_at K s1 now lastGW packet t key d1 hl, hcnt, ?_⟩
    split_ifs <;> simpa [recordAfterDuplicate, recordAfterUplink] using hfc
  · rintro s1 d deviceAddr gatewayPtr RW1 ⟨new, d1, htr, hl, hcnt, hfc⟩ hd _
    by_cases hk : deviceAddr = key
    · subst hk
      have hdd : d = d1 := Option.some.inj (hd.symm.trans hl)
      subst hdd
      refine ⟨new ++ [(gatewayPtr, composedPacket K d deviceAddr RW1)],
        recordAfterSend K d gatewayPtr RW1, by simp [serverAfterSend, htr],
        by rw [serverAfterSend_at, if_pos rfl], ?_, ?_⟩
      · rw [downlinksOf_append_same deviceAddr gatewayPtr _ new rfl, List.map_append, hcnt,
          List.length_append, List.length_singleton, List.range'_concat]
        simp [composedPacket, hfc]
      · rw [downlinksOf_append_same deviceAddr gatewayPtr _ new rfl, List.length_append,
          List.length_singleton]
        simp [recordAfterSend, hfc]
        omega
    · have hne : (composedPacket K d deviceAddr RW1).fhdr.devAddr ≠ key := hk
      refine ⟨new ++ [(gatewayPtr, composedPacket K d deviceAddr RW1)], d1,
        by simp [serverAfterSend, htr],
        by rw [serverAfterSend_at, if_neg (Ne.symm hk)]; exact hl, ?_, ?_⟩
      · rw [downlinksOf_append_other key gatewayPtr _ new hne]; exact hcnt
      · rw [downlinksOf_append_other key gatewayPtr _ new hne]; exact hfc
  · rintro s1 now deviceAddr t ⟨new, d1, htr, hl, hcnt, hfc⟩
    refine ⟨new, _, by rw [(DSTimerExpired_frame K s1 now deviceAddr t).1, htr],
      DSTimerExpired_at K s1 now deviceAddr t key d1 hl, hcnt, ?_⟩
    split_ifs <;> simpa [recordAfterTick] using hfc
  · rintro s1 d key' ts ⟨new, d1, htr, hl, hcnt, hfc⟩ hd
    by_cases hk : key = key'
    · subst hk
      have hdd : d = d1 := Option.some.inj (hd.symm.trans hl)
      subst hdd
      exact ⟨new, { d with m_rw2Timer := some ts }, htr,
        by rw [serverAfterRW2Schedule_at, if_pos rfl], hcnt, hfc⟩
    · exact ⟨new, d1, htr, by rw [serverAfterRW2Schedule_at, if_neg hk]; exact hl, hcnt, hfc⟩

/-! ## The invariant behind the RW2 delay -/

/-- The timer invariant carries over to a later clock and a changed server when no
record is last seen after the new clock, last-seen times have not decreased, and
every RW1 event is an old one or is due at most `RECEIVE_DELAY1` after the last-seen
time of its device. -/
theorem timerInvariant_step (K : LoRaWANConstants) (clock0 clock : Int)
    (s s' : LoRaWANNetworkServer) (hInv : timerInvariant K clock0 s) (hclock : 0 ≤ clock)
    (hrec : ∀ key d', s'.m_endDevices key = some d' → d'.m_lastSeen ≤ clock)
    (hmono : ∀ key d, s.m_endDevices key = some d →
      ∃ d', s'.m_endDevices key = some d' ∧ d.m_lastSeen ≤ d'.m_lastSeen)
    (hsched : ∀ ev ∈ s'.scheduled, ev.handler = TimerHandler.RW1TimerExpired →
      ev ∈ s.scheduled ∨
      ∃ d', s'.m_endDevices ev.key = some d' ∧
        ev.ts ≤ d'.m_lastSeen + MicroSeconds K.RECEIVE_DELAY1) :
    timerInvariant K clock s' := by
  refine ⟨hclock, hrec, ?_⟩
  intro ev hev hh
  rcases hsched ev hev hh with hold | hnew
  · obtain ⟨d, hd, hts⟩ := hInv.2.2 ev hold hh
    obtain ⟨d', hd', hle⟩ := hmono ev.key d hd
    exact ⟨d', hd', by omega⟩
  · exact hnew

/-- The timer invariant survives a transmitting send. -/
theorem timerInvariant_send (K : LoRaWANConstants) (clock : Int) (s : LoRaWANNetworkServer)
    (d : LoRaWANEndDeviceInfoNS) (deviceAddr gatewayPtr : Nat) (RW1 : Bool)
    (hInv : timerInvariant K clock s) (hd : s.m_endDevices deviceAddr = some d) :
    timerInvariant K clock (serverAfterSend K s d deviceAddr gatewayPtr RW1) := by
  refine timerInvariant_step K clock clock s _ hInv hInv.1 ?_ ?_ (fun ev hev _ => Or.inl hev)
  · intro key d' h
    rw [serverAfterSend_at] at h
    split_ifs at h with hk
    · rw [← Option.some.inj h]
      exact hInv.2.1 deviceAddr d hd
    · exact hInv.2.1 key d' h
  · intro key dk h
    rw [serverAfterSend_at]
    split_ifs with hk
    · subst hk
      have : dk = d := Option.some.inj (h.symm.trans hd)
      subst this
      exact ⟨_, rfl, le_refl _⟩
    · exact ⟨dk, h, le_refl _⟩

/-- The timer invariant survives the scheduling of an RW2 timer. -/
theorem timerInvariant_rw2 (K : LoRaWANConstants) (clock : Int) (s : LoRaWANNetworkServer)
    (d : LoRaWANEndDeviceInfoNS) (key' : Nat) (ts : Int)
    (hInv : timerInvariant K clock s) (hd : s.m_endDevices key' = some d) :
    timerInvariant K clock (serverAfterRW2Schedule s d key' ts) := by
  refine timerInvariant_step K clock clock s _ hInv hInv.1 ?_ ?_ ?_
  · intro key d' h
    rw [serverAfterRW2Schedule_at] at h
    split_ifs at h with hk
    · rw [← Option.some.inj h]
      exact hInv.2.1 key' d hd
    · exact hInv.2.1 key d' h
  · intro key dk h
    rw [serverAfterRW2Schedule_at]
    split_ifs with hk
    · subst hk
      have : dk = d := Option.some.inj (h.symm.trans hd)
      subst this
      exact ⟨_, rfl, le_refl _⟩
    · exact ⟨dk, h, le_refl _⟩
  · intro ev hev hh
    simp only [serverAfterRW2Schedule, List.mem_append, List.mem_singleton] at hev
    rcases hev with hev | hev
    · exact Or.inl hev
    · rw [hev] at hh
      cases hh

/-- The timer invariant survives a generator tick at a time not before the clock. -/
theorem timerInvariant_tick (K : LoRaWANConstants) (clock now : Int)
    (s : LoRaWANNetworkServer) (deviceAddr : Nat) (t : Int)
    (hInv : timerInvariant K clock s) (hnow : clock ≤ now) :
    timerInvariant K now (DSTimerExpired K s now deviceAddr t) := by
  have h0 : (0 : Int) ≤ now := le_trans hInv.1 hnow
  refine timerInvariant_step K clock now s _ hInv h0 ?_ ?_ ?_
  · intro key d' h
    rcases hk : s.m_endDevices key with _ | dk
    · rcases ha : s.m_endDevices deviceAddr with _ | da
      · rw [DSTimerExpired_unknown K s now deviceAddr t ha, hk] at h
        exact absurd h (by simp)
      · rw [DSTimerExpired_known K s now deviceAddr t da ha] at h
        have hne : key ≠ deviceAddr := fun e => by rw [e, ha] at hk; exact absurd hk (by simp)
        simp [setDevice, hne, hk] at h
    · rw [DSTimerExpired_at K s now deviceAddr t key dk hk] at h
      have hle := hInv.2.1 key dk hk
      rw [← Option.some.inj h]
      split_ifs
      · simp only [recordAfterTick]; omega
      · omega
  · intro key dk h
    refine ⟨_, DSTimerExpired_at K s now deviceAddr t key dk h, ?_⟩
    split_ifs
    · simp only [recordAfterTick]; exact le_refl _
    · exact le_refl _
  · intro ev hev hh
    rcases ha : s.m_endDevices deviceAddr with _ | da
    · rw [DSTimerExpired_unknown K s now deviceAddr t ha] at hev
      exact Or.inl hev
    · rw [DSTimerExpired_known K s now deviceAddr t da ha] at hev
      simp only [List.mem_append, List.mem_singleton] at hev
      rcases hev with hev | hev
      · exact Or.inl hev
      · rw [hev] at hh
        cases hh

/-- The timer invariant survives the allocation of a record for an unknown device. -/
theorem timerInvariant_alloc (K : LoRaWANConstants) (clock now : Int)
    (s : LoRaWANNetworkServer) (key : Nat) (t : Int)
    (hInv : timerInvariant K clock s) (hk : s.m_endDevices key = none) :
    timerInvariant K clock
      (setDevice (InitEndDeviceInfo s now key t).2 key (InitEndDeviceInfo s now key t).1) := by
  have hmap : ∀ k, (setDevice (InitEndDeviceInfo s now key t).2 key
      (InitEndDeviceInfo s now key t).1).m_endDevices k =
      if k = key then some (InitEndDeviceInfo s now key t).1 else s.m_endDevices k := by
    intro k
    rcases hg : s.m_generateDataDown with _ | _ <;> simp [setDevice, InitEndDeviceInfo, hg]
  have hseen : (InitEndDeviceInfo s now key t).1.m_lastSeen = 0 := by
    unfold InitEndDeviceInfo; split <;> rfl
  refine timerInvariant_step K clock clock s _ hInv hInv.1 ?_ ?_ ?_
  · intro k d' h
    rw [hmap] at h
    split_ifs at h with hkk
    · rw [← Option.some.inj h, hseen]; exact hInv.1
    · exact hInv.2.1 k d' h
  · intro k dk h
    rw [hmap]
    have hne : k ≠ key := fun e => by rw [e, hk] at h; exact absurd h (by simp)
    rw [if_neg hne]
    exact ⟨dk, h, le_refl _⟩
  · intro ev hev hh
    rcases hg : s.m_generateDataDown with _ | _
    · simp [setDevice, InitEndDeviceInfo, hg] at hev
      exact Or.inl hev
    · simp [setDevice, InitEndDeviceInfo, hg] at hev
      rcases hev with hev | hev
      · exact Or.inl hev
      · rw [hev] at hh
        cases hh

/-- The timer invariant survives an uplink of a known device that arrives at a time
not before the clock. -/
theorem timerInvariant_uplink_known (K : LoRaWANConstants) (clock now : Int)
    (s : LoRaWANNetworkServer) (lastGW : Nat) (packet : USPacket) (t : Int)
    (d : LoRaWANEndDeviceInfoNS)
    (hInv : timerInvariant K clock s) (hnow : clock ≤ now)
    (hd : s.m_endDevices packet.frmHdr.devAddr = some d) :
    timerInvariant K now (HandleUSPacket K s now lastGW packet t) := by
  have h0 : (0 : Int) ≤ now := le_trans hInv.1 hnow
  have hat := HandleUSPacket_at K s now lastGW packet t
  refine timerInvariant_step K clock now s _ hInv h0 ?_ ?_ ?_
  · intro key d' h
    rcases hk : s.m_endDevices key with _ | dk
    · have hne : key ≠ packet.frmHdr.devAddr :=
        fun e => by rw [e, hd] at hk; exact absurd hk (by simp)
      rw [(HandleUSPacket_frame K s now lastGW packet t).2.2.2.2 key hne, hk] at h
      exact absurd h (by simp)
    · rw [hat key dk hk] at h
      have hle := hInv.2.1 key dk hk
      rw [← Option.some.inj h]
      split_ifs
      · simp only [recordAfterDuplicate]; omega
      · simp only [recordAfterUplink]; exact le_refl _
      · omega
  · intro key dk h
    refine ⟨_, hat key dk h, ?_⟩
    have hle := hInv.2.1 key dk h
    split_ifs
    · simp only [recordAfterDuplicate]; exact le_refl _
    · simp only [recordAfterUplink]; omega
    · exact le_refl _
  · intro ev hev hh
    by_cases hdup : isDuplicate d now packet.frmHdr.frameCounter
    · rw [HandleUSPacket_duplicate K s now lastGW packet t d hd hdup] at hev
      exact Or.inl hev
    · rw [HandleUSPacket_not_duplicate K s now lastGW packet t d hd hdup] at hev
      simp only [List.mem_append, List.mem_singleton] at hev
      rcases hev with hev | hev
      · exact Or.inl hev
      · right
        subst hev
        refine ⟨_, hat packet.frmHdr.devAddr d hd, ?_⟩
        rw [if_pos rfl, if_neg hdup]
        simp only [recordAfterUplink]
        exact le_refl _

/-- The timer invariant survives every uplink that arrives at a time not before the
clock. -/
theorem timerInvariant_uplink (K : LoRaWANConstants) (clock now : Int)
    (s : LoRaWANNetworkServer) (lastGW : Nat) (packet : USPacket) (t : Int)
    (hInv : timerInvariant K clock s) (hnow : clock ≤ now) :
    timerInvariant K now (HandleUSPacket K s now lastGW packet t) := by
  rcases hd : s.m_endDevices packet.frmHdr.devAddr with _ | d
  · rw [HandleUSPacket_unknown K s now lastGW packet t hd]
    exact timerInvariant_uplink_known K clock now _ lastGW packet t
      (InitEndDeviceInfo s now packet.frmHdr.devAddr t).1
      (timerInvariant_alloc K clock now s packet.frmHdr.devAddr t hInv hd) hnow
      (by simp [setDevice])
  · exact timerInvariant_uplink_known K clock now s lastGW packet t d hInv hnow hd

/-- The timer invariant carries over to a later clock. -/
theorem timerInvariant_mono (K : LoRaWANConstants) (clock clock' : Int)
    (s : LoRaWANNetworkServer) (hInv : timerInvariant K clock s) (hle : clock ≤ clock') :
    timerInvariant K clock' s :=
  timerInvariant_step K clock clock' s s hInv (le_trans hInv.1 hle)
    (fun key d h => le_trans (hInv.2.1 key d h) hle)
    (fun _ d h => ⟨d, h, le_refl _⟩) (fun _ hev _ => Or.inl hev)

/-- The timer invariant survives every admissible call that returns, with the clock
moved to the time of the call. -/
theorem timerInvariant_call (K : LoRaWANConstants) (clock : Int)
    (s s' : LoRaWANNetworkServer) (c : Call) (hInv : timerInvariant K clock s)
    (hadm : admissible clock s c) (h : call K s c = some s') :
    timerInvariant K (clockAfter clock c) s' := by
  have hTx : ∀ s d deviceAddr gatewayPtr RW1, timerInvariant K clock s →
      s.m_endDevices deviceAddr = some d →
      (d.m_downstreamQueue ≠ [] ∨ d.m_setAck = true) →
      timerInvariant K clock (serverAfterSend K s d deviceAddr gatewayPtr RW1) :=
    fun s d deviceAddr gatewayPtr RW1 hs hd _ =>
      timerInvariant_send K clock s d deviceAddr gatewayPtr RW1 hs hd
  cases c with
  | HandleUSPacket now lastGW packet t =>
      simp only [call, Option.some.injEq] at h
      rw [← h]
      exact timerInvariant_uplink K clock now s lastGW packet t hInv hadm
  | RW1TimerExpired can now deviceAddr =>
      simp only [call] at h
      exact timerInvariant_mono K clock now s'
        (RW1TimerExpired_preserves K (timerInvariant K clock) hTx
          (fun s d key ts hs hd => timerInvariant_rw2 K clock s d key ts hs hd)
          can s s' now deviceAddr hInv h) hadm.1
  | RW2TimerExpired can deviceAddr =>
      simp only [call] at h
      exact RW2TimerExpired_preserves K (timerInvariant K clock) hTx can s s' deviceAddr hInv h
  | SendDSPacket deviceAddr gatewayPtr RW1 RW2 =>
      simp only [call] at h
      exact SendDSPacket_preserves K (timerInvariant K clock) hTx s s' deviceAddr gatewayPtr
        RW1 RW2 hInv h
  | DSTimerExpired now deviceAddr t =>
      simp only [call, Option.some.injEq] at h
      rw [← h]
      exact timerInvariant_tick K clock now s deviceAddr t hInv hadm

/-- The timer invariant survives a run dispatched in timestamp order, and the rest
of the sequence is dispatched in order from the state and clock reached. -/
theorem timerInvariant_run (K : LoRaWANConstants) (rest : List Call) :
    ∀ (pre : List Call) (clock : Int) (s s' : LoRaWANNetworkServer),
      timerInvariant K clock s → dispatchedInOrder K clock s (pre ++ rest) →
      run K s pre = some s' →
      ∃ clock', timerInvariant K clock' s' ∧ dispatchedInOrder K clock' s' rest := by
  intro pre
  induction pre with
  | nil =>
      intro clock s s' hInv hord hrun
      simp only [run, Option.some.injEq] at hrun
      subst hrun
      exact ⟨clock, hInv, hord⟩
  | cons c cs ih =>
      intro clock s s' hInv hord hrun
      rcases hc : call K s c with _ | s1
      · simp [run, hc] at hrun
      · simp only [run, hc] at hrun
        simp only [List.cons_append, dispatchedInOrder, hc] at hord
        exact ih (clockAfter clock c) s1 s'
          (timerInvariant_call K clock s s1 c hInv hord.1 hc) hord.2 hrun

/-! ## Acknowledgments sent and pending -/

/-- One uplink raises the number of acknowledgments sent or pending of a known device
by at most the number of non-duplicate confirmed uplinks it carries. -/
theorem HandleUSPacket_ack_budget (K : LoRaWANConstants) (key : Nat)
    (s : LoRaWANNetworkServer) (d : LoRaWANEndDeviceInfoNS)
    (hd : s.m_endDevices key = some d) (now : Int) (lastGW : Nat) (packet : USPacket)
    (t : Int) :
    ∃ d', (HandleUSPacket K s now lastGW packet t).m_endDevices key = some d' ∧
      acksSentOrPending d' ≤ acksSentOrPending d +
        confirmedUplinkOf key s (Call.HandleUSPacket now lastGW packet t) := by
  refine ⟨_, HandleUSPacket_at K s now lastGW packet t key d hd, ?_⟩
  by_cases hk : packet.frmHdr.devAddr = key
  · rw [if_pos hk]
    by_cases hdup : isDuplicate d now packet.frmHdr.frameCounter
    · rw [if_pos hdup]
      simp only [acksSentOrPending, recordAfterDuplicate]
      omega
    · rw [if_neg hdup]
      rcases hm : packet.msgTypeTag with _ | m
      · simp only [acksSentOrPending, recordAfterUplink, hm]
        omega
      · by_cases hc : m = LORAWAN_CONFIRMED_DATA_UP
        · have hone : confirmedUplinkOf key s (Call.HandleUSPacket now lastGW packet t) = 1 := by
            simp only [confirmedUplinkOf, hd]
            rw [if_pos ⟨hk, by rw [hm, hc], hdup⟩]
          rw [hone]
          simp only [acksSentOrPending, recordAfterUplink, hm, hc, if_true]
          split_ifs <;> omega
        · simp only [acksSentOrPending, recordAfterUplink, hm, hc, if_false]
          omega
  · rw [if_neg hk]
    omega

/-- A transmitting send keeps the number of acknowledgments sent or pending of every
known device. -/
theorem serverAfterSend_ack_budget (K : LoRaWANConstants) (key n : Nat)
    (s : LoRaWANNetworkServer) (d : LoRaWANEndDeviceInfoNS) (deviceAddr gatewayPtr : Nat)
    (RW1 : Bool)
    (hP : ∃ d', s.m_endDevices key = some d' ∧ acksSentOrPending d' = n)
    (hd : s.m_endDevices deviceAddr = some d) :
    ∃ d', (serverAfterSend K s d deviceAddr gatewayPtr RW1).m_endDevices key = some d' ∧
      acksSentOrPending d' = n := by
  obtain ⟨d1, hl, hq⟩ := hP
  by_cases hk : key = deviceAddr
  · subst hk
    have hdd : d = d1 := Option.some.inj (hd.symm.trans hl)
    subst hdd
    refine ⟨recordAfterSend K d gatewayPtr RW1, by rw [serverAfterSend_at, if_pos rfl], ?_⟩
    rw [← hq]
    rcases ha : d.m_setAck with _ | _ <;> simp [acksSentOrPending, recordAfterSend, ha]
  · exact ⟨d1, by rw [serverAfterSend_at, if_neg hk]; exact hl, hq⟩

/-- Scheduling an RW2 timer keeps the number of acknowledgments sent or pending of
every known device. -/
theorem serverAfterRW2Schedule_ack_budget (key n : Nat)
    (s : LoRaWANNetworkServer) (d : LoRaWANEndDeviceInfoNS) (key' : Nat) (ts : Int)
    (hP : ∃ d', s.m_endDevices key = some d' ∧ acksSentOrPending d' = n)
    (hd : s.m_endDevices key' = some d) :
    ∃ d', (serverAfterRW2Schedule s d key' ts).m_endDevices key = some d' ∧
      acksSentOrPending d' = n := by
  obtain ⟨d1, hl, hq⟩ := hP
  by_cases hk : key = key'
  · subst hk
    have hdd : d = d1 := Option.some.inj (hd.symm.trans hl)
    subst hdd
    exact ⟨{ d with m_rw2Timer := some ts }, by rw [serverAfterRW2Schedule_at, if_pos rfl], hq⟩
  · exact ⟨d1, by rw [serverAfterRW2Schedule_at, if_neg hk]; exact hl, hq⟩

/-- One call that returns raises the number of acknowledgments sent or pending of a
known device by at most the number of non-duplicate confirmed uplinks it carries. -/
theorem call_ack_budget (K : LoRaWANConstants) (key : Nat)
    (s s' : LoRaWANNetworkServer) (d : LoRaWANEndDeviceInfoNS)
    (hd : s.m_endDevices key = some d) (c : Call) (h : call K s c = some s') :
    ∃ d', s'.m_endDevices key = some d' ∧
      acksSentOrPending d' ≤ acksSentOrPending d + confirmedUplinkOf key s c := by
  have hTx : ∀ s1 d1 deviceAddr gatewayPtr RW1,
      (∃ d', s1.m_endDevices key = some d' ∧ acksSentOrPending d' = acksSentOrPending d) →
      s1.m_endDevices deviceAddr = some d1 →
      (d1.m_downstreamQueue ≠ [] ∨ d1.m_setAck = true) →
      ∃ d', (serverAfterSend K s1 d1 deviceAddr gatewayPtr RW1).m_endDevices key = some d' ∧
        acksSentOrPending d' = acksSentOrPending d := by
    intro s1 d1 deviceAddr gatewayPtr RW1 hP hd1 _
    exact serverAfterSend_ack_budget K key _ s1 d1 deviceAddr gatewayPtr RW1 hP hd1
  have hRW2 : ∀ s1 d1 key' ts,
      (∃ d', s1.m_endDevices key = some d' ∧ acksSentOrPending d' = acksSentOrPending d) →
      s1.m_endDevices key' = some d1 →
      ∃ d', (serverAfterRW2Schedule s1 d1 key' ts).m_endDevices key = some d' ∧
        acksSentOrPending d' = acksSentOrPending d := by
    intro s1 d1 key' ts hP hd1
    exact serverAfterRW2Schedule_ack_budget key _ s1 d1 key' ts hP hd1
  have hstart : ∃ d', s.m_endDevices key = some d' ∧
      acksSentOrPending d' = acksSentOrPending d := ⟨d, hd, rfl⟩
  cases c with
  | HandleUSPacket now lastGW packet t =>
      simp only [call, Option.some.injEq] at h
      rw [← h]
      exact HandleUSPacket_ack_budget K key s d hd now lastGW packet t
  | RW1TimerExpired can now deviceAddr =>
      simp only [call] at h
      obtain ⟨d', hl, hq⟩ := RW1TimerExpired_preserves K
        (fun s1 => ∃ d', s1.m_endDevices key = some d' ∧
          acksSentOrPending d' = acksSentOrPending d) hTx hRW2 can s s' now deviceAddr hstart h
      exact ⟨d', hl, by rw [hq]; simp [confirmedUplinkOf]⟩
  | RW2TimerExpired can deviceAddr =>
      simp only [call] at h
      obtain ⟨d', hl, hq⟩ := RW2TimerExpired_preserves K
        (fun s1 => ∃ d', s1.m_endDevices key = some d' ∧
          acksSentOrPending d' = acksSentOrPending d) hTx can s s' deviceAddr hstart h
      exact ⟨d', hl, by rw [hq]; simp [confirmedUplinkOf]⟩
  | SendDSPacket deviceAddr gatewayPtr RW1 RW2 =>
      simp only [call] at h
      obtain ⟨d', hl, hq⟩ := SendDSPacket_preserves K
        (fun s1 => ∃ d', s1.m_endDevices key = some d' ∧
          acksSentOrPending d' = acksSentOrPending d) hTx s s' deviceAddr gatewayPtr RW1 RW2
        hstart h
      exact ⟨d', hl, by rw [hq]; simp [confirmedUplinkOf]⟩
  | DSTimerExpired now deviceAddr t =>
      simp only [call, Option.some.injEq] at h
      rw [← h]
      refine ⟨_, DSTimerExpired_at K s now deviceAddr t key d hd, ?_⟩
      split_ifs <;> simp [acksSentOrPending, recordAfterTick, confirmedUplinkOf]

/-- Along every run, the number of acknowledgments sent or pending of a known device
grows by at most the number of non-duplicate confirmed uplinks processed. -/
theorem run_ack_budget (K : LoRaWANConstants) (key : Nat) :
    ∀ (calls : List Call) (s s' : LoRaWANNetworkServer) (d : LoRaWANEndDeviceInfoNS),
      s.m_endDevices key = some d → run K s calls = some s' →
      ∃ d', s'.m_endDevices key = some d' ∧
        acksSentOrPending d' ≤ acksSentOrPending d + confirmedUplinksProcessed K key s calls := by
  intro calls
  induction calls with
  | nil =>
      intro s s' d hd hrun
      simp only [run, Option.some.injEq] at hrun
      subst hrun
      exact ⟨d, hd, by simp [confirmedUplinksProcessed]⟩
  | cons c cs ih =>
      intro s s' d hd hrun
      rcases hc : call K s c with _ | s1
      · simp [run, hc] at hrun
      · simp only [run, hc] at hrun
        obtain ⟨d1, hd1, hq1⟩ := call_ack_budget K key s s1 d hd c hc
        obtain ⟨d', hd', hq'⟩ := ih s1 s' d1 hd1 hrun
        refine ⟨d', hd', ?_⟩
        simp only [confirmedUplinksProcessed, hc]
        omega

/-- Along every run, the frames transmitted to a known device with the ack bit set
are as many as `m_nDSAcks` has grown. -/
theorem run_ack_frames (K : LoRaWANConstants) (key : Nat) (s : LoRaWANNetworkServer)
    (d0 : LoRaWANEndDeviceInfoNS) (hd0 : s.m_endDevices key = some d0) (calls : List Call)
    (s1 : LoRaWANNetworkServer) (hrun : run K s calls = some s1) :
    ∃ new d1, s1.transmitted = s.transmitted ++ new ∧
      s1.m_endDevices key = some d1 ∧
      d1.m_nDSAcks = d0.m_nDSAcks + (ackFramesOf key new).length := by
  refine run_preserves K
    (fun s1 => ∃ new d1, s1.transmitted = s.transmitted ++ new ∧
      s1.m_endDevices key = some d1 ∧
      d1.m_nDSAcks = d0.m_nDSAcks + (ackFramesOf key new).length)
    ?_ ?_ ?_ ?_ calls s s1 ⟨[], d0, by simp, hd0, by simp [ackFramesOf, downlinksOf]⟩ hrun
  · rintro s1 now lastGW packet t ⟨new, d1, htr, hl, hfc⟩
    refine ⟨new, _, by rw [(HandleUSPacket_frame K s1 now lastGW packet t).1, htr],
      HandleUSPacket_at K s1 now lastGW packet t key d1 hl, ?_⟩
    split_ifs <;> simpa [recordAfterDuplicate, recordAfterUplink] using hfc
  · rintro s1 d deviceAddr gatewayPtr RW1 ⟨new, d1, htr, hl, hfc⟩ hd _
    by_cases hk : deviceAddr = key
    · subst hk
      have hdd : d = d1 := Option.some.inj (hd.symm.trans hl)
      subst hdd
      refine ⟨new ++ [(gatewayPtr, composedPacket K d deviceAddr RW1)],
        recordAfterSend K d gatewayPtr RW1, by simp [serverAfterSend, htr],
        by rw [serverAfterSend_at, if_pos rfl], ?_⟩
      rw [ackFramesOf, downlinksOf_append_same deviceAddr gatewayPtr _ new rfl,
        List.filter_append, List.length_append]
      rcases ha : d.m_setAck with _ | _
      · simp [recordAfterSend, composedPacket, ha, hfc, ackFramesOf]
      · simp [recordAfterSend, composedPacket, ha, hfc, ackFramesOf]
        omega
    · have hne : (composedPacket K d deviceAddr RW1).fhdr.devAddr ≠ key := hk
      refine ⟨new ++ [(gatewayPtr, composedPacket K d deviceAddr RW1)], d1,
        by simp [serverAfterSend, htr],
        by rw [serverAfterSend_at, if_neg (Ne.symm hk)]; exact hl, ?_⟩
      rw [ackFramesOf, downlinksOf_append_other key gatewayPtr _ new hne]; exact hfc
  · rintro s1 now deviceAddr t ⟨new, d1, htr, hl, hfc⟩
    refine ⟨new, _, by rw [(DSTimerExpired_frame K s1 now deviceAddr t).1, htr],
      DSTimerExpired_at K s1 now deviceAddr t key d1 hl, ?_⟩
    split_ifs <;> simpa [recordAfterTick] using hfc
  · rintro s1 d key' ts ⟨new, d1, htr, hl, hfc⟩ hd
    by_cases hk : key = key'
    · subst hk
      have hdd : d = d1 := Option.some.inj (hd.symm.trans hl)
      subst hdd
      exact ⟨new, { d with m_rw2Timer := some ts }, htr,
        by rw [serverAfterRW2Schedule_at, if_pos rfl], hfc⟩
    · exact ⟨new, d1, htr, by rw [serverAfterRW2Schedule_at, if_neg hk]; exact hl, hfc⟩


/-! ## Invariants of one device record -/

/-- Every record found after `HandleUSPacket` comes from the record found before the
call, or, for the device of the uplink when it had none, from the record
`InitEndDeviceInfo` returns: it is that record itself, or that record after a
duplicate, or that record after an uplink that is processed. -/
theorem HandleUSPacket_record (K : LoRaWANConstants) (s : LoRaWANNetworkServer)
    (now : Int) (lastGW : Nat) (packet : USPacket) (t : Int) (key : Nat)
    (d' : LoRaWANEndDeviceInfoNS)
    (h : (HandleUSPacket K s now lastGW packet t).m_endDevices key = some d') :
    ∃ d, (s.m_endDevices key = some d ∨
          (s.m_endDevices key = none ∧ d = (InitEndDeviceInfo s now key t).1)) ∧
      (d' = d ∨ d' = recordAfterDuplicate d lastGW ∨
        d' = recordAfterUplink K d now lastGW packet) := by
  have hform : ∀ (s1 : LoRaWANNetworkServer) (d1 : LoRaWANEndDeviceInfoNS),
      s1.m_endDevices key = some d1 →
      (HandleUSPacket K s1 now lastGW packet t).m_endDevices key = some d' →
      d' = d1 ∨ d' = recordAfterDuplicate d1 lastGW ∨
        d' = recordAfterUplink K d1 now lastGW packet := by
    intro s1 d1 h1 h2
    rw [HandleUSPacket_at K s1 now lastGW packet t key d1 h1] at h2
    have h3 := (Option.some.inj h2).symm
    split_ifs at h3
    · exact Or.inr (Or.inl h3)
    · exact Or.inr (Or.inr h3)
    · exact Or.inl h3
  rcases hk : s.m_endDevices key with _ | d
  · by_cases hne : key = packet.frmHdr.devAddr
    · subst hne
      rw [HandleUSPacket_unknown K s now lastGW packet t hk] at h
      exact ⟨_, Or.inr ⟨rfl, rfl⟩, hform _ _ (by simp [setDevice]) h⟩
    · rw [(HandleUSPacket_frame K s now lastGW packet t).2.2.2.2 key hne, hk] at h
      exact absurd h (by simp)
  · exact ⟨d, Or.inl rfl, hform s d hk h⟩

/-- A property of the record of device `key` that holds for the record
`InitEndDeviceInfo` returns and is kept by each of the five changes a record can
undergo holds after every run, if it held before. -/
theorem run_record_invariant (K : LoRaWANConstants) (key : Nat)
    (I : LoRaWANEndDeviceInfoNS → Prop)
    (hfresh : ∀ s now t, I (InitEndDeviceInfo s now key t).1)
    (hdup : ∀ d gw, I d → I (recordAfterDuplicate d gw))
    (hup : ∀ d now gw packet, I d → I (recordAfterUplink K d now gw packet))
    (hsend : ∀ d gw RW1, I d → I (recordAfterSend K d gw RW1))
    (htick : ∀ s d now t, I d → I (recordAfterTick K s d now t))
    (hrw2 : ∀ (d : LoRaWANEndDeviceInfoNS) (ts : Int), I d → I { d with m_rw2Timer := some ts })
    (calls : List Call) (s s' : LoRaWANNetworkServer)
    (h0 : ∀ d, s.m_endDevices key = some d → I d) (hrun : run K s calls = some s') :
    ∀ d, s'.m_endDevices key = some d → I d := by
  refine run_preserves K (fun s1 => ∀ d, s1.m_endDevices key = some d → I d)
    ?_ ?_ ?_ ?_ calls s s' h0 hrun
  · intro s1 now lastGW packet t hP d' h
    obtain ⟨d, hd, hcase⟩ := HandleUSPacket_record K s1 now lastGW packet t key d' h
    have hI : I d := by
      rcases hd with hd | ⟨_, hd⟩
      · exact hP d hd
      · rw [hd]; exact hfresh s1 now t
    rcases hcase with h1 | h1 | h1
    · rw [h1]; exact hI
    · rw [h1]; exact hdup d lastGW hI
    · rw [h1]; exact hup d now lastGW packet hI
  · intro s1 d deviceAddr gatewayPtr RW1 hP hd _ d' h
    rw [serverAfterSend_at] at h
    split_ifs at h with hk
    · rw [← Option.some.inj h]
      exact hsend d gatewayPtr RW1 (hP d (hk ▸ hd))
    · exact hP d' h
  · intro s1 now deviceAddr t hP d' h
    rcases hk : s1.m_endDevices key with _ | d
    · rcases ha : s1.m_endDevices deviceAddr with _ | da
      · rw [DSTimerExpired_unknown K s1 now deviceAddr t ha, hk] at h
        exact absurd h (by simp)
      · rw [DSTimerExpired_known K s1 now deviceAddr t da ha] at h
        have hne : key ≠ deviceAddr := fun e => by rw [e, ha] at hk; exact absurd hk (by simp)
        simp [setDevice, hne, hk] at h
    · rw [DSTimerExpired_at K s1 now deviceAddr t key d hk] at h
      rw [← Option.some.inj h]
      split_ifs
      · exact htick s1 d now t (hP d hk)
      · exact hP d hk
  · intro s1 d key' ts hP hd d' h
    rw [serverAfterRW2Schedule_at] at h
    split_ifs at h with hk
    · rw [← Option.some.inj h]
      exact hrw2 d ts (hP d (hk ▸ hd))
    · exact hP d' h

/-- A device that has a record keeps having one along every run. -/
theorem run_keeps_known (K : LoRaWANConstants) (key : Nat) (s : LoRaWANNetworkServer)
    (d0 : LoRaWANEndDeviceInfoNS) (hd0 : s.m_endDevices key = some d0) (calls : List Call)
    (s1 : LoRaWANNetworkServer) (hrun : run K s calls = some s1) :
    ∃ d1, s1.m_endDevices key = some d1 := by
  obtain ⟨_, d1, _, hl, _⟩ := run_frame_counters K key s d0 hd0 calls s1 hrun
  exact ⟨d1, hl⟩

/-! ## Each state change respects the FIFO discipline -/

/-- A transmitting send sends its frame from the head of the queue. -/
theorem recordAfterSend_headSent (K : LoRaWANConstants) (d : LoRaWANEndDeviceInfoNS)
    (deviceAddr gatewayPtr : Nat) (RW1 : Bool) :
    headSent K d.m_downstreamQueue (composedPacket K d deviceAddr RW1)
      (recordAfterSend K d gatewayPtr RW1).m_downstreamQueue := by
  rcases hq : d.m_downstreamQueue with _ | ⟨e, rest⟩
  · have h1 : (recordAfterSend K d gatewayPtr RW1).m_downstreamQueue = [] := by
      simp [recordAfterSend, hq]
    rw [h1]
    exact ⟨by simp [composedPacket, elementToSend, hq], rfl⟩
  · have hp : (composedPacket K d deviceAddr RW1).payload = e.m_downstreamPacket := by
      simp [composedPacket, elementToSend, hq]
    have ht : (composedPacket K d deviceAddr RW1).msgTypeTag = e.m_downstreamMsgType := by
      simp [composedPacket, elementToSend, hq]
    by_cases hkeep : e.m_downstreamMsgType = LORAWAN_CONFIRMED_DATA_DOWN ∧
        e.m_downstreamTransmissionsRemaining ≠ 1
    · have h1 : (recordAfterSend K d gatewayPtr RW1).m_downstreamQueue =
          { e with
            m_downstreamTransmissionsRemaining :=
              decrement K e.m_downstreamTransmissionsRemaining,
            m_isRetransmission := true } :: rest := by
        simp only [recordAfterSend, hq]
        rw [if_pos hkeep]
      rw [h1]
      exact ⟨hp, ht, Or.inr rfl⟩
    · have h1 : (recordAfterSend K d gatewayPtr RW1).m_downstreamQueue = rest := by
        simp only [recordAfterSend, hq]
        rw [if_neg hkeep]
      rw [h1]
      exact ⟨hp, ht, Or.inl rfl⟩

/-- An uplink that is processed leaves the queue as it was or, having the ack bit,
removes a confirmed head. -/
theorem recordAfterUplink_queue (K : LoRaWANConstants) (d : LoRaWANEndDeviceInfoNS)
    (now : Int) (lastGW : Nat) (packet : USPacket) :
    (recordAfterUplink K d now lastGW packet).m_downstreamQueue = d.m_downstreamQueue ∨
    (packet.frmHdr.ack = true ∧
      ∃ e, e.m_downstreamMsgType = LORAWAN_CONFIRMED_DATA_DOWN ∧
        d.m_downstreamQueue = e :: (recordAfterUplink K d now lastGW packet).m_downstreamQueue) := by
  rcases hack : packet.frmHdr.ack with _ | _
  · left
    simp [recordAfterUplink, hack]
  · rcases hq : d.m_downstreamQueue with _ | ⟨e, rest⟩
    · left
      simp [recordAfterUplink, hack, hq]
    · by_cases hc : e.m_downstreamMsgType = LORAWAN_CONFIRMED_DATA_DOWN
      · right
        have h1 : (recordAfterUplink K d now lastGW packet).m_downstreamQueue = rest := by
          simp [recordAfterUplink, hack, hq, hc]
        rw [h1]
        exact ⟨rfl, e, hc, rfl⟩
      · left
        simp [recordAfterUplink, hack, hq, hc]

/-- The frames for `key` in a concatenation of transmit records. -/
theorem downlinksOf_append (key : Nat) (l1 l2 : List (Nat × DSPacket)) :
    downlinksOf key (l1 ++ l2) = downlinksOf key l1 ++ downlinksOf key l2 := by
  simp [downlinksOf, List.filter_append]

/-- One `SendDSPacket` call that returns leaves the queue of a known device `key` and
sends nothing for it, or, being a call for `key`, sends one frame from the head of
its queue. -/
theorem SendDSPacket_fifo (K : LoRaWANConstants) (key : Nat) (s s' : LoRaWANNetworkServer)
    (d : LoRaWANEndDeviceInfoNS) (hd : s.m_endDevices key = some d)
    (deviceAddr gatewayPtr : Nat) (RW1 RW2 : Bool)
    (h : SendDSPacket K s deviceAddr gatewayPtr RW1 RW2 = some s') :
    ∃ d' new, s'.m_endDevices key = some d' ∧ s'.transmitted = s.transmitted ++ new ∧
      ((downlinksOf key new = [] ∧ d'.m_downstreamQueue = d.m_downstreamQueue) ∨
       (deviceAddr = key ∧ ∃ f, downlinksOf key new = [f] ∧
         headSent K d.m_downstreamQueue f d'.m_downstreamQueue)) := by
  rcases SendDSPacket_cases K s s' deviceAddr gatewayPtr RW1 RW2 h with h1 | ⟨da, hda, _, h1⟩
  · rw [h1]
    exact ⟨d, [], hd, by simp, Or.inl ⟨rfl, rfl⟩⟩
  · rw [h1]
    by_cases hk : deviceAddr = key
    · subst hk
      have hdd : da = d := Option.some.inj (hda.symm.trans hd)
      subst hdd
      refine ⟨recordAfterSend K da gatewayPtr RW1,
        [(gatewayPtr, composedPacket K da deviceAddr RW1)],
        by rw [serverAfterSend_at, if_pos rfl], rfl, Or.inr ⟨rfl, _, ?_, 
          recordAfterSend_headSent K da deviceAddr gatewayPtr RW1⟩⟩
      simp [downlinksOf, composedPacket]
    · refine ⟨d, [(gatewayPtr, composedPacket K da deviceAddr RW1)],
        by rw [serverAfterSend_at, if_neg (Ne.symm hk)]; exact hd, rfl, Or.inl ⟨?_, rfl⟩⟩
      simp [downlinksOf, composedPacket, hk]

/-- A run of `SendDSPacket` calls for one device sends frames from the head of the
queue of a known device `key`, one after the other, and none when the calls are for
another device. -/
theorem run_sendCalls_fifo (K : LoRaWANConstants) (key deviceAddr : Nat) (RW1 RW2 : Bool)
    (gws : List Nat) :
    ∀ (s s' : LoRaWANNetworkServer) (d : LoRaWANEndDeviceInfoNS),
      s.m_endDevices key = some d →
      run K s (sendCalls deviceAddr RW1 RW2 gws) = some s' →
      ∃ d' new, s'.m_endDevices key = some d' ∧ s'.transmitted = s.transmitted ++ new ∧
        headsSent K d.m_downstreamQueue (downlinksOf key new) d'.m_downstreamQueue ∧
        (deviceAddr ≠ key → downlinksOf key new = []) := by
  induction gws with
  | nil =>
    intro s s' d hd h
    simp only [sendCalls, List.map_nil, run, Option.some.injEq] at h
    subst h
    exact ⟨d, [], hd, by simp, rfl, fun _ => rfl⟩
  | cons gw gws ih =>
    intro s s' d hd h
    rcases hs : SendDSPacket K s deviceAddr gw RW1 RW2 with _ | s1
    · simp [sendCalls, run, call, hs] at h
    · have h' : run K s1 (sendCalls deviceAddr RW1 RW2 gws) = some s' := by
        simpa [sendCalls, run, call, hs] using h
      obtain ⟨d1, new1, hd1, htr1, hstep⟩ :=
        SendDSPacket_fifo K key s s1 d hd deviceAddr gw RW1 RW2 hs
      obtain ⟨d', new2, hd', htr2, hchain, hother⟩ := ih s1 s' d1 hd1 h'
      refine ⟨d', new1 ++ new2, hd', by rw [htr2, htr1, List.append_assoc], ?_, ?_⟩
      · rw [downlinksOf_append]
        rcases hstep with ⟨hnone, hq⟩ | ⟨_, f, hone, hsent⟩
        · rw [hnone, List.nil_append, ← hq]
          exact hchain
        · rw [hone]
          exact ⟨d1.m_downstreamQueue, hsent, hchain⟩
      · intro hne
        rw [downlinksOf_append, hother hne]
        rcases hstep with ⟨hnone, _⟩ | ⟨hk, _⟩
        · rw [hnone]; rfl
        · exact absurd hk hne

/-! ## Uplink classifier -/

/-- C1 (duplicate uplink): for a known device with stored counter `S` and last-seen
time `L`, an uplink with frame counter `F`, `0 < F ≤ S`, arriving with
`now - L ≤ 1 s` makes `HandleUSPacket` add one to `m_nUSPackets` and to
`m_nUSDuplicates`, append the receiving gateway to `m_lastGWs`, and change nothing
else: every other field of the record, every other device, the list of scheduled
events (no RW1 timer) and the transmitted frames stay as they were, whatever the
ack bit and the message type of the uplink. -/
theorem C1_duplicate_uplink (K : LoRaWANConstants) (s : LoRaWANNetworkServer) (now : Int)
    (lastGW : Nat) (packet : USPacket) (t : Int) (d : LoRaWANEndDeviceInfoNS)
    (hd : s.m_endDevices packet.frmHdr.devAddr = some d)
    (hF : 0 < packet.frmHdr.frameCounter)
    (hS : packet.frmHdr.frameCounter ≤ d.m_fCntUp)
    (hL : now - d.m_lastSeen ≤ Seconds 1) :
    HandleUSPacket K s now lastGW packet t =
      setDevice s packet.frmHdr.devAddr
        { d with m_nUSPackets := d.m_nUSPackets + 1,
                 m_nUSDuplicates := d.m_nUSDuplicates + 1,
                 m_lastGWs := d.m_lastGWs ++ [lastGW] } := by
  have hne : packet.frmHdr.frameCounter ≠ 0 := Nat.pos_iff_ne_zero.mp hF
  have hnot : ¬ (now - d.m_lastSeen > Seconds 1) := not_lt.mpr hL
  simp [HandleUSPacket, hd, hne, hnot, hS, hL]

/-- Worked instance of C1: device 1 has stored counter 5 and was last seen at time 0;
an uplink with counter 3 arriving after 0.5 s through gateway 4 is dropped. -/
theorem C1_duplicate_uplink_witness :
    HandleUSPacket sampleConstants sampleServer 500000000 4
        (sampleUplink 3 true LORAWAN_CONFIRMED_DATA_UP) 0 =
      setDevice sampleServer 1
        { sampleDevice with m_nUSPackets := 1, m_nUSDuplicates := 1, m_lastGWs := [2, 4] } :=
  C1_duplicate_uplink sampleConstants sampleServer 500000000 4
    (sampleUplink 3 true LORAWAN_CONFIRMED_DATA_UP) 0 sampleDevice rfl (by decide) (by decide)
    (by decide)

/-- C2 (strictly increasing counters): starting from a device record whose unique,
duplicate and retransmission counters and stored uplink counter are zero (a fresh
record), handling `N` uplinks of that device with strictly increasing frame
counters, at any arrival times, through any gateways, with any ack bits and message
types, leaves `m_nUniqueUSPackets = N`, `m_nUSDuplicates = 0`,
`m_nUSRetransmission = 0`, and `m_fCntUp` equal to the frame counter of the last
uplink. -/
theorem C2_strictly_increasing_counters (K : LoRaWANConstants) (s : LoRaWANNetworkServer)
    (key : Nat) (d : LoRaWANEndDeviceInfoNS) (ups : List UplinkArrival)
    (hd : s.m_endDevices key = some d)
    (hU : d.m_nUniqueUSPackets = 0) (hD : d.m_nUSDuplicates = 0)
    (hR : d.m_nUSRetransmission = 0) (hS : d.m_fCntUp = 0)
    (hkey : ∀ u ∈ ups, u.packet.frmHdr.devAddr = key)
    (hinc : ups.Pairwise
      (fun a b => a.packet.frmHdr.frameCounter < b.packet.frmHdr.frameCounter)) :
    ∃ d', (handleUplinks K s ups).m_endDevices key = some d' ∧
      d'.m_nUniqueUSPackets = ups.length ∧
      d'.m_nUSDuplicates = 0 ∧
      d'.m_nUSRetransmission = 0 ∧
      ∀ last, ups.getLast? = some last → d'.m_fCntUp = last.packet.frmHdr.frameCounter := by
  obtain ⟨d', h, hU', hD', hR', hS'⟩ :=
    handleUplinks_increasing K key ups s d hd hkey
      (fun u _ => by rw [hS]; exact Nat.eq_zero_or_pos _) hinc
  refine ⟨d', h, by rw [hU', hU, Nat.zero_add], by rw [hD', hD], by rw [hR', hR], ?_⟩
  intro last hlast
  rw [hS', hlast]
  rfl

/-- Worked instance of C2: three uplinks of device 1 with counters 0, 1 and 4 on the
freshly initialised server, the second one only 0.2 s after the first. -/
theorem C2_strictly_increasing_counters_witness :
    ∃ d', (handleUplinks sampleConstants (freshServer false false)
        [⟨0, 2, sampleUplink 0 false LORAWAN_UNCONFIRMED_DATA_UP, 0⟩,
         ⟨200000000, 3, sampleUplink 1 true LORAWAN_CONFIRMED_DATA_UP, 0⟩,
         ⟨9000000000, 2, sampleUplink 4 false LORAWAN_UNCONFIRMED_DATA_UP, 0⟩]).m_endDevices 1
        = some d' ∧
      d'.m_nUniqueUSPackets = 3 ∧
      d'.m_nUSDuplicates = 0 ∧
      d'.m_nUSRetransmission = 0 ∧
      ∀ last,
        [(⟨0, 2, sampleUplink 0 false LORAWAN_UNCONFIRMED_DATA_UP, 0⟩ : UplinkArrival),
         ⟨200000000, 3, sampleUplink 1 true LORAWAN_CONFIRMED_DATA_UP, 0⟩,
         ⟨9000000000, 2, sampleUplink 4 false LORAWAN_UNCONFIRMED_DATA_UP, 0⟩].getLast?
          = some last →
        d'.m_fCntUp = last.packet.frmHdr.frameCounter :=
  C2_strictly_increasing_counters sampleConstants (freshServer false false) 1
    (InitEndDeviceInfo (emptyServer false false) 0 1 10000000000).1 _ rfl rfl rfl rfl rfl
    (by decide) (by decide)

/-- C3 (frame counter 0): for a known device, whatever its stored counter and
last-seen time, `HandleUSPacket` classifies an uplink with frame counter 0 as new:
`m_nUniqueUSPackets` grows by one, `m_nUSDuplicates` and `m_nUSRetransmission` are
unchanged, the stored counter becomes 0, and processing continues: `m_lastSeen`
becomes `now` and one RW1 timer is scheduled at `now + RECEIVE_DELAY1`. -/
theorem C3_counter_zero_is_new (K : LoRaWANConstants) (s : LoRaWANNetworkServer) (now : Int)
    (lastGW : Nat) (packet : USPacket) (t : Int) (d : LoRaWANEndDeviceInfoNS)
    (hd : s.m_endDevices packet.frmHdr.devAddr = some d)
    (h0 : packet.frmHdr.frameCounter = 0) :
    ∃ d', (HandleUSPacket K s now lastGW packet t).m_endDevices packet.frmHdr.devAddr = some d' ∧
      d'.m_nUniqueUSPackets = d.m_nUniqueUSPackets + 1 ∧
      d'.m_nUSDuplicates = d.m_nUSDuplicates ∧
      d'.m_nUSRetransmission = d.m_nUSRetransmission ∧
      d'.m_fCntUp = 0 ∧
      d'.m_lastSeen = now ∧
      d'.m_rw1Timer = some (now + MicroSeconds K.RECEIVE_DELAY1) ∧
      (HandleUSPacket K s now lastGW packet t).scheduled =
        s.scheduled ++ [⟨now + MicroSeconds K.RECEIVE_DELAY1, TimerHandler.RW1TimerExpired,
                         packet.frmHdr.devAddr⟩] := by
  rcases hphy : packet.phyParamsTag with _ | tag <;>
  rcases hack : packet.frmHdr.ack with _ | _ <;>
  rcases hq : d.m_downstreamQueue with _ | ⟨e, rest⟩ <;>
  simp [HandleUSPacket, hd, h0, hphy, hack, hq, setDevice] <;>
  split <;> simp

/-- Worked instance of C3: device 1 (stored counter 5, last seen at 0) sends counter 0
only 0.5 s later; the uplink is still counted as new. -/
theorem C3_counter_zero_is_new_witness :
    ∃ d', (HandleUSPacket sampleConstants sampleServer 500000000 4
              (sampleUplink 0 false LORAWAN_UNCONFIRMED_DATA_UP) 0).m_endDevices 1 = some d' ∧
      d'.m_nUniqueUSPackets = sampleDevice.m_nUniqueUSPackets + 1 ∧
      d'.m_nUSDuplicates = sampleDevice.m_nUSDuplicates ∧
      d'.m_nUSRetransmission = sampleDevice.m_nUSRetransmission ∧
      d'.m_fCntUp = 0 ∧
      d'.m_lastSeen = 500000000 ∧
      d'.m_rw1Timer = some (500000000 + MicroSeconds sampleConstants.RECEIVE_DELAY1) ∧
      (HandleUSPacket sampleConstants sampleServer 500000000 4
          (sampleUplink 0 false LORAWAN_UNCONFIRMED_DATA_UP) 0).scheduled =
        sampleServer.scheduled ++
          [⟨500000000 + MicroSeconds sampleConstants.RECEIVE_DELAY1,
            TimerHandler.RW1TimerExpired, 1⟩] :=
  C3_counter_zero_is_new sampleConstants sampleServer 500000000 4
    (sampleUplink 0 false LORAWAN_UNCONFIRMED_DATA_UP) 0 sampleDevice rfl rfl

/-- C4 as stated fails: device 1 has stored counter 5, was last seen at time 0 and
has no acknowledgment pending; a confirmed uplink with counter 3 arriving 0.5 s
later is dropped as a duplicate and `m_setAck` is still false afterwards. -/
theorem C4_confirmed_duplicate_counterexample :
    (sampleUplink 3 false LORAWAN_CONFIRMED_DATA_UP).msgTypeTag
        = some LORAWAN_CONFIRMED_DATA_UP ∧
      sampleServer.m_endDevices 1 = some sampleDevice ∧
      ((HandleUSPacket sampleConstants sampleServer 500000000 4
          (sampleUplink 3 false LORAWAN_CONFIRMED_DATA_UP) 0).m_endDevices 1).map
        (fun d => d.m_setAck) = some false := by
  refine ⟨rfl, rfl, ?_⟩
  decide

/-- C4 (amended): for a known device and every uplink that is not dropped as a
duplicate (its frame counter is 0, or exceeds the stored counter, or it arrives more
than 1 s after the last-seen time) and whose message type is confirmed data up,
`m_setAck` is true after `HandleUSPacket`. -/
theorem C4_confirmed_uplink_sets_ack (K : LoRaWANConstants) (s : LoRaWANNetworkServer)
    (now : Int) (lastGW : Nat) (packet : USPacket) (t : Int) (d : LoRaWANEndDeviceInfoNS)
    (hd : s.m_endDevices packet.frmHdr.devAddr = some d)
    (hm : packet.msgTypeTag = some LORAWAN_CONFIRMED_DATA_UP)
    (hnd : ¬ (0 < packet.frmHdr.frameCounter ∧ packet.frmHdr.frameCounter ≤ d.m_fCntUp ∧
              now - d.m_lastSeen ≤ Seconds 1)) :
    ∃ d', (HandleUSPacket K s now lastGW packet t).m_endDevices packet.frmHdr.devAddr = some d' ∧
      d'.m_setAck = true := by
  by_cases h1 : packet.frmHdr.frameCounter ≤ d.m_fCntUp ∧ packet.frmHdr.frameCounter ≠ 0
  · have h2 : ¬ (now - d.m_lastSeen ≤ Seconds 1) :=
      fun h => hnd ⟨Nat.pos_of_ne_zero h1.2, h1.1, h⟩
    rcases hphy : packet.phyParamsTag with _ | tag <;>
    rcases hack : packet.frmHdr.ack with _ | _ <;>
    rcases hq : d.m_downstreamQueue with _ | ⟨e, rest⟩ <;>
    simp [HandleUSPacket, hd, h1, h2, hm, hphy, hack, hq, setDevice] <;>
    split <;> simp
  · rcases hphy : packet.phyParamsTag with _ | tag <;>
    rcases hack : packet.frmHdr.ack with _ | _ <;>
    rcases hq : d.m_downstreamQueue with _ | ⟨e, rest⟩ <;>
    simp [HandleUSPacket, hd, h1, hm, hphy, hack, hq, setDevice] <;>
    split <;> simp

/-- Worked instance of amended C4: the confirmed uplink with counter 3 arrives 2 s
after the last-seen time, so it is a retransmission and the ack is armed. -/
theorem C4_confirmed_uplink_sets_ack_witness :
    ∃ d', (HandleUSPacket sampleConstants sampleServer 2000000000 4
        (sampleUplink 3 false LORAWAN_CONFIRMED_DATA_UP) 0).m_endDevices 1 = some d' ∧
      d'.m_setAck = true :=
  C4_confirmed_uplink_sets_ack sampleConstants sampleServer 2000000000 4
    (sampleUplink 3 false LORAWAN_CONFIRMED_DATA_UP) 0 sampleDevice rfl rfl (by decide)

/-! ## Downlink composer -/

/-- C5 (a send clears the pending acknowledgment): for a known device and a call of
`SendDSPacket` with `RW1` or `RW2` set, the call returns and `m_setAck` is false
afterwards, whether the head of the queue was sent, an ack-only frame was sent, or
nothing was sent. -/
theorem C5_send_clears_pending_ack (K : LoRaWANConstants) (s : LoRaWANNetworkServer)
    (deviceAddr gatewayPtr : Nat) (RW1 RW2 : Bool) (d : LoRaWANEndDeviceInfoNS)
    (hd : s.m_endDevices deviceAddr = some d)
    (hrw : RW1 = true ∨ RW2 = true) :
    ∃ s' d', SendDSPacket K s deviceAddr gatewayPtr RW1 RW2 = some s' ∧
      s'.m_endDevices deviceAddr = some d' ∧ d'.m_setAck = false := by
  rcases hq : d.m_downstreamQueue with _ | ⟨e, rest⟩
  · rcases ha : d.m_setAck with _ | _ <;>
    rcases RW1 with _ | _ <;> rcases RW2 with _ | _ <;>
    simp [SendDSPacket, setDevice, hd, hq, ha] at hrw ⊢
  · by_cases hc : e.m_downstreamMsgType = LORAWAN_CONFIRMED_DATA_DOWN <;>
    rcases RW1 with _ | _ <;> rcases RW2 with _ | _ <;>
    simp [SendDSPacket, setDevice, hd, hq, hc] at hrw ⊢

/-- Worked instance of C5: device 1 has an empty queue and a pending acknowledgment;
the RW2 send through gateway 2 returns with the flag cleared. -/
theorem C5_send_clears_pending_ack_witness :
    ∃ s' d', SendDSPacket sampleConstants
        (setDevice sampleServer 1 { sampleDevice with m_setAck := true }) 1 2 false true
        = some s' ∧
      s'.m_endDevices 1 = some d' ∧ d'.m_setAck = false :=
  C5_send_clears_pending_ack sampleConstants
    (setDevice sampleServer 1 { sampleDevice with m_setAck := true }) 1 2 false true
    { sampleDevice with m_setAck := true } rfl (Or.inr rfl)

/-- C6 (one send of a confirmed head): for a known device whose queue head `e` is a
confirmed downlink with `n` transmissions remaining, `n ≥ 1` (that is, `n ≥ 2` or
`n = 1`, the two cases of the conclusion), a call of `SendDSPacket`
made for a receive window (`RW1` or `RW2` set) hands exactly one frame, carrying the
payload of `e`, to the gateway; if `n ≥ 2` the queue afterwards is `e` with count
`n - 1`, retransmission flag set, and payload, message type and port unchanged,
followed by the unchanged rest; if `n = 1` the queue afterwards is the former tail. -/
theorem C6_one_send_of_confirmed_head (K : LoRaWANConstants) (s : LoRaWANNetworkServer)
    (deviceAddr gatewayPtr : Nat) (RW1 RW2 : Bool) (d : LoRaWANEndDeviceInfoNS)
    (e : LoRaWANNSDSQueueElement) (rest : List LoRaWANNSDSQueueElement)
    (hd : s.m_endDevices deviceAddr = some d)
    (hq : d.m_downstreamQueue = e :: rest)
    (hc : e.m_downstreamMsgType = LORAWAN_CONFIRMED_DATA_DOWN)
    (hrw : RW1 = true ∨ RW2 = true) :
    ∃ s' d' f, SendDSPacket K s deviceAddr gatewayPtr RW1 RW2 = some s' ∧
      s'.m_endDevices deviceAddr = some d' ∧
      s'.transmitted = s.transmitted ++ [(gatewayPtr, f)] ∧
      f.payload = e.m_downstreamPacket ∧
      (2 ≤ e.m_downstreamTransmissionsRemaining →
        ∃ e', d'.m_downstreamQueue = e' :: rest ∧
          e'.m_downstreamTransmissionsRemaining + 1 = e.m_downstreamTransmissionsRemaining ∧
          e'.m_isRetransmission = true ∧
          e'.m_downstreamPacket = e.m_downstreamPacket ∧
          e'.m_downstreamMsgType = e.m_downstreamMsgType ∧
          e'.m_downstreamFramePort = e.m_downstreamFramePort) ∧
      (e.m_downstreamTransmissionsRemaining = 1 → d'.m_downstreamQueue = rest) := by
  obtain ⟨s', d', f, h1, h2, h3, h4, _, h6, _⟩ :=
    SendDSPacket_confirmed_head K s deviceAddr gatewayPtr RW1 RW2 d e rest hd hq hc hrw
  refine ⟨s', d', f, h1, h2, h3, h4, ?_, ?_⟩
  · intro h
    have hne : e.m_downstreamTransmissionsRemaining ≠ 1 := by omega
    rw [if_neg hne, decrement_pos K _ (by omega)] at h6
    exact ⟨_, h6, by simp only; omega, rfl, rfl, rfl, rfl⟩
  · intro h
    rw [if_pos h] at h6
    exact h6

/-- Worked instance of C6: the head of device 1's queue is a never-sent confirmed
element with 3 transmissions remaining, followed by an unconfirmed element; the RW1
send through gateway 2 transmits the head and keeps it queued. -/
theorem C6_one_send_of_confirmed_head_witness :
    ∃ s' d' f, SendDSPacket sampleConstants
        (sampleServerWithQueue [sampleConfirmed 3, sampleUnconfirmed]) 1 2 true false = some s' ∧
      s'.m_endDevices 1 = some d' ∧
      s'.transmitted =
        (sampleServerWithQueue [sampleConfirmed 3, sampleUnconfirmed]).transmitted ++ [(2, f)] ∧
      f.payload = (sampleConfirmed 3).m_downstreamPacket ∧
      (2 ≤ (sampleConfirmed 3).m_downstreamTransmissionsRemaining →
        ∃ e', d'.m_downstreamQueue = e' :: [sampleUnconfirmed] ∧
          e'.m_downstreamTransmissionsRemaining + 1 =
            (sampleConfirmed 3).m_downstreamTransmissionsRemaining ∧
          e'.m_isRetransmission = true ∧
          e'.m_downstreamPacket = (sampleConfirmed 3).m_downstreamPacket ∧
          e'.m_downstreamMsgType = (sampleConfirmed 3).m_downstreamMsgType ∧
          e'.m_downstreamFramePort = (sampleConfirmed 3).m_downstreamFramePort) ∧
      ((sampleConfirmed 3).m_downstreamTransmissionsRemaining = 1 →
        d'.m_downstreamQueue = [sampleUnconfirmed]) :=
  C6_one_send_of_confirmed_head sampleConstants
    (sampleServerWithQueue [sampleConfirmed 3, sampleUnconfirmed]) 1 2 true false
    { sampleDevice with m_downstreamQueue := [sampleConfirmed 3, sampleUnconfirmed] }
    (sampleConfirmed 3) [sampleUnconfirmed] rfl rfl rfl (Or.inl rfl)

/-- C7 (retry exhaustion): let the head `e` of a known device's queue be a never-sent
confirmed downlink with `n ≥ 1` transmissions remaining, and let a sequence of calls
follow that consists of `SendDSPacket` calls for that device (for a receive window),
uplinks none of which acknowledges (ack bit clear for that device), and generator
ticks.  If the sequence contains `k ≤ n` sends, it runs to completion, exactly `k`
frames are transmitted and each carries the payload of `e`, and
`m_nDSRetransmission` has grown by `k - 1`; while `k < n` the element is still the
head (count `n - k`), and when `k = n` it is gone: the queue is the former tail
followed by whatever the ticks appended.  For `k = n` this is removal by exactly the
`n`-th send after `n` transmissions and `n - 1` counted retransmissions. -/
theorem C7_retry_exhaustion (K : LoRaWANConstants) (key : Nat) (calls : List Call)
    (s : LoRaWANNetworkServer) (d : LoRaWANEndDeviceInfoNS) (e : LoRaWANNSDSQueueElement)
    (rest : List LoRaWANNSDSQueueElement)
    (hd : s.m_endDevices key = some d)
    (hq : d.m_downstreamQueue = e :: rest)
    (hc : e.m_downstreamMsgType = LORAWAN_CONFIRMED_DATA_DOWN)
    (hnew : e.m_isRetransmission = false)
    (hn : 1 ≤ e.m_downstreamTransmissionsRemaining)
    (hcalls : ∀ c ∈ calls, unackedRetryCall key c)
    (hk : countSends calls ≤ e.m_downstreamTransmissionsRemaining) :
    ∃ s' d' frames gen, run K s calls = some s' ∧ s'.m_endDevices key = some d' ∧
      s'.transmitted = s.transmitted ++ frames ∧
      frames.length = countSends calls ∧
      (∀ f ∈ frames, f.2.payload = e.m_downstreamPacket) ∧
      d'.m_nDSRetransmission = d.m_nDSRetransmission + (countSends calls - 1) ∧
      (countSends calls < e.m_downstreamTransmissionsRemaining →
        ∃ e', d'.m_downstreamQueue = e' :: (rest ++ gen) ∧
          e'.m_downstreamPacket = e.m_downstreamPacket ∧
          e'.m_downstreamMsgType = LORAWAN_CONFIRMED_DATA_DOWN ∧
          e'.m_downstreamFramePort = e.m_downstreamFramePort ∧
          e'.m_downstreamTransmissionsRemaining =
            e.m_downstreamTransmissionsRemaining - countSends calls) ∧
      (countSends calls = e.m_downstreamTransmissionsRemaining →
        d'.m_downstreamQueue = rest ++ gen) := by
  obtain ⟨s', d', frames, gen, hrun, hd', ht', hlen, hpay, hq', hr'⟩ :=
    run_retries K key calls s d e rest hd hq hc hn hcalls hk
  rw [hnew] at hr'
  refine ⟨s', d', frames, gen, hrun, hd', ht', hlen, hpay, by simpa using hr', ?_, ?_⟩
  · intro hlt
    rw [if_neg (Nat.ne_of_lt hlt)] at hq'
    exact ⟨_, hq', rfl, hc, rfl, rfl⟩
  · intro heq
    rw [if_pos heq] at hq'
    exact hq'

/-- Worked instance of C7 (Scenario C): the head of device 1's queue is a never-sent
confirmed element with 3 transmissions remaining; three sends, with a non-acknowledging
uplink and a generator tick in between, transmit it three times and then drop it. -/
theorem C7_retry_exhaustion_witness :
    ∃ s' d' frames gen,
      run sampleConstants (sampleServerWithQueue [sampleConfirmed 3, sampleUnconfirmed])
        sampleRetryCalls = some s' ∧
      s'.m_endDevices 1 = some d' ∧
      s'.transmitted =
        (sampleServerWithQueue [sampleConfirmed 3, sampleUnconfirmed]).transmitted ++ frames ∧
      frames.length = countSends sampleRetryCalls ∧
      (∀ f ∈ frames, f.2.payload = (sampleConfirmed 3).m_downstreamPacket) ∧
      d'.m_nDSRetransmission = sampleDevice.m_nDSRetransmission + (countSends sampleRetryCalls - 1) ∧
      (countSends sampleRetryCalls < (sampleConfirmed 3).m_downstreamTransmissionsRemaining →
        ∃ e', d'.m_downstreamQueue = e' :: ([sampleUnconfirmed] ++ gen) ∧
          e'.m_downstreamPacket = (sampleConfirmed 3).m_downstreamPacket ∧
          e'.m_downstreamMsgType = LORAWAN_CONFIRMED_DATA_DOWN ∧
          e'.m_downstreamFramePort = (sampleConfirmed 3).m_downstreamFramePort ∧
          e'.m_downstreamTransmissionsRemaining =
            (sampleConfirmed 3).m_downstreamTransmissionsRemaining - countSends sampleRetryCalls) ∧
      (countSends sampleRetryCalls = (sampleConfirmed 3).m_downstreamTransmissionsRemaining →
        d'.m_downstreamQueue = [sampleUnconfirmed] ++ gen) :=
  C7_retry_exhaustion sampleConstants 1 sampleRetryCalls
    (sampleServerWithQueue [sampleConfirmed 3, sampleUnconfirmed])
    { sampleDevice with m_downstreamQueue := [sampleConfirmed 3, sampleUnconfirmed] }
    (sampleConfirmed 3) [sampleUnconfirmed] rfl rfl rfl rfl (by decide)
    (by decide) (by decide)

/-! ## Acknowledgments -/

/-- C8 (acknowledged delivery): for a known device whose queue head is a confirmed
downlink (whatever its remaining count) and an uplink with the ack bit set that is
not dropped as a duplicate, `HandleUSPacket` adds one to `m_nUSAcks` and the queue
afterwards is the former queue without its head. -/
theorem C8_acknowledged_delivery (K : LoRaWANConstants) (s : LoRaWANNetworkServer)
    (now : Int) (lastGW : Nat) (packet : USPacket) (t : Int) (d : LoRaWANEndDeviceInfoNS)
    (e : LoRaWANNSDSQueueElement) (rest : List LoRaWANNSDSQueueElement)
    (hd : s.m_endDevices packet.frmHdr.devAddr = some d)
    (hq : d.m_downstreamQueue = e :: rest)
    (hc : e.m_downstreamMsgType = LORAWAN_CONFIRMED_DATA_DOWN)
    (hack : packet.frmHdr.ack = true)
    (hnd : ¬ (0 < packet.frmHdr.frameCounter ∧ packet.frmHdr.frameCounter ≤ d.m_fCntUp ∧
              now - d.m_lastSeen ≤ Seconds 1)) :
    ∃ d', (HandleUSPacket K s now lastGW packet t).m_endDevices packet.frmHdr.devAddr = some d' ∧
      d'.m_nUSAcks = d.m_nUSAcks + 1 ∧
      d'.m_downstreamQueue = rest := by
  by_cases h1 : packet.frmHdr.frameCounter ≤ d.m_fCntUp ∧ packet.frmHdr.frameCounter ≠ 0
  · have h2 : ¬ (now - d.m_lastSeen ≤ Seconds 1) :=
      fun h => hnd ⟨Nat.pos_of_ne_zero h1.2, h1.1, h⟩
    rcases hphy : packet.phyParamsTag with _ | tag <;>
    simp [HandleUSPacket, hd, h1, h2, hphy, hack, hq, hc, setDevice]
  · rcases hphy : packet.phyParamsTag with _ | tag <;>
    simp [HandleUSPacket, hd, h1, hphy, hack, hq, hc, setDevice]

/-- Worked instance of C8: device 1 holds a confirmed element (2 transmissions left)
followed by an unconfirmed one; an uplink with a new counter 6 and the ack bit set
removes exactly the head. -/
theorem C8_acknowledged_delivery_witness :
    ∃ d', (HandleUSPacket sampleConstants
        (sampleServerWithQueue [sampleConfirmed 2, sampleUnconfirmed]) 5000000000 4
        (sampleUplink 6 true LORAWAN_UNCONFIRMED_DATA_UP) 0).m_endDevices 1 = some d' ∧
      d'.m_nUSAcks = sampleDevice.m_nUSAcks + 1 ∧
      d'.m_downstreamQueue = [sampleUnconfirmed] :=
  C8_acknowledged_delivery sampleConstants
    (sampleServerWithQueue [sampleConfirmed 2, sampleUnconfirmed]) 5000000000 4
    (sampleUplink 6 true LORAWAN_UNCONFIRMED_DATA_UP) 0
    { sampleDevice with m_downstreamQueue := [sampleConfirmed 2, sampleUnconfirmed] }
    (sampleConfirmed 2) [sampleUnconfirmed] rfl rfl rfl rfl (by decide)

/-- C9, the code at the failing input: on the freshly initialised server with the
generator on and confirmed downlinks configured, the first generator tick queues a
confirmed element for device 1 (3 transmissions remaining, never sent); the next
uplink of device 1 has the ack bit set and is not a duplicate.  After it the queue is
empty although no frame was ever handed to a gateway: the element was removed
without having been transmitted. -/
theorem C9_unsent_confirmed_head_removed_by_ack :
    ((DSTimerExpired sampleConstants (freshServer true true) 10000000000 1
        10000000000).m_endDevices 1).map (fun d => d.m_downstreamQueue) =
      some [{ m_downstreamPacket := List.replicate 21 0,
              m_downstreamMsgType := LORAWAN_CONFIRMED_DATA_DOWN,
              m_downstreamFramePort := 1,
              m_downstreamTransmissionsRemaining := 3,
              m_isRetransmission := false }] ∧
    ((HandleUSPacket sampleConstants
        (DSTimerExpired sampleConstants (freshServer true true) 10000000000 1 10000000000)
        12000000000 2 (sampleUplink 1 true LORAWAN_UNCONFIRMED_DATA_UP) 0).m_endDevices 1).map
        (fun d => d.m_downstreamQueue) = some [] ∧
    (HandleUSPacket sampleConstants
        (DSTimerExpired sampleConstants (freshServer true true) 10000000000 1 10000000000)
        12000000000 2 (sampleUplink 1 true LORAWAN_UNCONFIRMED_DATA_UP) 0).transmitted = [] := by
  decide

/-! ## Receive windows -/

/-- C10 (Scenario A): a known device has exactly one queued element, not a confirmed
downlink, and no acknowledgment pending.  An uplink arrives that is not a duplicate,
is not a confirmed uplink and has the ack bit clear; `d1` is the record after
`HandleUSPacket`.  If at the following RW1 expiry gateway `G1` is in the heard set
and is its only entry able to send on the last uplink channel, then
`RW1TimerExpired` returns, exactly one frame has been handed to a gateway since
before the uplink, it went to `G1` and carries the queued payload, the queue is
empty, `m_fCntDown` is one larger, and nothing was scheduled besides the RW1 timer of
the uplink: no RW2 timer, and `m_rw2Timer` is untouched. -/
theorem C10_scenario_A (K : LoRaWANConstants) (can : CanSend) (s : LoRaWANNetworkServer)
    (now : Int) (lastGW : Nat) (packet : USPacket) (t : Int) (now1 : Int) (G1 : Nat)
    (d d1 : LoRaWANEndDeviceInfoNS) (e : LoRaWANNSDSQueueElement)
    (hd : s.m_endDevices packet.frmHdr.devAddr = some d)
    (hq : d.m_downstreamQueue = [e])
    (he : e.m_downstreamMsgType ≠ LORAWAN_CONFIRMED_DATA_DOWN)
    (ha : d.m_setAck = false)
    (hnd : ¬ (0 < packet.frmHdr.frameCounter ∧ packet.frmHdr.frameCounter ≤ d.m_fCntUp ∧
              now - d.m_lastSeen ≤ Seconds 1))
    (hty : packet.msgTypeTag ≠ some LORAWAN_CONFIRMED_DATA_UP)
    (hack : packet.frmHdr.ack = false)
    (hd1 : (HandleUSPacket K s now lastGW packet t).m_endDevices packet.frmHdr.devAddr = some d1)
    (hG1 : G1 ∈ d1.m_lastGWs)
    (hcan : ∀ log, ∀ g ∈ d1.m_lastGWs, (can log g d1.m_lastChannelIndex = true ↔ g = G1)) :
    ∃ s2 d2 f,
      RW1TimerExpired K can (HandleUSPacket K s now lastGW packet t) now1
        packet.frmHdr.devAddr = some s2 ∧
      s2.transmitted = s.transmitted ++ [(G1, f)] ∧
      f.payload = e.m_downstreamPacket ∧
      s2.m_endDevices packet.frmHdr.devAddr = some d2 ∧
      d2.m_downstreamQueue = [] ∧
      d2.m_fCntDown = d.m_fCntDown + 1 ∧
      d2.m_rw2Timer = d.m_rw2Timer ∧
      s2.scheduled = s.scheduled ++
        [⟨now + MicroSeconds K.RECEIVE_DELAY1, TimerHandler.RW1TimerExpired,
          packet.frmHdr.devAddr⟩] := by
  have hclosed := HandleUSPacket_not_duplicate K s now lastGW packet t d hd hnd
  have hq1 : d1.m_downstreamQueue = [e] := by
    rw [hclosed] at hd1
    simp [setDevice] at hd1
    rw [← hd1]
    simp [hack, hq]
  have ha1 : d1.m_setAck = false := by
    rw [hclosed] at hd1
    simp [setDevice] at hd1
    rw [← hd1]
    rcases hm : packet.msgTypeTag with _ | ty
    · simp [ha]
    · have : ty ≠ LORAWAN_CONFIRMED_DATA_UP := fun h => hty (by rw [hm, h])
      simp [ha, this]
  have hc1 : d1.m_fCntDown = d.m_fCntDown := by
    rw [hclosed] at hd1
    simp [setDevice] at hd1
    rw [← hd1]
  have hr1 : d1.m_rw2Timer = d.m_rw2Timer := by
    rw [hclosed] at hd1
    simp [setDevice] at hd1
    rw [← hd1]
  have ht1 : (HandleUSPacket K s now lastGW packet t).transmitted = s.transmitted := by
    rw [hclosed]
    rfl
  have hs1 : (HandleUSPacket K s now lastGW packet t).scheduled = s.scheduled ++
      [⟨now + MicroSeconds K.RECEIVE_DELAY1, TimerHandler.RW1TimerExpired,
        packet.frmHdr.devAddr⟩] := by
    rw [hclosed]
  obtain ⟨s2, d2, f, hloop, ht2, hp2, hs2, hd2, hq2, hc2, _, hr2⟩ :=
    windowLoop_single_element K can packet.frmHdr.devAddr d1.m_lastChannelIndex true false G1 e
      he (Or.inl rfl) d1.m_lastGWs (HandleUSPacket K s now lastGW packet t) d1 false hd1 hq1 ha1
      hG1 hcan
  refine ⟨s2, d2, f, ?_, by rw [ht2, ht1], hp2, hd2, hq2, by rw [hc2, hc1], by rw [hr2, hr1],
    by rw [hs2, hs1]⟩
  simp [RW1TimerExpired, hd1, hloop]

/-- Worked instance of C10: device 1 holds one unconfirmed element; its uplink with
counter 6 arrives at 5 s through gateway 4, which is the only gateway able to send
when RW1 expires at 6 s. -/
theorem C10_scenario_A_witness :
    ∃ s2 d2 f,
      RW1TimerExpired sampleConstants (onlyGateway 4)
        (HandleUSPacket sampleConstants (sampleServerWithQueue [sampleUnconfirmed]) 5000000000 4
          (sampleUplink 6 false LORAWAN_UNCONFIRMED_DATA_UP) 0) 6000000000 1 = some s2 ∧
      s2.transmitted = (sampleServerWithQueue [sampleUnconfirmed]).transmitted ++ [(4, f)] ∧
      f.payload = sampleUnconfirmed.m_downstreamPacket ∧
      s2.m_endDevices 1 = some d2 ∧
      d2.m_downstreamQueue = [] ∧
      d2.m_fCntDown = sampleDevice.m_fCntDown + 1 ∧
      d2.m_rw2Timer = sampleDevice.m_rw2Timer ∧
      s2.scheduled = (sampleServerWithQueue [sampleUnconfirmed]).scheduled ++
        [⟨5000000000 + MicroSeconds sampleConstants.RECEIVE_DELAY1,
          TimerHandler.RW1TimerExpired, 1⟩] :=
  C10_scenario_A sampleConstants (onlyGateway 4) (sampleServerWithQueue [sampleUnconfirmed])
    5000000000 4 (sampleUplink 6 false LORAWAN_UNCONFIRMED_DATA_UP) 0 6000000000 4
    { sampleDevice with m_downstreamQueue := [sampleUnconfirmed] }
    { sampleDevice with
      m_downstreamQueue := [sampleUnconfirmed], m_nUSPackets := 1, m_nUniqueUSPackets := 1,
      m_lastGWs := [4], m_fCntUp := 6, m_lastSeen := 5000000000, m_lastChannelIndex := 3,
      m_lastDataRateIndex := 5, m_lastCodeRate := 1, m_rw1Timer := some 6000000000 }
    sampleUnconfirmed rfl rfl (by decide) rfl (by decide) (by decide) rfl (by decide)
    (by decide) (by intro log g hg; simp [onlyGateway])

/-! ## Claims C11 to C20 -/

/-- C15 (composer no-op): for a known device whose queue is empty and whose
`m_setAck` is false, `SendDSPacket` returns the server it was given: no frame is
handed to a gateway and the device record, with `m_fCntDown`, every counter and
`m_lastDSGW`, is unchanged, whatever the gateway and the window flags. -/
theorem C15_composer_noop (K : LoRaWANConstants) (s : LoRaWANNetworkServer)
    (deviceAddr gatewayPtr : Nat) (RW1 RW2 : Bool) (d : LoRaWANEndDeviceInfoNS)
    (hd : s.m_endDevices deviceAddr = some d)
    (hq : d.m_downstreamQueue = [])
    (ha : d.m_setAck = false) :
    SendDSPacket K s deviceAddr gatewayPtr RW1 RW2 = some s := by
  simp [SendDSPacket, hd, hq, ha]

/-- Worked instance of C15: device 1 of the sample server has nothing queued and no
acknowledgment pending. -/
theorem C15_composer_noop_witness :
    SendDSPacket sampleConstants sampleServer 1 2 true false = some sampleServer :=
  C15_composer_noop sampleConstants sampleServer 1 2 true false sampleDevice rfl rfl rfl

/-- C17 as stated fails: the queue of device 1 holds a manually enqueued element with
an empty payload and port 5; the frame `SendDSPacket` builds from it has an empty
payload and carries the port. -/
theorem C17_port_with_empty_payload_counterexample :
    (SendDSPacket sampleConstants (sampleServerWithQueue [sampleEmptyPayloadWithPort])
        1 2 true false).map
      (fun s => s.transmitted.map (fun x => (x.1, x.2.payload, x.2.fhdr.framePort))) =
      some [(2, [], some 5)] := by
  decide

/-- C17 (amended): for a known device and a transmitting call of `SendDSPacket`
(queue not empty or acknowledgment pending, `RW1` or `RW2` set), exactly one frame is
handed over.  If it is built from the queue head `e`, it carries the payload of `e`
and its header includes the port exactly when `m_downstreamFramePort` of `e` is
greater than 0, whatever the payload.  If the queue is empty, the frame has an empty
payload, message type unconfirmed data down and no port. -/
theorem C17_port_follows_element_port (K : LoRaWANConstants) (s : LoRaWANNetworkServer)
    (deviceAddr gatewayPtr : Nat) (RW1 RW2 : Bool) (d : LoRaWANEndDeviceInfoNS)
    (hd : s.m_endDevices deviceAddr = some d)
    (htx : d.m_downstreamQueue ≠ [] ∨ d.m_setAck = true)
    (hrw : RW1 = true ∨ RW2 = true) :
    ∃ s' f, SendDSPacket K s deviceAddr gatewayPtr RW1 RW2 = some s' ∧
      s'.transmitted = s.transmitted ++ [(gatewayPtr, f)] ∧
      (∀ e rest, d.m_downstreamQueue = e :: rest →
        f.payload = e.m_downstreamPacket ∧
        f.fhdr.framePort =
          (if e.m_downstreamFramePort > 0 then some e.m_downstreamFramePort else none)) ∧
      (d.m_downstreamQueue = [] →
        f.payload = [] ∧ f.msgTypeTag = LORAWAN_UNCONFIRMED_DATA_DOWN ∧
        f.fhdr.framePort = none) := by
  refine ⟨_, _, SendDSPacket_transmitting K s deviceAddr gatewayPtr RW1 RW2 d hd htx hrw, rfl,
    ?_, ?_⟩
  · intro e rest hq
    simp [composedPacket, elementToSend, hq]
  · intro hq
    simp [composedPacket, elementToSend, hq]

/-- Worked instance of amended C17: the ack-only frame for device 1 (empty queue,
acknowledgment pending) sent in RW2. -/
theorem C17_port_follows_element_port_witness :
    ∃ s' f, SendDSPacket sampleConstants
        (setDevice sampleServer 1 { sampleDevice with m_setAck := true }) 1 2 false true
        = some s' ∧
      s'.transmitted =
        (setDevice sampleServer 1 { sampleDevice with m_setAck := true }).transmitted ++
          [(2, f)] ∧
      (∀ e rest, ({ sampleDevice with m_setAck := true } :
          LoRaWANEndDeviceInfoNS).m_downstreamQueue = e :: rest →
        f.payload = e.m_downstreamPacket ∧
        f.fhdr.framePort =
          (if e.m_downstreamFramePort > 0 then some e.m_downstreamFramePort else none)) ∧
      (({ sampleDevice with m_setAck := true } : LoRaWANEndDeviceInfoNS).m_downstreamQueue = [] →
        f.payload = [] ∧ f.msgTypeTag = LORAWAN_UNCONFIRMED_DATA_DOWN ∧
        f.fhdr.framePort = none) :=
  C17_port_follows_element_port sampleConstants
    (setDevice sampleServer 1 { sampleDevice with m_setAck := true }) 1 2 false true
    { sampleDevice with m_setAck := true } rfl (Or.inr rfl) (Or.inr rfl)

/-- C19 (retransmission): for a known device with stored counter `S` and last-seen
time `L`, an uplink with frame counter `F`, `0 < F ≤ S`, arriving with
`now - L > 1 s`, makes `HandleUSPacket` add one to `m_nUSRetransmission`, leave
`m_nUniqueUSPackets`, `m_nUSDuplicates` and `m_fCntUp` as they were, and continue:
`m_lastSeen` becomes `now`; `m_setAck` is set if the uplink is confirmed data up and
is otherwise unchanged; the ack bit is processed (with the bit set `m_nUSAcks` grows
by one and a confirmed queue head is removed, with the bit clear both stay); and the
RW1 timer is scheduled at `now + RECEIVE_DELAY1`. -/
theorem C19_retransmission (K : LoRaWANConstants) (s : LoRaWANNetworkServer) (now : Int)
    (lastGW : Nat) (packet : USPacket) (t : Int) (d : LoRaWANEndDeviceInfoNS)
    (hd : s.m_endDevices packet.frmHdr.devAddr = some d)
    (hF : 0 < packet.frmHdr.frameCounter)
    (hS : packet.frmHdr.frameCounter ≤ d.m_fCntUp)
    (hL : now - d.m_lastSeen > Seconds 1) :
    ∃ d', (HandleUSPacket K s now lastGW packet t).m_endDevices packet.frmHdr.devAddr = some d' ∧
      d'.m_nUSRetransmission = d.m_nUSRetransmission + 1 ∧
      d'.m_nUniqueUSPackets = d.m_nUniqueUSPackets ∧
      d'.m_nUSDuplicates = d.m_nUSDuplicates ∧
      d'.m_fCntUp = d.m_fCntUp ∧
      d'.m_lastSeen = now ∧
      d'.m_setAck =
        (if packet.msgTypeTag = some LORAWAN_CONFIRMED_DATA_UP then true else d.m_setAck) ∧
      d'.m_nUSAcks = (if packet.frmHdr.ack then d.m_nUSAcks + 1 else d.m_nUSAcks) ∧
      d'.m_downstreamQueue =
        (if packet.frmHdr.ack then
          match d.m_downstreamQueue with
          | front :: rest =>
              if front.m_downstreamMsgType = LORAWAN_CONFIRMED_DATA_DOWN then rest
              else front :: rest
          | [] => []
         else d.m_downstreamQueue) ∧
      d'.m_rw1Timer = some (now + MicroSeconds K.RECEIVE_DELAY1) ∧
      (HandleUSPacket K s now lastGW packet t).scheduled =
        s.scheduled ++ [⟨now + MicroSeconds K.RECEIVE_DELAY1, TimerHandler.RW1TimerExpired,
                         packet.frmHdr.devAddr⟩] := by
  have hnd : ¬ (0 < packet.frmHdr.frameCounter ∧ packet.frmHdr.frameCounter ≤ d.m_fCntUp ∧
      now - d.m_lastSeen ≤ Seconds 1) := fun h => absurd h.2.2 (not_le.mpr hL)
  have hold : packet.frmHdr.frameCounter ≤ d.m_fCntUp ∧ packet.frmHdr.frameCounter ≠ 0 :=
    ⟨hS, Nat.pos_iff_ne_zero.mp hF⟩
  rw [HandleUSPacket_not_duplicate K s now lastGW packet t d hd hnd]
  refine ⟨_, if_pos rfl, ?_, ?_, rfl, ?_, rfl, ?_, rfl, rfl, rfl, rfl⟩
  · simp [hold]
  · simp [hold]
  · simp [hold]
  · rcases hm : packet.msgTypeTag with _ | ty
    · simp
    · by_cases hty : ty = LORAWAN_CONFIRMED_DATA_UP <;> simp [hty]

/-- Worked instance of C19: device 1 (stored counter 5, last seen at 0) retransmits
counter 3 as confirmed data up after 2 s. -/
theorem C19_retransmission_witness :
    ∃ d', (HandleUSPacket sampleConstants sampleServer 2000000000 4
        (sampleUplink 3 false LORAWAN_CONFIRMED_DATA_UP) 0).m_endDevices 1 = some d' ∧
      d'.m_nUSRetransmission = sampleDevice.m_nUSRetransmission + 1 ∧
      d'.m_nUniqueUSPackets = sampleDevice.m_nUniqueUSPackets ∧
      d'.m_nUSDuplicates = sampleDevice.m_nUSDuplicates ∧
      d'.m_fCntUp = sampleDevice.m_fCntUp ∧
      d'.m_lastSeen = 2000000000 ∧
      d'.m_setAck =
        (if (sampleUplink 3 false LORAWAN_CONFIRMED_DATA_UP).msgTypeTag =
            some LORAWAN_CONFIRMED_DATA_UP then true else sampleDevice.m_setAck) ∧
      d'.m_nUSAcks =
        (if (sampleUplink 3 false LORAWAN_CONFIRMED_DATA_UP).frmHdr.ack
         then sampleDevice.m_nUSAcks + 1 else sampleDevice.m_nUSAcks) ∧
      d'.m_downstreamQueue =
        (if (sampleUplink 3 false LORAWAN_CONFIRMED_DATA_UP).frmHdr.ack then
          match sampleDevice.m_downstreamQueue with
          | front :: rest =>
              if front.m_downstreamMsgType = LORAWAN_CONFIRMED_DATA_DOWN then rest
              else front :: rest
          | [] => []
         else sampleDevice.m_downstreamQueue) ∧
      d'.m_rw1Timer = some (2000000000 + MicroSeconds sampleConstants.RECEIVE_DELAY1) ∧
      (HandleUSPacket sampleConstants sampleServer 2000000000 4
        (sampleUplink 3 false LORAWAN_CONFIRMED_DATA_UP) 0).scheduled =
        sampleServer.scheduled ++
          [⟨2000000000 + MicroSeconds sampleConstants.RECEIVE_DELAY1,
            TimerHandler.RW1TimerExpired, 1⟩] :=
  C19_retransmission sampleConstants sampleServer 2000000000 4
    (sampleUplink 3 false LORAWAN_CONFIRMED_DATA_UP) 0 sampleDevice rfl (by decide) (by decide)
    (by decide)

/-- C20 (benign ack inconsistency): for a known device with an empty downstream
queue and an uplink with the ack bit set that is not dropped as a duplicate,
`HandleUSPacket` returns, and the server it returns is the one obtained from the same
uplink with the ack bit cleared, except that `m_nUSAcks` of the device is one larger;
in particular the scheduled RW1 timer is the same and the queue is still empty. -/
theorem C20_ack_with_empty_queue (K : LoRaWANConstants) (s : LoRaWANNetworkServer)
    (now : Int) (lastGW : Nat) (packet : USPacket) (t : Int) (d : LoRaWANEndDeviceInfoNS)
    (hd : s.m_endDevices packet.frmHdr.devAddr = some d)
    (hq : d.m_downstreamQueue = [])
    (hack : packet.frmHdr.ack = true)
    (hnd : ¬ (0 < packet.frmHdr.frameCounter ∧ packet.frmHdr.frameCounter ≤ d.m_fCntUp ∧
              now - d.m_lastSeen ≤ Seconds 1)) :
    ∃ d0, (HandleUSPacket K s now lastGW
              { packet with frmHdr := { packet.frmHdr with ack := false } } t).m_endDevices
            packet.frmHdr.devAddr = some d0 ∧
      d0.m_downstreamQueue = [] ∧
      HandleUSPacket K s now lastGW packet t =
        setDevice
          (HandleUSPacket K s now lastGW
            { packet with frmHdr := { packet.frmHdr with ack := false } } t)
          packet.frmHdr.devAddr { d0 with m_nUSAcks := d0.m_nUSAcks + 1 } := by
  rw [HandleUSPacket_not_duplicate K s now lastGW packet t d hd hnd,
    HandleUSPacket_not_duplicate K s now lastGW
      { packet with frmHdr := { packet.frmHdr with ack := false } } t d hd hnd]
  refine ⟨_, if_pos rfl, by simp [hq], ?_⟩
  simp only [setDevice, hack, hq, if_true]
  congr 1
  funext k
  by_cases hk : k = packet.frmHdr.devAddr <;> simp [hk]

/-- Worked instance of C20: device 1 has an empty queue; its uplink with the new
counter 6 has the ack bit set. -/
theorem C20_ack_with_empty_queue_witness :
    ∃ d0, (HandleUSPacket sampleConstants sampleServer 5000000000 4
              { sampleUplink 6 true LORAWAN_UNCONFIRMED_DATA_UP with
                frmHdr := { (sampleUplink 6 true LORAWAN_UNCONFIRMED_DATA_UP).frmHdr with
                            ack := false } } 0).m_endDevices
            (sampleUplink 6 true LORAWAN_UNCONFIRMED_DATA_UP).frmHdr.devAddr = some d0 ∧
      d0.m_downstreamQueue = [] ∧
      HandleUSPacket sampleConstants sampleServer 5000000000 4
          (sampleUplink 6 true LORAWAN_UNCONFIRMED_DATA_UP) 0 =
        setDevice
          (HandleUSPacket sampleConstants sampleServer 5000000000 4
            { sampleUplink 6 true LORAWAN_UNCONFIRMED_DATA_UP with
              frmHdr := { (sampleUplink 6 true LORAWAN_UNCONFIRMED_DATA_UP).frmHdr with
                          ack := false } } 0)
          (sampleUplink 6 true LORAWAN_UNCONFIRMED_DATA_UP).frmHdr.devAddr
          { d0 with m_nUSAcks := d0.m_nUSAcks + 1 } :=
  C20_ack_with_empty_queue sampleConstants sampleServer 5000000000 4
    (sampleUplink 6 true LORAWAN_UNCONFIRMED_DATA_UP) 0 sampleDevice rfl rfl rfl (by decide)

/-- C16 (frame composition): let a run of calls lead from a server in which device
`key` is known (record `d0`) to a server in which its record is `d1`, and let
`SendDSPacket` be called there for `key` with something to send (queue not empty or
acknowledgment pending, `RW1` or `RW2` set).  Then one frame is handed over; its
device address is `key`, its ack bit is `m_setAck` of `d1`, its frame-pending bit is
`m_framePending` of `d1`, its frame counter is `m_fCntDown` of `d1`, and `m_fCntDown`
is one larger after the call.  Moreover the frames transmitted to `key` since the
start of the run, this one included, carry the consecutive counters
`m_fCntDown d0, m_fCntDown d0 + 1, ...` in the order of transmission. -/
theorem C16_frame_composition (K : LoRaWANConstants) (key : Nat)
    (s s1 : LoRaWANNetworkServer) (d0 d1 : LoRaWANEndDeviceInfoNS) (calls : List Call)
    (gatewayPtr : Nat) (RW1 RW2 : Bool)
    (hd0 : s.m_endDevices key = some d0)
    (hrun : run K s calls = some s1)
    (hd1 : s1.m_endDevices key = some d1)
    (htx : d1.m_downstreamQueue ≠ [] ∨ d1.m_setAck = true)
    (hrw : RW1 = true ∨ RW2 = true) :
    ∃ s2 d2 f new, SendDSPacket K s1 key gatewayPtr RW1 RW2 = some s2 ∧
      s2.transmitted = s1.transmitted ++ [(gatewayPtr, f)] ∧
      f.fhdr.devAddr = key ∧
      f.fhdr.ack = d1.m_setAck ∧
      f.fhdr.framePending = d1.m_framePending ∧
      f.fhdr.frameCounter = d1.m_fCntDown ∧
      s2.m_endDevices key = some d2 ∧
      d2.m_fCntDown = d1.m_fCntDown + 1 ∧
      s1.transmitted = s.transmitted ++ new ∧
      (downlinksOf key (new ++ [(gatewayPtr, f)])).map (fun f => f.fhdr.frameCounter) =
        List.range' d0.m_fCntDown ((downlinksOf key new).length + 1) := by
  obtain ⟨new, d1', htr, hl, hcnt, hfc⟩ := run_frame_counters K key s d0 hd0 calls s1 hrun
  have hdd : d1' = d1 := Option.some.inj (hl.symm.trans hd1)
  subst hdd
  refine ⟨_, recordAfterSend K d1' gatewayPtr RW1, composedPacket K d1' key RW1, new,
    SendDSPacket_transmitting K s1 key gatewayPtr RW1 RW2 d1' hd1 htx hrw, rfl, rfl, rfl, rfl,
    rfl, by rw [serverAfterSend_at, if_pos rfl], rfl, htr, ?_⟩
  rw [downlinksOf_append_same key gatewayPtr _ new rfl, List.map_append, hcnt,
    List.range'_concat]
  simp [composedPacket, hfc]

/-- Worked instance of C16: device 1 holds two unconfirmed elements; the run is one
RW1 send through gateway 2, and the next send goes through gateway 3 in RW2. -/
theorem C16_frame_composition_witness :
    ∃ s2 d2 f new, SendDSPacket sampleConstants
        ((run sampleConstants (sampleServerWithQueue [sampleUnconfirmed, sampleUnconfirmed])
          [Call.SendDSPacket 1 2 true false]).getD sampleServer) 1 3 false true = some s2 ∧
      s2.transmitted =
        ((run sampleConstants (sampleServerWithQueue [sampleUnconfirmed, sampleUnconfirmed])
          [Call.SendDSPacket 1 2 true false]).getD sampleServer).transmitted ++ [(3, f)] ∧
      f.fhdr.devAddr = 1 ∧
      f.fhdr.ack = (recordAfterSend sampleConstants
        { sampleDevice with m_downstreamQueue := [sampleUnconfirmed, sampleUnconfirmed] }
        2 true).m_setAck ∧
      f.fhdr.framePending = (recordAfterSend sampleConstants
        { sampleDevice with m_downstreamQueue := [sampleUnconfirmed, sampleUnconfirmed] }
        2 true).m_framePending ∧
      f.fhdr.frameCounter = (recordAfterSend sampleConstants
        { sampleDevice with m_downstreamQueue := [sampleUnconfirmed, sampleUnconfirmed] }
        2 true).m_fCntDown ∧
      s2.m_endDevices 1 = some d2 ∧
      d2.m_fCntDown = (recordAfterSend sampleConstants
        { sampleDevice with m_downstreamQueue := [sampleUnconfirmed, sampleUnconfirmed] }
        2 true).m_fCntDown + 1 ∧
      ((run sampleConstants (sampleServerWithQueue [sampleUnconfirmed, sampleUnconfirmed])
          [Call.SendDSPacket 1 2 true false]).getD sampleServer).transmitted =
        (sampleServerWithQueue [sampleUnconfirmed, sampleUnconfirmed]).transmitted ++ new ∧
      (downlinksOf 1 (new ++ [(3, f)])).map (fun f => f.fhdr.frameCounter) =
        List.range' sampleDevice.m_fCntDown ((downlinksOf 1 new).length + 1) :=
  C16_frame_composition sampleConstants 1
    (sampleServerWithQueue [sampleUnconfirmed, sampleUnconfirmed])
    ((run sampleConstants (sampleServerWithQueue [sampleUnconfirmed, sampleUnconfirmed])
      [Call.SendDSPacket 1 2 true false]).getD sampleServer)
    { sampleDevice with m_downstreamQueue := [sampleUnconfirmed, sampleUnconfirmed] }
    (recordAfterSend sampleConstants
      { sampleDevice with m_downstreamQueue := [sampleUnconfirmed, sampleUnconfirmed] } 2 true)
    [Call.SendDSPacket 1 2 true false] 3 false true rfl rfl rfl (Or.inl (by decide))
    (Or.inr rfl)

/-- C12 (first-window expiry): for a known device, let `cap` be the capable gateways
of the heard set on the last uplink channel, that is, the entries of `m_lastGWs`
that answer the capability query with true when the loop reaches them.  Then `cap`
is a sublist of `m_lastGWs` (heard-set order), and it is the list of all entries
with a positive answer when the answers do not depend on the frames sent in between.
If `cap` is not empty, `RW1TimerExpired` is the run of one `SendDSPacket` call on
the window-1 path for each entry of `cap`, in order; it returns and schedules
nothing.  If `cap` is empty, it sends nothing and schedules the RW2 timer with delay
`(m_lastSeen + RECEIVE_DELAY2) - now` (the server becomes `serverAfterRW2Schedule`
for the time `now` plus that delay), provided that delay is positive; with a
non-positive delay the assertion on the delay stops the program. -/
theorem C12_first_window_expiry (K : LoRaWANConstants) (can : CanSend)
    (s : LoRaWANNetworkServer) (now : Int) (deviceAddr : Nat) (d : LoRaWANEndDeviceInfoNS)
    (hd : s.m_endDevices deviceAddr = some d) :
    (capableGateways K can deviceAddr d.m_lastChannelIndex true false d.m_lastGWs s).Sublist
      d.m_lastGWs ∧
    ((∀ log gw, can log gw d.m_lastChannelIndex = can [] gw d.m_lastChannelIndex) →
      capableGateways K can deviceAddr d.m_lastChannelIndex true false d.m_lastGWs s =
        d.m_lastGWs.filter (fun gw => can [] gw d.m_lastChannelIndex)) ∧
    (capableGateways K can deviceAddr d.m_lastChannelIndex true false d.m_lastGWs s ≠ [] →
      RW1TimerExpired K can s now deviceAddr =
        run K s (sendCalls deviceAddr true false
          (capableGateways K can deviceAddr d.m_lastChannelIndex true false d.m_lastGWs s)) ∧
      ∃ s', RW1TimerExpired K can s now deviceAddr = some s' ∧ s'.scheduled = s.scheduled) ∧
    (capableGateways K can deviceAddr d.m_lastChannelIndex true false d.m_lastGWs s = [] →
      ((d.m_lastSeen + MicroSeconds K.RECEIVE_DELAY2) - now > 0 →
        RW1TimerExpired K can s now deviceAddr =
          some (serverAfterRW2Schedule s d deviceAddr
            (now + ((d.m_lastSeen + MicroSeconds K.RECEIVE_DELAY2) - now)))) ∧
      (¬ ((d.m_lastSeen + MicroSeconds K.RECEIVE_DELAY2) - now > 0) →
        RW1TimerExpired K can s now deviceAddr = none)) := by
  have hclosed := RW1TimerExpired_known K can s now deviceAddr d hd
  refine ⟨capableGateways_sublist K can deviceAddr d.m_lastChannelIndex true false d.m_lastGWs s,
    fun hcan => capableGateways_eq_filter K can deviceAddr d.m_lastChannelIndex true false
      (Or.inl rfl) hcan d.m_lastGWs s, ?_, ?_⟩
  · intro hne
    rw [hclosed, if_neg hne]
    obtain ⟨s', hrun, hsch⟩ := run_sendCalls K deviceAddr true false (Or.inl rfl)
      (capableGateways K can deviceAddr d.m_lastChannelIndex true false d.m_lastGWs s) s
    exact ⟨rfl, s', hrun, hsch⟩
  · intro hnil
    rw [hclosed, if_pos hnil]
    refine ⟨fun hpos => ?_, fun hneg => if_neg hneg⟩
    rw [if_pos hpos]
    have : now + (d.m_lastSeen + MicroSeconds ↑K.RECEIVE_DELAY2 - now) =
        d.m_lastSeen + MicroSeconds ↑K.RECEIVE_DELAY2 := by ring
    rw [this]

/-- Worked instance of C12: device 1 heard by gateways 2, 4 and 2 again, with only
gateway 2 able to send; the device record is the one with this heard set and an
acknowledgment pending. -/
theorem C12_first_window_expiry_witness :
    (capableGateways sampleConstants (onlyGateway 2) 1
        ({ sampleDevice with m_lastGWs := [2, 4, 2], m_setAck := true } :
          LoRaWANEndDeviceInfoNS).m_lastChannelIndex true false
        ({ sampleDevice with m_lastGWs := [2, 4, 2], m_setAck := true } :
          LoRaWANEndDeviceInfoNS).m_lastGWs
        (setDevice sampleServer 1
          { sampleDevice with m_lastGWs := [2, 4, 2], m_setAck := true })) = [2, 2] :=
  ((C12_first_window_expiry sampleConstants (onlyGateway 2)
      (setDevice sampleServer 1 { sampleDevice with m_lastGWs := [2, 4, 2], m_setAck := true })
      1000000000 1 { sampleDevice with m_lastGWs := [2, 4, 2], m_setAck := true } rfl).2.1
    (fun _ _ => rfl)).trans (by decide)

/-- C11 (Scenario B): a known device has exactly one queued element `e`, not a
confirmed downlink, and no acknowledgment pending.  At RW1 expiry no entry of the
heard set can send on the last uplink channel, the RW2 time
`m_lastSeen + RECEIVE_DELAY2` being still ahead; at the following RW2 expiry gateway
`G2` is in the heard set and is its only entry able to send on the RW2 channel.
Then `RW1TimerExpired` sends nothing and schedules the RW2 timer, and
`RW2TimerExpired` hands exactly one frame to a gateway: it goes to `G2`, carries
the payload of `e` and is tagged with `m_RW2ChannelIndex` and `m_RW2DataRateIndex`;
`m_nDSPacketsSentRW2` and `m_nDSPacketsSent` are one larger than before,
`m_nDSPacketsSentRW1` is unchanged, and the queue is empty. -/
theorem C11_scenario_B (K : LoRaWANConstants) (can1 can2 : CanSend)
    (s : LoRaWANNetworkServer) (now : Int) (deviceAddr G2 : Nat)
    (d : LoRaWANEndDeviceInfoNS) (e : LoRaWANNSDSQueueElement)
    (hd : s.m_endDevices deviceAddr = some d)
    (hq : d.m_downstreamQueue = [e])
    (he : e.m_downstreamMsgType ≠ LORAWAN_CONFIRMED_DATA_DOWN)
    (ha : d.m_setAck = false)
    (hno : ∀ log, ∀ g ∈ d.m_lastGWs, can1 log g d.m_lastChannelIndex = false)
    (hdelay : (d.m_lastSeen + MicroSeconds K.RECEIVE_DELAY2) - now > 0)
    (hG2 : G2 ∈ d.m_lastGWs)
    (hcan2 : ∀ log, ∀ g ∈ d.m_lastGWs, (can2 log g K.m_RW2ChannelIndex = true ↔ g = G2)) :
    ∃ s1 s2 d2 f,
      RW1TimerExpired K can1 s now deviceAddr = some s1 ∧
      s1.transmitted = s.transmitted ∧
      s1.scheduled = s.scheduled ++
        [⟨d.m_lastSeen + MicroSeconds K.RECEIVE_DELAY2, TimerHandler.RW2TimerExpired,
          deviceAddr⟩] ∧
      RW2TimerExpired K can2 s1 deviceAddr = some s2 ∧
      s2.transmitted = s.transmitted ++ [(G2, f)] ∧
      f.payload = e.m_downstreamPacket ∧
      f.fhdr.ack = false ∧
      f.phyParamsTag.channelIndex = K.m_RW2ChannelIndex ∧
      f.phyParamsTag.dataRateIndex = K.m_RW2DataRateIndex ∧
      s2.m_endDevices deviceAddr = some d2 ∧
      d2.m_nDSPacketsSentRW2 = d.m_nDSPacketsSentRW2 + 1 ∧
      d2.m_nDSPacketsSent = d.m_nDSPacketsSent + 1 ∧
      d2.m_nDSPacketsSentRW1 = d.m_nDSPacketsSentRW1 ∧
      d2.m_downstreamQueue = [] := by
  have hcap := capableGateways_none K can1 deviceAddr d.m_lastChannelIndex true false s
    d.m_lastGWs hno
  have h1 := RW1TimerExpired_known K can1 s now deviceAddr d hd
  rw [if_pos hcap, if_pos hdelay] at h1
  have hd1 : (serverAfterRW2Schedule s d deviceAddr
      (d.m_lastSeen + MicroSeconds K.RECEIVE_DELAY2)).m_endDevices deviceAddr =
      some { d with m_rw2Timer := some (d.m_lastSeen + MicroSeconds K.RECEIVE_DELAY2) } := by
    rw [serverAfterRW2Schedule_at, if_pos rfl]
  have h2 : RW2TimerExpired K can2
      (serverAfterRW2Schedule s d deviceAddr (d.m_lastSeen + MicroSeconds K.RECEIVE_DELAY2))
      deviceAddr = some (serverAfterSend K
        (serverAfterRW2Schedule s d deviceAddr (d.m_lastSeen + MicroSeconds K.RECEIVE_DELAY2))
        { d with m_rw2Timer := some (d.m_lastSeen + MicroSeconds K.RECEIVE_DELAY2) }
        deviceAddr G2 false) := by
    unfold RW2TimerExpired
    simp only [hd1]
    rw [windowLoop_single_element_eq K can2 deviceAddr K.m_RW2ChannelIndex false true G2 e he
      (Or.inr rfl) _ _ hd1 hq d.m_lastGWs false hG2 hcan2]
  refine ⟨_, _, _, _, h1, rfl, rfl, h2, rfl, ?_, ha, rfl, rfl,
    by rw [serverAfterSend_at, if_pos rfl], ?_, rfl, ?_, ?_⟩
  · simp [composedPacket, elementToSend, hq]
  · simp [recordAfterSend]
  · simp [recordAfterSend]
  · simp [recordAfterSend, hq, he]

/-- Worked instance of C11: device 1 (heard by gateway 2, last seen at 0) holds one
unconfirmed element; at RW1 expiry (1 s) no gateway can send, at RW2 expiry gateway 2
can. -/
theorem C11_scenario_B_witness :
    ∃ s1 s2 d2 f,
      RW1TimerExpired sampleConstants (fun _ _ _ => false)
        (sampleServerWithQueue [sampleUnconfirmed]) 1000000000 1 = some s1 ∧
      s1.transmitted = (sampleServerWithQueue [sampleUnconfirmed]).transmitted ∧
      s1.scheduled = (sampleServerWithQueue [sampleUnconfirmed]).scheduled ++
        [⟨sampleDevice.m_lastSeen + MicroSeconds sampleConstants.RECEIVE_DELAY2,
          TimerHandler.RW2TimerExpired, 1⟩] ∧
      RW2TimerExpired sampleConstants (onlyGateway 2) s1 1 = some s2 ∧
      s2.transmitted = (sampleServerWithQueue [sampleUnconfirmed]).transmitted ++ [(2, f)] ∧
      f.payload = sampleUnconfirmed.m_downstreamPacket ∧
      f.fhdr.ack = false ∧
      f.phyParamsTag.channelIndex = sampleConstants.m_RW2ChannelIndex ∧
      f.phyParamsTag.dataRateIndex = sampleConstants.m_RW2DataRateIndex ∧
      s2.m_endDevices 1 = some d2 ∧
      d2.m_nDSPacketsSentRW2 = sampleDevice.m_nDSPacketsSentRW2 + 1 ∧
      d2.m_nDSPacketsSent = sampleDevice.m_nDSPacketsSent + 1 ∧
      d2.m_nDSPacketsSentRW1 = sampleDevice.m_nDSPacketsSentRW1 ∧
      d2.m_downstreamQueue = [] :=
  C11_scenario_B sampleConstants (fun _ _ _ => false) (onlyGateway 2)
    (sampleServerWithQueue [sampleUnconfirmed]) 1000000000 1 2
    { sampleDevice with m_downstreamQueue := [sampleUnconfirmed] } sampleUnconfirmed
    rfl rfl (by decide) rfl (fun _ _ _ => rfl) (by decide) (by decide)
    (by intro log g hg; simp [onlyGateway])

/-- C13 (the window-2 delay assertion never fails): let `RECEIVE_DELAY1` be smaller
than `RECEIVE_DELAY2`, and let the server start at clock `clock0` from a state in
which no record is last seen after `clock0` and no RW1 event is scheduled.  Let the
calls `pre` followed by an RW1 expiry for device `key` at time `now` be dispatched in
timestamp order (so that the expiry is the firing of an RW1 event scheduled by
`HandleUSPacket`), and let `pre` lead to the server `s`.  Then `key` has a record in
`s`, the delay `(m_lastSeen + RECEIVE_DELAY2) - now` computed from it is at least
`RECEIVE_DELAY2 - RECEIVE_DELAY1` and strictly positive, `RW1TimerExpired` returns,
and when no gateway is capable it schedules the RW2 timer with that delay. -/
theorem C13_window2_delay_positive (K : LoRaWANConstants)
    (hK : K.RECEIVE_DELAY1 < K.RECEIVE_DELAY2)
    (s0 : LoRaWANNetworkServer) (clock0 : Int) (hclock : 0 ≤ clock0)
    (hseen : ∀ key d, s0.m_endDevices key = some d → d.m_lastSeen ≤ clock0)
    (hnone : ∀ ev ∈ s0.scheduled, ev.handler ≠ TimerHandler.RW1TimerExpired)
    (pre : List Call) (can : CanSend) (now : Int) (key : Nat)
    (hord : dispatchedInOrder K clock0 s0 (pre ++ [Call.RW1TimerExpired can now key]))
    (s : LoRaWANNetworkServer) (hrun : run K s0 pre = some s) :
    ∃ d, s.m_endDevices key = some d ∧
      MicroSeconds K.RECEIVE_DELAY2 - MicroSeconds K.RECEIVE_DELAY1 ≤
        (d.m_lastSeen + MicroSeconds K.RECEIVE_DELAY2) - now ∧
      0 < (d.m_lastSeen + MicroSeconds K.RECEIVE_DELAY2) - now ∧
      (∃ s', RW1TimerExpired K can s now key = some s') ∧
      (capableGateways K can key d.m_lastChannelIndex true false d.m_lastGWs s = [] →
        RW1TimerExpired K can s now key =
          some (serverAfterRW2Schedule s d key
            (now + ((d.m_lastSeen + MicroSeconds K.RECEIVE_DELAY2) - now)))) := by
  have h0 : timerInvariant K clock0 s0 :=
    ⟨hclock, hseen, fun ev hev hh => absurd hh (hnone ev hev)⟩
  obtain ⟨clock, hInv, hlast⟩ :=
    timerInvariant_run K [Call.RW1TimerExpired can now key] pre clock0 s0 s h0 hord hrun
  have hadm : admissible clock s (Call.RW1TimerExpired can now key) := by
    simp only [dispatchedInOrder] at hlast
    exact hlast.1
  obtain ⟨d, hd, hts⟩ := hInv.2.2 _ hadm.2 rfl
  have hts' : now ≤ d.m_lastSeen + MicroSeconds K.RECEIVE_DELAY1 := hts
  have hlt : MicroSeconds K.RECEIVE_DELAY1 < MicroSeconds K.RECEIVE_DELAY2 := by
    simp only [MicroSeconds]
    have : (K.RECEIVE_DELAY1 : Int) < K.RECEIVE_DELAY2 := by exact_mod_cast hK
    omega
  have hpos : (d.m_lastSeen + MicroSeconds K.RECEIVE_DELAY2) - now > 0 := by omega
  refine ⟨d, hd, by omega, hpos, RW1TimerExpired_returns K can s now key d hd hpos, ?_⟩
  intro hnil
  rw [RW1TimerExpired_known K can s now key d hd, if_pos hnil, if_pos hpos]
  have : now + (d.m_lastSeen + MicroSeconds ↑K.RECEIVE_DELAY2 - now) =
      d.m_lastSeen + MicroSeconds ↑K.RECEIVE_DELAY2 := by ring
  rw [this]

/-- Worked instance of C13: device 1 sends frame counters 0 and 1 at time 0 and at
0.5 s; the RW1 timer of the first uplink fires at 1 s and no gateway can send. -/
theorem C13_window2_delay_positive_witness :
    ∃ d, ((run sampleConstants (freshServer false false)
          sampleUplinksBeforeExpiry).getD sampleServer).m_endDevices 1 = some d ∧
      MicroSeconds sampleConstants.RECEIVE_DELAY2 - MicroSeconds sampleConstants.RECEIVE_DELAY1 ≤
        (d.m_lastSeen + MicroSeconds sampleConstants.RECEIVE_DELAY2) - 1000000000 ∧
      0 < (d.m_lastSeen + MicroSeconds sampleConstants.RECEIVE_DELAY2) - 1000000000 ∧
      (∃ s', RW1TimerExpired sampleConstants (onlyGateway 9)
        ((run sampleConstants (freshServer false false)
          sampleUplinksBeforeExpiry).getD sampleServer) 1000000000 1 = some s') ∧
      (capableGateways sampleConstants (onlyGateway 9) 1 d.m_lastChannelIndex true false
          d.m_lastGWs ((run sampleConstants (freshServer false false)
            sampleUplinksBeforeExpiry).getD sampleServer) = [] →
        RW1TimerExpired sampleConstants (onlyGateway 9)
          ((run sampleConstants (freshServer false false)
            sampleUplinksBeforeExpiry).getD sampleServer) 1000000000 1 =
          some (serverAfterRW2Schedule ((run sampleConstants (freshServer false false)
            sampleUplinksBeforeExpiry).getD sampleServer) d 1
            (1000000000 + ((d.m_lastSeen + MicroSeconds sampleConstants.RECEIVE_DELAY2) -
              1000000000)))) :=
  C13_window2_delay_positive sampleConstants (by decide) (freshServer false false) 0
    (by decide)
    (by
      intro key d h
      by_cases hk : key = 1
      · subst hk
        have : d = (InitEndDeviceInfo (emptyServer false false) 0 1 10000000000).1 :=
          (Option.some.inj h).symm
        rw [this]
        decide
      · simp [freshServer, setDevice, InitEndDeviceInfo, emptyServer, hk] at h)
    (by decide)
    sampleUplinksBeforeExpiry (onlyGateway 9) 1000000000 1 (by decide) _ rfl

/-- C18 (an acknowledgment is delivered at most once per uplink occasion): let device
`key` have a record with `m_nDSAcks = 0` and no acknowledgment pending, as a fresh
record has.  After every sequence of calls (uplinks, window expiries with any gateway
capabilities, sends, generator ticks) that returns, the frames handed to gateways
for `key` during the run with the ack bit set are exactly `m_nDSAcks` many, and this
number is at most the number of non-duplicate confirmed uplinks of `key` processed
during the run. -/
theorem C18_acks_at_most_confirmed_uplinks (K : LoRaWANConstants) (key : Nat)
    (s : LoRaWANNetworkServer) (d0 : LoRaWANEndDeviceInfoNS)
    (hd0 : s.m_endDevices key = some d0)
    (hacks : d0.m_nDSAcks = 0) (hset : d0.m_setAck = false)
    (calls : List Call) (s1 : LoRaWANNetworkServer) (hrun : run K s calls = some s1) :
    ∃ new d1, s1.transmitted = s.transmitted ++ new ∧
      s1.m_endDevices key = some d1 ∧
      (ackFramesOf key new).length = d1.m_nDSAcks ∧
      d1.m_nDSAcks ≤ confirmedUplinksProcessed K key s calls := by
  obtain ⟨new, d1, htr, hl, hcount⟩ := run_ack_frames K key s d0 hd0 calls s1 hrun
  obtain ⟨d1', hl', hle⟩ := run_ack_budget K key calls s s1 d0 hd0 hrun
  have hdd : d1' = d1 := Option.some.inj (hl'.symm.trans hl)
  subst hdd
  refine ⟨new, d1', htr, hl, by omega, ?_⟩
  have h0 : acksSentOrPending d0 = 0 := by simp [acksSentOrPending, hacks, hset]
  have h1 : d1'.m_nDSAcks ≤ acksSentOrPending d1' := by
    simp only [acksSentOrPending]
    omega
  omega

/-- Worked instance of C18: a confirmed uplink of the fresh device 1 is heard by two
gateways, both able to send at the RW1 expiry; one acknowledgment is sent for the one
non-duplicate confirmed uplink. -/
theorem C18_acks_at_most_confirmed_uplinks_witness :
    ∃ new d1,
      ((run sampleConstants (freshServer false false)
          sampleConfirmedUplinkTwoRelays).getD sampleServer).transmitted =
        (freshServer false false).transmitted ++ new ∧
      ((run sampleConstants (freshServer false false)
          sampleConfirmedUplinkTwoRelays).getD sampleServer).m_endDevices 1 = some d1 ∧
      (ackFramesOf 1 new).length = d1.m_nDSAcks ∧
      d1.m_nDSAcks ≤ confirmedUplinksProcessed sampleConstants 1 (freshServer false false)
        sampleConfirmedUplinkTwoRelays :=
  C18_acks_at_most_confirmed_uplinks sampleConstants 1 (freshServer false false)
    (InitEndDeviceInfo (emptyServer false false) 0 1 10000000000).1 rfl rfl rfl
    sampleConfirmedUplinkTwoRelays _ rfl

/-! ## Claims C21 to C25 -/

/-- C21 (heard-set update): for a known device with last-seen time `L` before the
call, and for every uplink, whether `HandleUSPacket` classifies it as new, as a
retransmission or as a duplicate: if `now - L > 1 s` the heard set `m_lastGWs`
afterwards is the single receiving gateway, otherwise it is the previous heard set
with the receiving gateway appended at the end.  For a device without a record the
heard set afterwards is the single receiving gateway. -/
theorem C21_heard_set_update (K : LoRaWANConstants) (s : LoRaWANNetworkServer) (now : Int)
    (lastGW : Nat) (packet : USPacket) (t : Int) (d : LoRaWANEndDeviceInfoNS)
    (hd : s.m_endDevices packet.frmHdr.devAddr = some d) :
    (∃ d', (HandleUSPacket K s now lastGW packet t).m_endDevices packet.frmHdr.devAddr = some d' ∧
      d'.m_lastGWs =
        if now - d.m_lastSeen > Seconds 1 then [lastGW] else d.m_lastGWs ++ [lastGW]) ∧
    (∀ other : USPacket, s.m_endDevices other.frmHdr.devAddr = none →
      ∃ d', (HandleUSPacket K s now lastGW other t).m_endDevices other.frmHdr.devAddr = some d' ∧
        d'.m_lastGWs = [lastGW]) := by
  have key : ∀ (s1 : LoRaWANNetworkServer) (p : USPacket) (d1 : LoRaWANEndDeviceInfoNS),
      s1.m_endDevices p.frmHdr.devAddr = some d1 →
      ∃ d', (HandleUSPacket K s1 now lastGW p t).m_endDevices p.frmHdr.devAddr = some d' ∧
        d'.m_lastGWs =
          if now - d1.m_lastSeen > Seconds 1 then [lastGW] else d1.m_lastGWs ++ [lastGW] := by
    intro s1 p d1 h1
    refine ⟨_, HandleUSPacket_at K s1 now lastGW p t p.frmHdr.devAddr d1 h1, ?_⟩
    rw [if_pos rfl]
    by_cases hdup : isDuplicate d1 now p.frmHdr.frameCounter
    · rw [if_pos hdup]
      have hle : ¬ now - d1.m_lastSeen > Seconds 1 := not_lt.mpr hdup.2.2
      rw [if_neg hle]
      rfl
    · rw [if_neg hdup]
      by_cases hgt : now - d1.m_lastSeen > Seconds 1
      · simp [recordAfterUplink, hgt]
      · simp [recordAfterUplink, hgt]
  refine ⟨key s packet d hd, ?_⟩
  intro other hnone
  rw [HandleUSPacket_unknown K s now lastGW other t hnone]
  obtain ⟨d', hd', hgw⟩ := key
    (setDevice (InitEndDeviceInfo s now other.frmHdr.devAddr t).2 other.frmHdr.devAddr
      (InitEndDeviceInfo s now other.frmHdr.devAddr t).1) other
    (InitEndDeviceInfo s now other.frmHdr.devAddr t).1 (by simp [setDevice])
  refine ⟨d', hd', ?_⟩
  rw [hgw]
  have hgws : (InitEndDeviceInfo s now other.frmHdr.devAddr t).1.m_lastGWs = [] := by
    unfold InitEndDeviceInfo; split <;> rfl
  rw [hgws]
  split <;> rfl

/-- Worked instance of C21: device 1 (last seen at 0, heard by gateway 2) is heard
through gateway 4 after 0.5 s with the stored counter 5, a duplicate; gateway 4 is
appended. -/
theorem C21_heard_set_update_witness :
    (∃ d', (HandleUSPacket sampleConstants sampleServer 500000000 4
        (sampleUplink 5 false LORAWAN_UNCONFIRMED_DATA_UP) 0).m_endDevices
          (sampleUplink 5 false LORAWAN_UNCONFIRMED_DATA_UP).frmHdr.devAddr = some d' ∧
      d'.m_lastGWs =
        if 500000000 - sampleDevice.m_lastSeen > Seconds 1 then [4]
        else sampleDevice.m_lastGWs ++ [4]) ∧
    (∀ other : USPacket, sampleServer.m_endDevices other.frmHdr.devAddr = none →
      ∃ d', (HandleUSPacket sampleConstants sampleServer 500000000 4 other 0).m_endDevices
          other.frmHdr.devAddr = some d' ∧
        d'.m_lastGWs = [4]) :=
  C21_heard_set_update sampleConstants sampleServer 500000000 4
    (sampleUplink 5 false LORAWAN_UNCONFIRMED_DATA_UP) 0 sampleDevice rfl

/-- C22 (generator tick): for a known device, `DSTimerExpired` appends exactly one
element at the tail of its queue, the elements already queued staying as they were
and in order.  The new element has a payload of `m_pktSize` bytes, port 1 and the
retransmission flag cleared; with `m_confirmedData` set it is confirmed data down
with `DEFAULT_NUMBER_DS_TRANSMISSIONS` transmissions remaining, otherwise unconfirmed
data down with 1 remaining.  `m_nDSPacketsGenerated` grows by one.  For an address
without a record the server is unchanged. -/
theorem C22_generator_tick (K : LoRaWANConstants) (s : LoRaWANNetworkServer) (now : Int)
    (deviceAddr : Nat) (t : Int) (d : LoRaWANEndDeviceInfoNS)
    (hd : s.m_endDevices deviceAddr = some d) :
    (∃ d' e, (DSTimerExpired K s now deviceAddr t).m_endDevices deviceAddr = some d' ∧
      d'.m_downstreamQueue = d.m_downstreamQueue ++ [e] ∧
      e.m_downstreamPacket.length = s.m_pktSize ∧
      e.m_downstreamFramePort = 1 ∧
      e.m_isRetransmission = false ∧
      (s.m_confirmedData = true →
        e.m_downstreamMsgType = LORAWAN_CONFIRMED_DATA_DOWN ∧
        e.m_downstreamTransmissionsRemaining = K.DEFAULT_NUMBER_DS_TRANSMISSIONS) ∧
      (s.m_confirmedData = false →
        e.m_downstreamMsgType = LORAWAN_UNCONFIRMED_DATA_DOWN ∧
        e.m_downstreamTransmissionsRemaining = 1) ∧
      d'.m_nDSPacketsGenerated = d.m_nDSPacketsGenerated + 1) ∧
    (∀ other, s.m_endDevices other = none → DSTimerExpired K s now other t = s) := by
  refine ⟨⟨recordAfterTick K s d now t,
    { m_downstreamPacket := List.replicate s.m_pktSize 0,
      m_downstreamMsgType :=
        if s.m_confirmedData then LORAWAN_CONFIRMED_DATA_DOWN
        else LORAWAN_UNCONFIRMED_DATA_DOWN,
      m_downstreamFramePort := 1,
      m_downstreamTransmissionsRemaining :=
        if s.m_confirmedData then K.DEFAULT_NUMBER_DS_TRANSMISSIONS else 1,
      m_isRetransmission := false }, ?_, rfl, ?_, rfl, rfl, ?_, ?_, rfl⟩,
    fun other h => DSTimerExpired_unknown K s now other t h⟩
  · rw [DSTimerExpired_at K s now deviceAddr t deviceAddr d hd, if_pos rfl]
  · simp
  · intro hc
    simp [hc]
  · intro hc
    simp [hc]

/-- Worked instance of C22: a tick for device 1 of the sample server (generator of
unconfirmed data, 21 bytes) at 7 s. -/
theorem C22_generator_tick_witness :
    (∃ d' e, (DSTimerExpired sampleConstants sampleServer 7000000000 1
        10000000000).m_endDevices 1 = some d' ∧
      d'.m_downstreamQueue = sampleDevice.m_downstreamQueue ++ [e] ∧
      e.m_downstreamPacket.length = sampleServer.m_pktSize ∧
      e.m_downstreamFramePort = 1 ∧
      e.m_isRetransmission = false ∧
      (sampleServer.m_confirmedData = true →
        e.m_downstreamMsgType = LORAWAN_CONFIRMED_DATA_DOWN ∧
        e.m_downstreamTransmissionsRemaining =
          sampleConstants.DEFAULT_NUMBER_DS_TRANSMISSIONS) ∧
      (sampleServer.m_confirmedData = false →
        e.m_downstreamMsgType = LORAWAN_UNCONFIRMED_DATA_DOWN ∧
        e.m_downstreamTransmissionsRemaining = 1) ∧
      d'.m_nDSPacketsGenerated = sampleDevice.m_nDSPacketsGenerated + 1) ∧
    (∀ other, sampleServer.m_endDevices other = none →
      DSTimerExpired sampleConstants sampleServer 7000000000 other 10000000000 =
        sampleServer) :=
  C22_generator_tick sampleConstants sampleServer 7000000000 1 10000000000 sampleDevice rfl

/-- C24 (uplink counter partition): if `m_nUSPackets` of device `key` is the sum of
`m_nUniqueUSPackets`, `m_nUSDuplicates` and `m_nUSRetransmission` before a sequence of
calls (as it is for the record `InitEndDeviceInfo` returns, all four being 0), it is
so after the sequence, for every sequence that returns; a device that has a record
keeps having one.  The reason: in the state reached, every uplink of `key` makes
`HandleUSPacket` add one to `m_nUSPackets` and one to exactly one of the three other
counters. -/
theorem C24_uplink_counter_partition (K : LoRaWANConstants) (key : Nat)
    (s : LoRaWANNetworkServer)
    (h0 : ∀ d0, s.m_endDevices key = some d0 →
      d0.m_nUSPackets = d0.m_nUniqueUSPackets + d0.m_nUSDuplicates + d0.m_nUSRetransmission)
    (calls : List Call) (s1 : LoRaWANNetworkServer) (hrun : run K s calls = some s1) :
    (∀ d1, s1.m_endDevices key = some d1 →
      d1.m_nUSPackets = d1.m_nUniqueUSPackets + d1.m_nUSDuplicates + d1.m_nUSRetransmission) ∧
    (∀ d0, s.m_endDevices key = some d0 → ∃ d1, s1.m_endDevices key = some d1) ∧
    (∀ s2 now t, (InitEndDeviceInfo s2 now key t).1.m_nUSPackets = 0 ∧
      (InitEndDeviceInfo s2 now key t).1.m_nUniqueUSPackets = 0 ∧
      (InitEndDeviceInfo s2 now key t).1.m_nUSDuplicates = 0 ∧
      (InitEndDeviceInfo s2 now key t).1.m_nUSRetransmission = 0) ∧
    (∀ now lastGW packet t d1, packet.frmHdr.devAddr = key → s1.m_endDevices key = some d1 →
      ∃ d2, (HandleUSPacket K s1 now lastGW packet t).m_endDevices key = some d2 ∧
        d2.m_nUSPackets = d1.m_nUSPackets + 1 ∧
        ((d2.m_nUniqueUSPackets = d1.m_nUniqueUSPackets + 1 ∧
            d2.m_nUSDuplicates = d1.m_nUSDuplicates ∧
            d2.m_nUSRetransmission = d1.m_nUSRetransmission) ∨
         (d2.m_nUniqueUSPackets = d1.m_nUniqueUSPackets ∧
            d2.m_nUSDuplicates = d1.m_nUSDuplicates + 1 ∧
            d2.m_nUSRetransmission = d1.m_nUSRetransmission) ∨
         (d2.m_nUniqueUSPackets = d1.m_nUniqueUSPackets ∧
            d2.m_nUSDuplicates = d1.m_nUSDuplicates ∧
            d2.m_nUSRetransmission = d1.m_nUSRetransmission + 1))) := by
  have hfresh : ∀ (s2 : LoRaWANNetworkServer) (now t : Int),
      (InitEndDeviceInfo s2 now key t).1.m_nUSPackets = 0 ∧
      (InitEndDeviceInfo s2 now key t).1.m_nUniqueUSPackets = 0 ∧
      (InitEndDeviceInfo s2 now key t).1.m_nUSDuplicates = 0 ∧
      (InitEndDeviceInfo s2 now key t).1.m_nUSRetransmission = 0 := by
    intro s2 now t
    unfold InitEndDeviceInfo
    split <;> exact ⟨rfl, rfl, rfl, rfl⟩
  refine ⟨?_, fun d0 hd0 => run_keeps_known K key s d0 hd0 calls s1 hrun, hfresh, ?_⟩
  · refine run_record_invariant K key
      (fun d => d.m_nUSPackets =
        d.m_nUniqueUSPackets + d.m_nUSDuplicates + d.m_nUSRetransmission)
      ?_ ?_ ?_ ?_ ?_ ?_ calls s s1 h0 hrun
    · intro s2 now t
      obtain ⟨h1, h2, h3, h4⟩ := hfresh s2 now t
      simp only [h1, h2, h3, h4]
    · intro d gw hI
      simp only [recordAfterDuplicate]
      omega
    · intro d now gw packet hI
      simp only [recordAfterUplink]
      split_ifs <;> omega
    · intro d gw RW1 hI
      exact hI
    · intro s2 d now t hI
      exact hI
    · intro d ts hI
      exact hI
  · intro now lastGW packet t d1 hk hd1
    refine ⟨_, HandleUSPacket_at K s1 now lastGW packet t key d1 hd1, ?_⟩
    rw [if_pos hk]
    by_cases hdup : isDuplicate d1 now packet.frmHdr.frameCounter
    · rw [if_pos hdup]
      exact ⟨rfl, Or.inr (Or.inl ⟨rfl, rfl, rfl⟩)⟩
    · rw [if_neg hdup]
      refine ⟨rfl, ?_⟩
      by_cases hold : packet.frmHdr.frameCounter ≤ d1.m_fCntUp ∧ packet.frmHdr.frameCounter ≠ 0
      · exact Or.inr (Or.inr (by simp [recordAfterUplink, hold]))
      · exact Or.inl (by simp [recordAfterUplink, hold])

/-- Worked instance of C24: the fresh device 1 goes through a new uplink, a
duplicate, a tick, two window expiries and a retransmission. -/
theorem C24_uplink_counter_partition_witness :
    ∃ d1, ((run sampleConstants (freshServer false true)
        sampleMixedCalls).getD sampleServer).m_endDevices 1 = some d1 ∧
      d1.m_nUSPackets = d1.m_nUniqueUSPackets + d1.m_nUSDuplicates + d1.m_nUSRetransmission :=
  have h := C24_uplink_counter_partition sampleConstants 1 (freshServer false true)
    (by
      intro d0 h
      have : d0 = (InitEndDeviceInfo (emptyServer false true) 0 1 10000000000).1 :=
        (Option.some.inj h).symm
      rw [this]
      decide)
    sampleMixedCalls ((run sampleConstants (freshServer false true)
        sampleMixedCalls).getD sampleServer) rfl
  Exists.elim (h.2.1 _ rfl) (fun d1 hd1 => ⟨d1, hd1, h.1 d1 hd1⟩)

/-- C25 (downlink counter consistency): if for device `key` `m_nDSPacketsSent` is the
sum of `m_nDSPacketsSentRW1` and `m_nDSPacketsSentRW2`, `m_fCntDown` equals
`m_nDSPacketsSent`, and `m_nDSAcks` is at most `m_nDSPacketsSent` before a sequence of
calls (as for the record `InitEndDeviceInfo` returns, all five being 0), the same
holds after the sequence, for every sequence that returns; in particular `m_fCntDown`
and `m_nDSPacketsSent` agree modulo every power of two.  A device that has a record
keeps having one. -/
theorem C25_downlink_counter_consistency (K : LoRaWANConstants) (key : Nat)
    (s : LoRaWANNetworkServer)
    (h0 : ∀ d0, s.m_endDevices key = some d0 →
      d0.m_nDSPacketsSent = d0.m_nDSPacketsSentRW1 + d0.m_nDSPacketsSentRW2 ∧
      d0.m_fCntDown = d0.m_nDSPacketsSent ∧ d0.m_nDSAcks ≤ d0.m_nDSPacketsSent)
    (calls : List Call) (s1 : LoRaWANNetworkServer) (hrun : run K s calls = some s1) :
    (∀ d1, s1.m_endDevices key = some d1 →
      d1.m_nDSPacketsSent = d1.m_nDSPacketsSentRW1 + d1.m_nDSPacketsSentRW2 ∧
      d1.m_fCntDown = d1.m_nDSPacketsSent ∧
      (∀ w : Nat, d1.m_fCntDown % 2 ^ w = d1.m_nDSPacketsSent % 2 ^ w) ∧
      d1.m_nDSAcks ≤ d1.m_nDSPacketsSent) ∧
    (∀ d0, s.m_endDevices key = some d0 → ∃ d1, s1.m_endDevices key = some d1) ∧
    (∀ s2 now t, (InitEndDeviceInfo s2 now key t).1.m_nDSPacketsSent = 0 ∧
      (InitEndDeviceInfo s2 now key t).1.m_nDSPacketsSentRW1 = 0 ∧
      (InitEndDeviceInfo s2 now key t).1.m_nDSPacketsSentRW2 = 0 ∧
      (InitEndDeviceInfo s2 now key t).1.m_fCntDown = 0 ∧
      (InitEndDeviceInfo s2 now key t).1.m_nDSAcks = 0) := by
  have hfresh : ∀ (s2 : LoRaWANNetworkServer) (now t : Int),
      (InitEndDeviceInfo s2 now key t).1.m_nDSPacketsSent = 0 ∧
      (InitEndDeviceInfo s2 now key t).1.m_nDSPacketsSentRW1 = 0 ∧
      (InitEndDeviceInfo s2 now key t).1.m_nDSPacketsSentRW2 = 0 ∧
      (InitEndDeviceInfo s2 now key t).1.m_fCntDown = 0 ∧
      (InitEndDeviceInfo s2 now key t).1.m_nDSAcks = 0 := by
    intro s2 now t
    unfold InitEndDeviceInfo
    split <;> exact ⟨rfl, rfl, rfl, rfl, rfl⟩
  have hinv := run_record_invariant K key
    (fun d => d.m_nDSPacketsSent = d.m_nDSPacketsSentRW1 + d.m_nDSPacketsSentRW2 ∧
      d.m_fCntDown = d.m_nDSPacketsSent ∧ d.m_nDSAcks ≤ d.m_nDSPacketsSent)
    (by
      intro s2 now t
      obtain ⟨h1, h2, h3, h4, h5⟩ := hfresh s2 now t
      simp [h1, h2, h3, h4, h5])
    (fun d gw hI => hI)
    (fun d now gw packet hI => hI)
    (by
      intro d gw RW1 hI
      obtain ⟨h1, h2, h3⟩ := hI
      simp only [recordAfterSend]
      refine ⟨?_, ?_, ?_⟩
      · cases RW1 <;> simp <;> omega
      · omega
      · split_ifs <;> omega)
    (fun s2 d now t hI => hI)
    (fun d ts hI => hI)
    calls s s1 h0 hrun
  refine ⟨?_, fun d0 hd0 => run_keeps_known K key s d0 hd0 calls s1 hrun, hfresh⟩
  intro d1 hd1
  obtain ⟨h1, h2, h3⟩ := hinv d1 hd1
  exact ⟨h1, h2, fun w => by rw [h2], h3⟩

/-- Worked instance of C25: the fresh device 1 is sent three frames in two window-1
expiries, two of them with the ack bit. -/
theorem C25_downlink_counter_consistency_witness :
    ∃ d1, ((run sampleConstants (freshServer false true)
        sampleMixedCalls).getD sampleServer).m_endDevices 1 = some d1 ∧
      d1.m_nDSPacketsSent = d1.m_nDSPacketsSentRW1 + d1.m_nDSPacketsSentRW2 ∧
      d1.m_fCntDown = d1.m_nDSPacketsSent ∧
      (∀ w : Nat, d1.m_fCntDown % 2 ^ w = d1.m_nDSPacketsSent % 2 ^ w) ∧
      d1.m_nDSAcks ≤ d1.m_nDSPacketsSent :=
  have h := C25_downlink_counter_consistency sampleConstants 1 (freshServer false true)
    (by
      intro d0 h
      have : d0 = (InitEndDeviceInfo (emptyServer false true) 0 1 10000000000).1 :=
        (Option.some.inj h).symm
      rw [this]
      decide)
    sampleMixedCalls ((run sampleConstants (freshServer false true)
        sampleMixedCalls).getD sampleServer) rfl
  Exists.elim (h.2.1 _ rfl) (fun d1 hd1 => ⟨d1, hd1, h.1 d1 hd1⟩)

/-- C23 (FIFO queue invariant): for a device `key` with a record and every call of one
of the five operations that returns, the queue of `key` changes as `fifoEffect`
allows.  `HandleUSPacket` sends nothing and leaves the queue, or (uplink of `key`
with the ack bit) removes a confirmed head.  `DSTimerExpired` sends nothing and
leaves the queue, or (tick for `key`) appends one element at the back.
`SendDSPacket` leaves the queue and sends nothing for `key`, or (send for `key`)
hands over one frame with the payload and message type of the head, which is then
removed or stays in place with only its remaining count decremented and its
retransmission flag set; with an empty queue the frame has no payload.
`RW1TimerExpired` and `RW2TimerExpired` do a sequence of such sends, each from the
head at that moment, and nothing else to the queue.  So no operation reorders
elements, inserts one before another, removes or sends an element that is not the
head, or changes a queued element other than in the head's count and flag. -/
theorem C23_fifo_queue (K : LoRaWANConstants) (key : Nat) (s : LoRaWANNetworkServer)
    (d : LoRaWANEndDeviceInfoNS) (hd : s.m_endDevices key = some d) (c : Call)
    (s' : LoRaWANNetworkServer) (hcall : call K s c = some s') :
    ∃ d' new, s'.m_endDevices key = some d' ∧
      s'.transmitted = s.transmitted ++ new ∧
      fifoEffect K key d.m_downstreamQueue (downlinksOf key new) d'.m_downstreamQueue c := by
  cases c with
  | HandleUSPacket now lastGW packet t =>
    simp only [call, Option.some.injEq] at hcall
    subst hcall
    refine ⟨_, [], HandleUSPacket_at K s now lastGW packet t key d hd,
      by rw [(HandleUSPacket_frame K s now lastGW packet t).1, List.append_nil], rfl, ?_⟩
    by_cases hk : packet.frmHdr.devAddr = key
    · rw [if_pos hk]
      by_cases hdup : isDuplicate d now packet.frmHdr.frameCounter
      · rw [if_pos hdup]
        exact Or.inl rfl
      · rw [if_neg hdup]
        rcases recordAfterUplink_queue K d now lastGW packet with h | ⟨hack, e, he, hq⟩
        · exact Or.inl h
        · exact Or.inr ⟨hk, hack, e, he, hq⟩
    · rw [if_neg hk]
      exact Or.inl rfl
  | DSTimerExpired now deviceAddr t =>
    simp only [call, Option.some.injEq] at hcall
    subst hcall
    refine ⟨_, [], DSTimerExpired_at K s now deviceAddr t key d hd,
      by rw [(DSTimerExpired_frame K s now deviceAddr t).1, List.append_nil], rfl, ?_⟩
    by_cases hk : deviceAddr = key
    · rw [if_pos hk]
      exact Or.inr ⟨hk, _, rfl⟩
    · rw [if_neg hk]
      exact Or.inl rfl
  | SendDSPacket deviceAddr gatewayPtr RW1 RW2 =>
    simp only [call] at hcall
    obtain ⟨d', new, hd', htr, hstep⟩ :=
      SendDSPacket_fifo K key s s' d hd deviceAddr gatewayPtr RW1 RW2 hcall
    exact ⟨d', new, hd', htr, hstep⟩
  | RW1TimerExpired can now deviceAddr =>
    simp only [call] at hcall
    rcases hda : s.m_endDevices deviceAddr with _ | da
    · simp [RW1TimerExpired, hda] at hcall
    · rw [RW1TimerExpired_known K can s now deviceAddr da hda] at hcall
      split_ifs at hcall with h1 h2
      · rw [← Option.some.inj hcall]
        by_cases hk : key = deviceAddr
        · subst hk
          have hdd : da = d := Option.some.inj (hda.symm.trans hd)
          subst hdd
          exact ⟨{ da with m_rw2Timer := some (da.m_lastSeen + MicroSeconds K.RECEIVE_DELAY2) },
            [], by rw [serverAfterRW2Schedule_at, if_pos rfl],
            by simp [serverAfterRW2Schedule, setDevice],
            rfl, fun _ => rfl⟩
        · exact ⟨d, [], by rw [serverAfterRW2Schedule_at, if_neg hk]; exact hd,
            by simp [serverAfterRW2Schedule, setDevice], rfl, fun _ => rfl⟩
      · exact run_sendCalls_fifo K key deviceAddr true false _ s s' d hd hcall
  | RW2TimerExpired can deviceAddr =>
    simp only [call] at hcall
    rcases hda : s.m_endDevices deviceAddr with _ | da
    · simp [RW2TimerExpired, hda] at hcall
    · rw [RW2TimerExpired_known K can s deviceAddr da hda] at hcall
      exact run_sendCalls_fifo K key deviceAddr false true _ s s' d hd hcall

/-- Worked instance of C23: the RW1 expiry of device 1, heard by the capable gateways
2 and 3, with a confirmed head whose count is 0: the head is sent twice and stays in
place, its count wrapping around and then decreasing, before the unconfirmed element
behind it. -/
theorem C23_fifo_queue_witness :
    ∃ d' new,
      ((call sampleConstants sampleServerCountZero
          (Call.RW1TimerExpired (fun _ _ _ => true) 1000000000 1)).getD
        sampleServer).m_endDevices 1 = some d' ∧
      ((call sampleConstants sampleServerCountZero
          (Call.RW1TimerExpired (fun _ _ _ => true) 1000000000 1)).getD
        sampleServer).transmitted = sampleServerCountZero.transmitted ++ new ∧
      fifoEffect sampleConstants 1
        ({ sampleDevice with m_lastGWs := [2, 3],
                             m_downstreamQueue := [sampleConfirmed 0, sampleUnconfirmed] } :
          LoRaWANEndDeviceInfoNS).m_downstreamQueue
        (downlinksOf 1 new) d'.m_downstreamQueue
        (Call.RW1TimerExpired (fun _ _ _ => true) 1000000000 1) :=
  C23_fifo_queue sampleConstants 1 sampleServerCountZero
    { sampleDevice with m_lastGWs := [2, 3],
                        m_downstreamQueue := [sampleConfirmed 0, sampleUnconfirmed] } rfl
    (Call.RW1TimerExpired (fun _ _ _ => true) 1000000000 1) _ rfl

end LoRaWAN
